import Mathlib

/-!
Router engine configuration loader (`router/core/factoryresolver.go`).

A shallow embedding of the `Loader` of `factoryresolver.go` and theorems about it.

Conventions of the embedding:

* a Go pointer that may be `nil` is an `Option`; dereferencing `none` is a run-time panic;
* a Go function returning `(T, error)` returns an `Outcome T`: a value, an error, or a panic.
  A callee's value is never inspected by this file once its error is non-nil, so the pair is
  a sum;
* a Go slice built with `append` or `make` is a `Slice`, which keeps `nil` apart from empty;
  a slice that is only read or copied is a `List`;
* a Go `map` that is only iterated is the list of its entries in the order the `range`
  statement visits them;
* an error built by `fmt.Errorf` is kept as its format string and its formatted arguments;
* a function defined outside `factoryresolver.go` is a field of `Collaborators`; where a call
  of it may panic, a second field says on which arguments it does.
-/

namespace Cosmo

/-! ## Errors, outcomes, slices -/

/-- Go `error` values. `foreign` is an error made outside this file (by a resolver, the event
type reader or the header rules); `errorf` is `fmt.Errorf` without `%w`; `wrapf` is
`fmt.Errorf` whose last verb is `%w`, wrapping `inner`. -/
inductive GoError where
  | foreign (msg : String)
  | errorf (format : String) (args : List String)
  | wrapf (format : String) (args : List String) (inner : GoError)
deriving DecidableEq, Repr

/-- All arguments formatted into the message of an error, outermost first. -/
def GoError.args : GoError → List String
  | .foreign _ => []
  | .errorf _ a => a
  | .wrapf _ a inner => a ++ inner.args

/-- Result of running Go code that returns `(T, error)`: a value with a nil error, a non-nil
error (with the zero value), or a run-time panic (nil pointer dereference). -/
inductive Outcome (α : Type) where
  | ok (val : α)
  | error (err : GoError)
  | panic
deriving DecidableEq, Repr

/-- Sequencing: an error or a panic ends the run. -/
def Outcome.bind {α β : Type} : Outcome α → (α → Outcome β) → Outcome β
  | .ok a, f => f a
  | .error e, _ => .error e
  | .panic, _ => .panic

instance : Monad Outcome where
  pure := Outcome.ok
  bind := Outcome.bind

/-- Dereference of a pointer: `nil` panics. -/
def deref {α : Type} : Option α → Outcome α
  | some a => .ok a
  | none => .panic

/-- A collaborator that returns `(T, error)` and does not panic. -/
def liftExcept {α : Type} : Except GoError α → Outcome α
  | .ok a => .ok a
  | .error e => .error e

/-- The idiom `v, err := f(); if err != nil { return nil, fmt.Errorf(format, args..., err) }`
with a format that ends in `%w`: a non-nil error is wrapped. -/
def wrapError {α : Type} (format : String) (args : List String) : Outcome α → Outcome α
  | .ok a => .ok a
  | .error err => .error (.wrapf format args err)
  | .panic => .panic

/-- A Go slice value: `nil`, or a (possibly empty) allocated slice. -/
inductive Slice (α : Type) where
  | nil
  | mk (elems : List α)
deriving DecidableEq, Repr

/-- Elements of a slice; `nil` has none. -/
def Slice.toList {α : Type} : Slice α → List α
  | .nil => []
  | .mk xs => xs

/-- Go `append(s, x)`: the result is never `nil`. -/
def Slice.append {α : Type} (s : Slice α) (x : α) : Slice α :=
  .mk (s.toList ++ [x])

/-- A `for _, x := range xs { ... }` loop over a list, threading the loop state; the body may
return early with an error or panic. -/
def forRange {α σ : Type} (xs : List α) (s : σ) (body : σ → α → Outcome σ) : Outcome σ :=
  match xs with
  | [] => .ok s
  | x :: rest =>
    match body s x with
    | .ok s' => forRange rest s' body
    | .error e => .error e
    | .panic => .panic

/-- The idiom `out := make([]T, len(xs)); for i, v := range xs { out[i] = f(v) }`: the result
is allocated (not `nil`) also when `xs` is empty. -/
def makeAndFill {α β : Type} (xs : List α) (f : α → Outcome β) : Outcome (Slice β) :=
  Outcome.bind (forRange xs [] (fun acc x => Outcome.bind (f x) (fun v => .ok (acc ++ [v]))))
    (fun out => .ok (.mk out))

/-! ## Source configuration (`nodev1`, `common`) -/

namespace nodev1

/-- Modelled from the spec: `common.GraphQLSubscriptionProtocol`, the subscription protocol
enum (WS, SSE, SSE over POST). An enum of the wire format is open: `unrecognized` is any other
number. -/
inductive GraphQLSubscriptionProtocol where
  | WS
  | SSE
  | SSE_POST
  | unrecognized (n : Nat)
deriving DecidableEq, Repr

/-- Modelled from the spec: `nodev1.DataSourceKind`, the kind tag of a data source. The enum
is open: `unrecognized` is any number other than the three declared ones. -/
inductive DataSourceKind where
  | STATIC
  | GRAPHQL
  | PUBSUB
  | unrecognized (n : Nat)
deriving DecidableEq, Repr

/-- The `String()` method of the generated enum: the declared name, or the number in decimal
for an undeclared value. -/
def DataSourceKind.String : DataSourceKind → String
  | .STATIC => "STATIC"
  | .GRAPHQL => "GRAPHQL"
  | .PUBSUB => "PUBSUB"
  | .unrecognized n => toString n

/-- Modelled from the spec: `nodev1.ArgumentSource`, where an argument value comes from. -/
inductive ArgumentSource where
  | OBJECT_FIELD
  | FIELD_ARGUMENT
  | unrecognized (n : Nat)
deriving DecidableEq, Repr

/-- Modelled from the spec: `nodev1.ConfigurationVariable`, a value that is either a literal
string or a reference resolved by the string-variable loader. The kind tag of a variable is an
enum of the wire format, which is open: `unhandled` is a variable whose kind is any number for
which the string-variable loader has no case that returns. -/
inductive ConfigurationVariable where
  | literal (content : String)
  | reference (name : String) (fallback : String)
  | unhandled (kind : Nat)
deriving DecidableEq, Repr

/-- Whether the kind of a string variable is one the string-variable loader handles. A nil
variable is read through nil-safe getters and counts as a literal without content. -/
def ConfigurationVariable.Handled : Option ConfigurationVariable → Bool
  | some (.unhandled _) => false
  | _ => true

/-- `nodev1.EventType`: the raw enum number of an event declaration. -/
structure EventType where
  number : Nat
deriving DecidableEq, Repr

/-- `nodev1.HTTPMethod`: the raw enum number. -/
structure HTTPMethod where
  number : Nat
deriving DecidableEq, Repr

structure InternedString where
  Key : String
deriving DecidableEq, Repr

structure ArgumentConfiguration where
  Name : String
  SourceType : ArgumentSource
deriving DecidableEq, Repr

structure Scopes where
  RequiredAndScopes : List String
deriving DecidableEq, Repr

structure AuthorizationConfiguration where
  RequiresAuthentication : Bool
  RequiredOrScopes : List (Option Scopes)
deriving DecidableEq, Repr

structure FieldConfiguration where
  TypeName : String
  FieldName : String
  ArgumentsConfiguration : List (Option ArgumentConfiguration)
  AuthorizationConfiguration : Option AuthorizationConfiguration
deriving DecidableEq, Repr

structure TypeConfiguration where
  TypeName : String
  RenameTo : String
deriving DecidableEq, Repr

structure TypeField where
  TypeName : String
  FieldNames : List String
deriving DecidableEq, Repr

structure DirectiveConfiguration where
  DirectiveName : String
  RenameTo : String
deriving DecidableEq, Repr

structure RequiredField where
  TypeName : String
  FieldName : String
  SelectionSet : String
deriving DecidableEq, Repr

structure EntityInterfaceConfiguration where
  InterfaceTypeName : String
  ConcreteTypeNames : List String
deriving DecidableEq, Repr

structure HTTPHeader where
  Values : List (Option ConfigurationVariable)
deriving DecidableEq, Repr

/-- The fetch block of a remote-GraphQL payload. `Header` is a Go map: the list holds its
entries in the order the `range` statement visits them. -/
structure FetchConfiguration where
  Url : Option ConfigurationVariable
  Method : HTTPMethod
  Header : List (String × Option HTTPHeader)
deriving DecidableEq, Repr

structure GraphQLSubscriptionConfiguration where
  Enabled : Bool
  Url : Option ConfigurationVariable
  UseSSE : Option Bool
  Protocol : Option GraphQLSubscriptionProtocol
deriving DecidableEq, Repr

structure GraphQLFederationConfiguration where
  Enabled : Bool
  ServiceSdl : String
deriving DecidableEq, Repr

structure SingleTypeField where
  TypeName : String
  FieldName : String
deriving DecidableEq, Repr

structure DataSourceCustom_GraphQL where
  Fetch : Option FetchConfiguration
  Subscription : Option GraphQLSubscriptionConfiguration
  Federation : Option GraphQLFederationConfiguration
  UpstreamSchema : Option InternedString
  CustomScalarTypeFields : List (Option SingleTypeField)
deriving DecidableEq, Repr

structure DataSourceCustom_Static where
  Data : Option ConfigurationVariable
deriving DecidableEq, Repr

/-- An event declaration. `Type_` is the field `Type` of the source. -/
structure EventConfiguration where
  Type_ : EventType
  TypeName : String
  FieldName : String
  Topic : String
deriving DecidableEq, Repr

structure DataSourceCustomEvents where
  Events : List (Option EventConfiguration)
deriving DecidableEq, Repr

structure DataSourceConfiguration where
  Kind : DataSourceKind
  RootNodes : List (Option TypeField)
  ChildNodes : List (Option TypeField)
  CustomGraphql : Option DataSourceCustom_GraphQL
  CustomStatic : Option DataSourceCustom_Static
  Directives : List (Option DirectiveConfiguration)
  Id : String
  Keys : List (Option RequiredField)
  Provides : List (Option RequiredField)
  Requires : List (Option RequiredField)
  CustomEvents : Option DataSourceCustomEvents
  EntityInterfaces : List (Option EntityInterfaceConfiguration)
  InterfaceObjects : List (Option EntityInterfaceConfiguration)
deriving DecidableEq, Repr

/-- The engine configuration. `StringStorage` is the interned-string table, a Go map that is
only looked up: an association list read with `List.lookup`. -/
structure EngineConfiguration where
  DefaultFlushInterval : Int
  DatasourceConfigurations : List (Option DataSourceConfiguration)
  FieldConfigurations : List (Option FieldConfiguration)
  TypeConfigurations : List (Option TypeConfiguration)
  StringStorage : List (String × String)
deriving DecidableEq, Repr

/-- The nil-safe getter `GetKey` of an interned-string reference: the empty key for `nil`. -/
def InternedString.GetKey : Option InternedString → String
  | some s => s.Key
  | none => ""

/-- The nil-safe getters `GetCustomEvents().GetEvents()`: no events for an absent payload. -/
def DataSourceConfiguration.GetEvents (ds : DataSourceConfiguration) :
    List (Option EventConfiguration) :=
  match ds.CustomEvents with
  | some ce => ce.Events
  | none => []

/-- A declared subgraph; only handed on to `FetchURLRules`. -/
structure Subgraph where
  Id : String
  Name : String
  RoutingUrl : String
deriving DecidableEq, Repr

structure RouterConfig where
  EngineConfig : Option EngineConfiguration
  Subgraphs : List (Option Subgraph)
deriving DecidableEq, Repr

end nodev1

/-- Modelled from the spec: `config.HeaderRules`, the header-forwarding rule definitions,
opaque to the loader and handed on to `FetchURLRules`. -/
structure HeaderRules where
  rules : List String
deriving DecidableEq, Repr

/-- The execution settings. Only `Headers` is read by `Load`; `Execution` and `Events` are not
and are left out. -/
structure RouterEngineConfiguration where
  Headers : HeaderRules
deriving DecidableEq, Repr


/-! ## Compiled configuration (`plan` and the data source packages) -/

/-- A shared `*http.Client`, known by its identity. -/
structure HTTPClient where
  handle : Nat
deriving DecidableEq, Repr

/-- An `abstractlogger.Logger`, known by its identity. -/
structure Logger where
  handle : Nat
deriving DecidableEq, Repr

/-- `http.Header`: a map from canonical header name to its values, kept as the list of its
entries in order of first insertion. -/
abbrev Header := List (String × List String)

/-- `http.Header.Add`: the value is appended to the values stored under the canonical form
of the key. -/
def Header.Add (canonical : String → String) (h : Header) (key value : String) : Header :=
  let k := canonical key
  if h.any (fun e => e.1 == k) then
    h.map (fun e => if e.1 == k then (e.1, e.2 ++ [value]) else e)
  else
    h ++ [(k, [value])]

namespace graphql_datasource

structure Factory where
  HTTPClient : Option Cosmo.HTTPClient
  StreamingClient : Option Cosmo.HTTPClient
  Logger : Option Cosmo.Logger
deriving DecidableEq, Repr

structure SingleTypeField where
  TypeName : String
  FieldName : String
deriving DecidableEq, Repr

structure FetchConfiguration where
  URL : String
  Method : String
  Header : Header
deriving DecidableEq, Repr

structure FederationConfiguration where
  Enabled : Bool
  ServiceSDL : String
deriving DecidableEq, Repr

structure SubscriptionConfiguration where
  URL : String
  UseSSE : Bool
  SSEMethodPost : Bool
  ForwardedClientHeaderNames : List String
  ForwardedClientHeaderRegularExpressions : List String
deriving DecidableEq, Repr

structure Configuration where
  Fetch : FetchConfiguration
  Federation : FederationConfiguration
  Subscription : SubscriptionConfiguration
  UpstreamSchema : String
  CustomScalarTypeFields : Slice SingleTypeField
deriving DecidableEq, Repr

end graphql_datasource

namespace staticdatasource

/-- The static factory: a struct without fields. -/
structure Factory where
deriving DecidableEq, Repr

structure Configuration where
  Data : String
deriving DecidableEq, Repr

end staticdatasource

namespace pubsub_datasource

/-- The canonical event type, a string type of the data source package. -/
structure EventType where
  name : String
deriving DecidableEq, Repr

/-- A compiled event. `Type_` is the field `Type` of the source. -/
structure EventConfiguration where
  Type_ : EventType
  TypeName : String
  FieldName : String
  Topic : String
deriving DecidableEq, Repr

structure Configuration where
  Events : Slice EventConfiguration
deriving DecidableEq, Repr

/-- The pubsub factory, holding its connector (known by its identity). -/
structure Factory where
  Connector : Nat
deriving DecidableEq, Repr

end pubsub_datasource

namespace plan

/-- `plan.SourceType`; `zero` is the zero value, which is neither source. -/
inductive SourceType where
  | zero
  | ObjectFieldSource
  | FieldArgumentSource
deriving DecidableEq, Repr

structure ArgumentConfiguration where
  Name : String
  SourceType : SourceType
deriving DecidableEq, Repr

structure FieldConfiguration where
  TypeName : String
  FieldName : String
  Arguments : Slice ArgumentConfiguration
  HasAuthorizationRule : Bool
deriving DecidableEq, Repr

structure TypeConfiguration where
  TypeName : String
  RenameTo : String
deriving DecidableEq, Repr

structure TypeField where
  TypeName : String
  FieldNames : List String
deriving DecidableEq, Repr

structure DirectiveConfiguration where
  DirectiveName : String
  RenameTo : String
deriving DecidableEq, Repr

structure FederationFieldConfiguration where
  TypeName : String
  FieldName : String
  SelectionSet : String
deriving DecidableEq, Repr

structure EntityInterfaceConfiguration where
  InterfaceTypeName : String
  ConcreteTypeNames : List String
deriving DecidableEq, Repr

structure FederationMetaData where
  Keys : Slice FederationFieldConfiguration
  Requires : Slice FederationFieldConfiguration
  Provides : Slice FederationFieldConfiguration
  EntityInterfaces : Slice EntityInterfaceConfiguration
  InterfaceObjects : Slice EntityInterfaceConfiguration
deriving DecidableEq, Repr

/-- A non-nil `plan.PlannerFactory` interface value: one of the three factories the default
resolver hands out, or a factory of another implementation (known by a name). -/
inductive PlannerFactory where
  | graphql (f : graphql_datasource.Factory)
  | static (f : staticdatasource.Factory)
  | pubsub (f : pubsub_datasource.Factory)
  | custom (name : String)
deriving DecidableEq, Repr

/-- The custom configuration of a compiled data source. The source stores the JSON encoding
(`ConfigJSON`, `ConfigJson`) of a configuration record; the embedding keeps the record that is
encoded. `zero` is the value of an entry whose `Custom` was never assigned. -/
inductive Custom where
  | zero
  | static (c : staticdatasource.Configuration)
  | graphql (c : graphql_datasource.Configuration)
  | pubsub (c : pubsub_datasource.Configuration)
deriving DecidableEq, Repr

structure DataSourceConfiguration where
  ID : String
  Factory : PlannerFactory
  Custom : Custom
  RootNodes : Slice TypeField
  ChildNodes : Slice TypeField
  Directives : Slice DirectiveConfiguration
  FederationMetaData : FederationMetaData
deriving DecidableEq, Repr

structure Configuration where
  DefaultFlushIntervalMillis : Int
  DataSources : Slice DataSourceConfiguration
  Fields : Slice FieldConfiguration
  Types : Slice TypeConfiguration
  IncludeInfo : Bool
deriving DecidableEq, Repr

end plan

/-! ## Collaborators -/

/-- A header rule selected for one data source; opaque to the loader. -/
structure RequestHeaderRule where
  rule : String
deriving DecidableEq, Repr

/-- The functions `Load` calls that are defined outside `factoryresolver.go`. None of them
has a side effect. `LoadStringVariable` and `FetchURLRules` return no error, but a call of
either may panic: each comes with the test that says on which arguments it does. -/
structure Collaborators where
  /-- The string-variable loader `config.LoadStringVariable`: the string it returns, on a
  variable on which it returns. It has no error result. -/
  LoadStringVariable : Option nodev1.ConfigurationVariable → String
  /-- Whether the call `config.LoadStringVariable(v)` panics instead of returning. -/
  LoadStringVariable_panics : Option nodev1.ConfigurationVariable → Bool
  /-- The header rules that apply to a URL: the list `FetchURLRules` returns, on arguments on
  which it returns. -/
  FetchURLRules : HeaderRules → List (Option nodev1.Subgraph) → String → List RequestHeaderRule
  /-- Whether the call `FetchURLRules(rules, subgraphs, url)` panics instead of returning. -/
  FetchURLRules_panics : HeaderRules → List (Option nodev1.Subgraph) → String → Bool
  /-- The forwarded header names and name patterns of a rule list: `PropagatedHeaders`. -/
  PropagatedHeaders : List RequestHeaderRule → Except GoError (List String × List String)
  /-- The event type reader `pubsub_datasource.EventTypeFromString`. -/
  EventTypeFromString : String → Except GoError pubsub_datasource.EventType
  /-- The `String()` method of `nodev1.EventType`. -/
  EventType_String : nodev1.EventType → String
  /-- The `String()` method of `nodev1.HTTPMethod`. -/
  HTTPMethod_String : nodev1.HTTPMethod → String
  /-- The key normalisation of `http.Header`: `textproto.CanonicalMIMEHeaderKey`. -/
  CanonicalMIMEHeaderKey : String → String

/-- The call `config.LoadStringVariable(v)`: the string, or a panic. -/
def Collaborators.callLoadStringVariable (env : Collaborators)
    (v : Option nodev1.ConfigurationVariable) : Outcome String :=
  if env.LoadStringVariable_panics v then .panic else .ok (env.LoadStringVariable v)

/-- The call `FetchURLRules(rules, subgraphs, url)`: the rule list, or a panic. -/
def Collaborators.callFetchURLRules (env : Collaborators) (rules : HeaderRules)
    (subgraphs : List (Option nodev1.Subgraph)) (url : String) :
    Outcome (List RequestHeaderRule) :=
  if env.FetchURLRules_panics rules subgraphs url then .panic
  else .ok (env.FetchURLRules rules subgraphs url)

/-! ## Resolvers and the loader -/

/-- The interface `FactoryResolver`: one method, `Resolve`. `ok none` is the return
`(nil, nil)`, `ok (some f)` is `(f, nil)`, `error e` is a non-nil error. -/
structure FactoryResolver where
  Resolve : Option nodev1.DataSourceConfiguration → Outcome (Option plan.PlannerFactory)

/-- The default resolver, with the three factories its constructor sets up. The fields
`baseTransport`, `transportFactory` and `log` are not read by `Resolve` and are left out. -/
structure DefaultFactoryResolver where
  graphql : graphql_datasource.Factory
  static : staticdatasource.Factory
  pubsub : pubsub_datasource.Factory
deriving DecidableEq, Repr

/-- `DefaultFactoryResolver.Resolve` (lines 87-103). Reading `ds.Kind` dereferences `ds`. -/
def DefaultFactoryResolver.Resolve (d : DefaultFactoryResolver)
    (ds : Option nodev1.DataSourceConfiguration) : Outcome (Option plan.PlannerFactory) :=
  Outcome.bind (deref ds) fun ds =>
    match ds.Kind with
    | .GRAPHQL =>
      .ok (some (.graphql
        { HTTPClient := d.graphql.HTTPClient
          StreamingClient := d.graphql.StreamingClient
          Logger := d.graphql.Logger }))
    | .STATIC => .ok (some (.static d.static))
    | .PUBSUB => .ok (some (.pubsub d.pubsub))
    | .unrecognized _ => .error (.errorf "invalid datasource kind %q" [ds.Kind.String])

/-- The default resolver as a `FactoryResolver`. -/
def DefaultFactoryResolver.toResolver (d : DefaultFactoryResolver) : FactoryResolver :=
  { Resolve := d.Resolve }

structure Loader where
  resolvers : List FactoryResolver
  includeInfo : Bool

/-- `NewLoader` (lines 105-110). -/
def NewLoader (includeInfo : Bool) (resolvers : List FactoryResolver) : Loader :=
  { resolvers := resolvers, includeInfo := includeInfo }

/-- The loop of `resolveFactory` (lines 339-348) over the resolvers not yet tried. -/
def resolveLoop (rs : List FactoryResolver) (ds : Option nodev1.DataSourceConfiguration) :
    Outcome (Option plan.PlannerFactory) :=
  match rs with
  | [] => .ok none
  | r :: rest =>
    match r.Resolve ds with
    | .error err => .error err
    | .panic => .panic
    | .ok (some factory) => .ok (some factory)
    | .ok none => resolveLoop rest ds

/-- How many `Resolve` calls the loop of `resolveFactory` makes before it returns. -/
def resolveLoopCalls (rs : List FactoryResolver) (ds : Option nodev1.DataSourceConfiguration) :
    Nat :=
  match rs with
  | [] => 0
  | r :: rest =>
    match r.Resolve ds with
    | .ok none => resolveLoopCalls rest ds + 1
    | _ => 1

/-- `Loader.resolveFactory` (lines 338-349). -/
def Loader.resolveFactory (l : Loader) (ds : Option nodev1.DataSourceConfiguration) :
    Outcome (Option plan.PlannerFactory) :=
  resolveLoop l.resolvers ds

/-- `Loader.fieldHasAuthorizationRule` (lines 351-365). -/
def Loader.fieldHasAuthorizationRule (_l : Loader)
    (fieldConfiguration : Option nodev1.FieldConfiguration) : Bool :=
  match fieldConfiguration with
  | none => false
  | some fc =>
    match fc.AuthorizationConfiguration with
    | none => false
    | some auth =>
      if auth.RequiresAuthentication then true
      else if auth.RequiredOrScopes.length > 0 then true
      else false

/-- `Loader.LoadInternedString` (lines 112-119). -/
def Loader.LoadInternedString (_l : Loader) (engineConfig : Option nodev1.EngineConfiguration)
    (str : Option nodev1.InternedString) : Outcome String :=
  let key := nodev1.InternedString.GetKey str
  Outcome.bind (deref engineConfig) fun ec =>
    match ec.StringStorage.lookup key with
    | none => .error (.errorf "no string found for key %q" [key])
    | some s => .ok s

/-- A loop `for _, x := range xs { out = append(out, f(x)) }` over a list of pointers: reading
a field of `x` dereferences it. -/
def appendEach {α β : Type} (xs : List (Option α)) (out : Slice β) (f : α → β) :
    Outcome (Slice β) :=
  forRange xs out fun out x => do
    let x ← deref x
    pure (out.append (f x))

/-- The argument loop of `Load` (lines 136-148) for one field configuration. -/
def Load_arguments (configuration : nodev1.FieldConfiguration) :
    Outcome (Slice plan.ArgumentConfiguration) :=
  forRange configuration.ArgumentsConfiguration Slice.nil fun args argumentConfiguration => do
    let a ← deref argumentConfiguration
    let arg : plan.ArgumentConfiguration :=
      match a.SourceType with
      | .FIELD_ARGUMENT => { Name := a.Name, SourceType := .FieldArgumentSource }
      | .OBJECT_FIELD => { Name := a.Name, SourceType := .ObjectFieldSource }
      | .unrecognized _ => { Name := a.Name, SourceType := .zero }
    pure (args.append arg)

/-- The field loop of `Load` (lines 135-156). -/
def Load_fields (l : Loader) (engineConfig : nodev1.EngineConfiguration) :
    Outcome (Slice plan.FieldConfiguration) :=
  forRange engineConfig.FieldConfigurations Slice.nil fun fields configuration => do
    let c ← deref configuration
    let args ← Load_arguments c
    let fieldConfig : plan.FieldConfiguration :=
      { TypeName := c.TypeName
        FieldName := c.FieldName
        Arguments := args
        HasAuthorizationRule := l.fieldHasAuthorizationRule configuration }
    pure (fields.append fieldConfig)

/-- The type loop of `Load` (lines 158-163). -/
def Load_types (engineConfig : nodev1.EngineConfiguration) :
    Outcome (Slice plan.TypeConfiguration) :=
  appendEach engineConfig.TypeConfigurations Slice.nil fun configuration =>
    { TypeName := configuration.TypeName, RenameTo := configuration.RenameTo }

/-- The header loop of `Load` (lines 183-188): every value of every declared header is
resolved and added under its name, in the order the map is visited. -/
def Load_header (env : Collaborators) (fetch : nodev1.FetchConfiguration) : Outcome Header :=
  forRange fetch.Header ([] : Header) fun header entry => do
    let httpHeader ← deref entry.2
    forRange httpHeader.Values header fun header value => do
      let resolved ← env.callLoadStringVariable value
      pure (Header.Add env.CanonicalMIMEHeaderKey header entry.1 resolved)

/-- The subscription protocol selection of `Load` (lines 210-229): the pair
`(subscriptionUseSSE, subscriptionSSEMethodPost)`. Both variables start as `false`. -/
def Load_subscriptionProtocol (subscription : nodev1.GraphQLSubscriptionConfiguration) :
    Bool × Bool :=
  match subscription.Protocol with
  | some protocol =>
    match protocol with
    | .WS => (false, false)
    | .SSE => (true, false)
    | .SSE_POST => (true, true)
    | .unrecognized _ => (false, false)
  | none =>
    match subscription.UseSSE with
    | some useSSE => (useSSE, false)
    | none => (false, false)

/-- The `GRAPHQL` case of `Load` (lines 182-254): the configuration record handed to
`graphql_datasource.ConfigJson`. -/
def Load_graphql (env : Collaborators) (l : Loader) (routerConfig : nodev1.RouterConfig)
    (routerEngineConfig : Option RouterEngineConfiguration)
    (engineConfig : nodev1.EngineConfiguration) (in_ : nodev1.DataSourceConfiguration) :
    Outcome graphql_datasource.Configuration := do
  let customGraphql ← deref in_.CustomGraphql
  let fetch ← deref customGraphql.Fetch
  let header ← Load_header env fetch
  let fetchUrl ← env.callLoadStringVariable fetch.Url
  let subscription ← deref customGraphql.Subscription
  let subscriptionUrl ← env.callLoadStringVariable subscription.Url
  let subscriptionUrl := if subscriptionUrl = "" then fetchUrl else subscriptionUrl
  let customScalarTypeFields ← makeAndFill customGraphql.CustomScalarTypeFields fun v => do
    let v ← deref v
    pure ({ TypeName := v.TypeName, FieldName := v.FieldName } :
      graphql_datasource.SingleTypeField)
  let graphqlSchema ←
    wrapError "could not load GraphQL schema for data source %s: %w" [in_.Id]
      (l.LoadInternedString (some engineConfig) customGraphql.UpstreamSchema)
  let protocol := Load_subscriptionProtocol subscription
  let settings ← deref routerEngineConfig
  let dataSourceRules ←
    env.callFetchURLRules settings.Headers routerConfig.Subgraphs subscriptionUrl
  let forwarded ←
    wrapError "error parsing header rules for data source %s: %w" [in_.Id]
      (liftExcept (env.PropagatedHeaders dataSourceRules))
  let federation ← deref customGraphql.Federation
  pure
    { Fetch :=
        { URL := fetchUrl
          Method := env.HTTPMethod_String fetch.Method
          Header := header }
      Federation :=
        { Enabled := federation.Enabled
          ServiceSDL := federation.ServiceSdl }
      Subscription :=
        { URL := subscriptionUrl
          UseSSE := protocol.1
          SSEMethodPost := protocol.2
          ForwardedClientHeaderNames := forwarded.1
          ForwardedClientHeaderRegularExpressions := forwarded.2 }
      UpstreamSchema := graphqlSchema
      CustomScalarTypeFields := customScalarTypeFields }

/-- The body of the event loop of `Load` (lines 258-269): the compiled event of one declared
event of the data source `in_`. Reading `ev.Type` dereferences `ev`. -/
def Load_event (env : Collaborators) (in_ : nodev1.DataSourceConfiguration)
    (ev : Option nodev1.EventConfiguration) : Outcome pubsub_datasource.EventConfiguration := do
  let ev ← deref ev
  let eventType ←
    wrapError "invalid event type %q for data source %q: %w"
      [env.EventType_String ev.Type_, in_.Id]
      (liftExcept (env.EventTypeFromString (env.EventType_String ev.Type_)))
  pure
    { Type_ := eventType
      TypeName := ev.TypeName
      FieldName := ev.FieldName
      Topic := ev.Topic }

/-- The `PUBSUB` case of `Load` (lines 255-272): the configuration record handed to
`pubsub_datasource.ConfigJson`. -/
def Load_pubsub (env : Collaborators) (in_ : nodev1.DataSourceConfiguration) :
    Outcome pubsub_datasource.Configuration := do
  let pubsubEvents := in_.GetEvents
  let events ← makeAndFill pubsubEvents (Load_event env in_)
  pure { Events := events }

/-- The switch on `in.Kind` of `Load` (lines 177-275): the custom configuration. -/
def Load_custom (env : Collaborators) (l : Loader) (routerConfig : nodev1.RouterConfig)
    (routerEngineConfig : Option RouterEngineConfiguration)
    (engineConfig : nodev1.EngineConfiguration) (in_ : nodev1.DataSourceConfiguration) :
    Outcome plan.Custom :=
  match in_.Kind with
  | .STATIC => do
    let customStatic ← deref in_.CustomStatic
    let data ← env.callLoadStringVariable customStatic.Data
    pure (.static { Data := data })
  | .GRAPHQL => do
    let c ← Load_graphql env l routerConfig routerEngineConfig engineConfig in_
    pure (.graphql c)
  | .PUBSUB => do
    let c ← Load_pubsub env in_
    pure (.pubsub c)
  | .unrecognized _ => .error (.errorf "unknown data source type %q" [in_.Kind.String])

/-- The part of the data source loop of `Load` that builds the compiled entry `out` of a
claimed data source (lines 173-332). Reading `in.Id` dereferences `in`. -/
def Load_entry (env : Collaborators) (l : Loader) (routerConfig : nodev1.RouterConfig)
    (routerEngineConfig : Option RouterEngineConfiguration)
    (engineConfig : nodev1.EngineConfiguration) (factory : plan.PlannerFactory)
    (in_ : Option nodev1.DataSourceConfiguration) : Outcome plan.DataSourceConfiguration := do
  let ds ← deref in_
  let custom ← Load_custom env l routerConfig routerEngineConfig engineConfig ds
  let rootNodes ← appendEach ds.RootNodes Slice.nil fun node =>
    ({ TypeName := node.TypeName, FieldNames := node.FieldNames } : plan.TypeField)
  let childNodes ← appendEach ds.ChildNodes Slice.nil fun node =>
    ({ TypeName := node.TypeName, FieldNames := node.FieldNames } : plan.TypeField)
  let directives ← appendEach ds.Directives Slice.nil fun directive =>
    ({ DirectiveName := directive.DirectiveName
       RenameTo := directive.DirectiveName } : plan.DirectiveConfiguration)
  let keys ← appendEach ds.Keys Slice.nil fun keyConfiguration =>
    ({ TypeName := keyConfiguration.TypeName
       FieldName := keyConfiguration.FieldName
       SelectionSet := keyConfiguration.SelectionSet } : plan.FederationFieldConfiguration)
  let provides ← appendEach ds.Provides Slice.nil fun providesConfiguration =>
    ({ TypeName := providesConfiguration.TypeName
       FieldName := providesConfiguration.FieldName
       SelectionSet := providesConfiguration.SelectionSet } : plan.FederationFieldConfiguration)
  let requires ← appendEach ds.Requires Slice.nil fun requiresConfiguration =>
    ({ TypeName := requiresConfiguration.TypeName
       FieldName := requiresConfiguration.FieldName
       SelectionSet := requiresConfiguration.SelectionSet } : plan.FederationFieldConfiguration)
  let entityInterfaces ← appendEach ds.EntityInterfaces Slice.nil fun c =>
    ({ InterfaceTypeName := c.InterfaceTypeName
       ConcreteTypeNames := c.ConcreteTypeNames } : plan.EntityInterfaceConfiguration)
  let interfaceObjects ← appendEach ds.InterfaceObjects Slice.nil fun c =>
    ({ InterfaceTypeName := c.InterfaceTypeName
       ConcreteTypeNames := c.ConcreteTypeNames } : plan.EntityInterfaceConfiguration)
  pure
    { ID := ds.Id
      Factory := factory
      Custom := custom
      RootNodes := rootNodes
      ChildNodes := childNodes
      Directives := directives
      FederationMetaData :=
        { Keys := keys
          Requires := requires
          Provides := provides
          EntityInterfaces := entityInterfaces
          InterfaceObjects := interfaceObjects } }

/-- The body of the data source loop of `Load` (lines 165-334): the compiled data sources
after the data source `in_` is handled. -/
def Load_dataSource (env : Collaborators) (l : Loader) (routerConfig : nodev1.RouterConfig)
    (routerEngineConfig : Option RouterEngineConfiguration)
    (engineConfig : nodev1.EngineConfiguration)
    (dataSources : Slice plan.DataSourceConfiguration)
    (in_ : Option nodev1.DataSourceConfiguration) :
    Outcome (Slice plan.DataSourceConfiguration) :=
  match l.resolveFactory in_ with
  | .error err => .error err
  | .panic => .panic
  | .ok none => .ok dataSources
  | .ok (some factory) => do
    let out ← Load_entry env l routerConfig routerEngineConfig engineConfig factory in_
    pure (dataSources.append out)

/-- `Loader.Load` (lines 127-336). -/
def Loader.Load (env : Collaborators) (l : Loader) (routerConfig : Option nodev1.RouterConfig)
    (routerEngineConfig : Option RouterEngineConfiguration) : Outcome plan.Configuration := do
  let rc ← deref routerConfig
  let engineConfig ← deref rc.EngineConfig
  let fields ← Load_fields l engineConfig
  let types ← Load_types engineConfig
  let dataSources ← forRange engineConfig.DatasourceConfigurations Slice.nil
    (Load_dataSource env l rc routerEngineConfig engineConfig)
  pure
    { DefaultFlushIntervalMillis := engineConfig.DefaultFlushInterval
      DataSources := dataSources
      Fields := fields
      Types := types
      IncludeInfo := l.includeInfo }

/-- Whether the resolver chain claims a data source: `resolveFactory` returns a non-nil
factory for it. -/
def Loader.claims (l : Loader) (in_ : Option nodev1.DataSourceConfiguration) : Bool :=
  match l.resolveFactory in_ with
  | .ok (some _) => true
  | _ => false

/-- Whether the resolver chain leaves a data source unclaimed: `resolveFactory` returns
`(nil, nil)` for it. -/
def Loader.passes (l : Loader) (in_ : Option nodev1.DataSourceConfiguration) : Bool :=
  match l.resolveFactory in_ with
  | .ok none => true
  | _ => false

/-- `Load` reaches the data source `in_`: the router and engine configuration are present,
the field loop and the type loop complete, and the data source loop handles every data source
before `in_` without returning, leaving the compiled entries `acc`. -/
structure Reaches (env : Collaborators) (l : Loader) (rc : nodev1.RouterConfig)
    (settings : Option RouterEngineConfiguration) (ec : nodev1.EngineConfiguration)
    (pre : List (Option nodev1.DataSourceConfiguration))
    (in_ : Option nodev1.DataSourceConfiguration)
    (post : List (Option nodev1.DataSourceConfiguration))
    (acc : Slice plan.DataSourceConfiguration) : Prop where
  engine : rc.EngineConfig = some ec
  fields : ∃ fields, Load_fields l ec = .ok fields
  types : ∃ types, Load_types ec = .ok types
  split : ec.DatasourceConfigurations = pre ++ in_ :: post
  before : forRange pre Slice.nil (Load_dataSource env l rc settings ec) = .ok acc

/-- The source configuration with every data source the resolver chain leaves unclaimed
removed. -/
def withoutUnclaimed (l : Loader) (rc : nodev1.RouterConfig) : nodev1.RouterConfig :=
  { rc with
    EngineConfig := rc.EngineConfig.map fun ec =>
      { ec with
        DatasourceConfigurations := ec.DatasourceConfigurations.filter fun d => !l.passes d } }

/-- A compiled event carries the parsed event type of a declared event and its type name,
field name and topic unchanged. -/
def CompiledFrom (env : Collaborators) (ev : Option nodev1.EventConfiguration)
    (oe : pubsub_datasource.EventConfiguration) : Prop :=
  ∃ e, ev = some e
    ∧ env.EventTypeFromString (env.EventType_String e.Type_) = .ok oe.Type_
    ∧ oe.TypeName = e.TypeName ∧ oe.FieldName = e.FieldName ∧ oe.Topic = e.Topic

/-- The event type reader accepts the type tag of a declared event. -/
def Accepted (env : Collaborators) (ev : Option nodev1.EventConfiguration) : Prop :=
  ∃ e t, ev = some e ∧ env.EventTypeFromString (env.EventType_String e.Type_) = .ok t

/-- A compiled federation field declaration is a copy of a declared one: same type name,
field name and selection set. -/
def CopiedField (x : Option nodev1.RequiredField) (v : plan.FederationFieldConfiguration) :
    Prop :=
  ∃ a, x = some a ∧ v.TypeName = a.TypeName ∧ v.FieldName = a.FieldName
    ∧ v.SelectionSet = a.SelectionSet

/-- A compiled interface mapping is a copy of a declared one: same interface type name and
concrete type names. -/
def CopiedInterface (x : Option nodev1.EntityInterfaceConfiguration)
    (v : plan.EntityInterfaceConfiguration) : Prop :=
  ∃ a, x = some a ∧ v.InterfaceTypeName = a.InterfaceTypeName
    ∧ v.ConcreteTypeNames = a.ConcreteTypeNames

/-- A compiled node is a copy of a declared one: same type name and field names. -/
def CopiedNode (x : Option nodev1.TypeField) (v : plan.TypeField) : Prop :=
  ∃ a, x = some a ∧ v.TypeName = a.TypeName ∧ v.FieldNames = a.FieldNames

/-- A compiled directive has the name of a declared one, and that name again as its rename
target. -/
def CompiledDirective (x : Option nodev1.DirectiveConfiguration)
    (v : plan.DirectiveConfiguration) : Prop :=
  ∃ a, x = some a ∧ v.DirectiveName = a.DirectiveName ∧ v.RenameTo = a.DirectiveName

/-- A compiled argument has the name of a declared one, and its source kind translated:
`FIELD_ARGUMENT` to `FieldArgumentSource`, `OBJECT_FIELD` to `ObjectFieldSource`. -/
def CompiledArgument (x : Option nodev1.ArgumentConfiguration)
    (v : plan.ArgumentConfiguration) : Prop :=
  ∃ a, x = some a ∧ v.Name = a.Name
    ∧ (a.SourceType = .FIELD_ARGUMENT → v.SourceType = .FieldArgumentSource)
    ∧ (a.SourceType = .OBJECT_FIELD → v.SourceType = .ObjectFieldSource)

/-- A compiled field has the type name and field name of a declared one, and its arguments
compiled one by one, in order. -/
def CompiledField (x : Option nodev1.FieldConfiguration) (v : plan.FieldConfiguration) :
    Prop :=
  ∃ c, x = some c ∧ v.TypeName = c.TypeName ∧ v.FieldName = c.FieldName
    ∧ List.Forall₂ CompiledArgument c.ArgumentsConfiguration v.Arguments.toList

/-- No element of a list of pointers is nil. -/
def NoNil {α : Type} (xs : List (Option α)) : Prop :=
  ∀ x ∈ xs, x ≠ none

/-- The remote-GraphQL payload of a data source is present with its fetch, subscription and
federation blocks, and neither its declared headers nor its custom scalar fields hold a nil
element. -/
def GraphqlPayloadPresent (ds : nodev1.DataSourceConfiguration) : Prop :=
  ∃ g fetch sub federation,
    ds.CustomGraphql = some g ∧ g.Fetch = some fetch ∧ g.Subscription = some sub
      ∧ g.Federation = some federation
      ∧ (∀ entry ∈ fetch.Header, entry.2 ≠ none) ∧ NoNil g.CustomScalarTypeFields

/-- Every string variable `Load` resolves of a remote-GraphQL payload is of a kind the
string-variable loader handles: the fetch URL, the subscription URL and every value of every
declared header. -/
def GraphqlVariablesHandled (ds : nodev1.DataSourceConfiguration) : Prop :=
  ∀ g, ds.CustomGraphql = some g →
    (∀ fetch, g.Fetch = some fetch →
      nodev1.ConfigurationVariable.Handled fetch.Url = true
        ∧ ∀ entry ∈ fetch.Header, ∀ httpHeader, entry.2 = some httpHeader →
            ∀ value ∈ httpHeader.Values, nodev1.ConfigurationVariable.Handled value = true)
    ∧ (∀ sub, g.Subscription = some sub →
      nodev1.ConfigurationVariable.Handled sub.Url = true)

/-- What is known of the panics of the collaborators: the string-variable loader panics only
on a variable of a kind it does not handle, and `FetchURLRules` panics only when a subgraph
is nil. -/
structure PanicOnlyOnBadArguments (env : Collaborators) : Prop where
  loadStringVariable : ∀ v, nodev1.ConfigurationVariable.Handled v = true →
    env.LoadStringVariable_panics v = false
  fetchURLRules : ∀ rules subgraphs url, NoNil subgraphs →
    env.FetchURLRules_panics rules subgraphs url = false

/-- A data source is well formed for a loader: none of its lists holds a nil element; if it is
a claimed `STATIC` data source it carries a static payload whose data variable is of a handled
kind; if it is a claimed `GRAPHQL` data source it carries a remote-GraphQL payload with its
blocks, whose string variables are of a handled kind. A `PUBSUB` data source needs no
payload. -/
structure WellFormedDataSource (l : Loader) (ds : nodev1.DataSourceConfiguration) : Prop where
  rootNodes : NoNil ds.RootNodes
  childNodes : NoNil ds.ChildNodes
  directives : NoNil ds.Directives
  keys : NoNil ds.Keys
  provides : NoNil ds.Provides
  requires : NoNil ds.Requires
  entityInterfaces : NoNil ds.EntityInterfaces
  interfaceObjects : NoNil ds.InterfaceObjects
  events : NoNil ds.GetEvents
  static : ds.Kind = .STATIC → l.claims (some ds) = true →
    ∃ customStatic, ds.CustomStatic = some customStatic
      ∧ nodev1.ConfigurationVariable.Handled customStatic.Data = true
  graphql : ds.Kind = .GRAPHQL → l.claims (some ds) = true →
    GraphqlPayloadPresent ds ∧ GraphqlVariablesHandled ds

/-- The well-formedness precondition of `Load`: the engine configuration and the execution
settings are present, no list holds a nil element (the subgraph list included), and every data
source is well formed. -/
structure WellFormed (l : Loader) (rc : nodev1.RouterConfig)
    (settings : Option RouterEngineConfiguration) (ec : nodev1.EngineConfiguration) :
    Prop where
  engine : rc.EngineConfig = some ec
  executionSettings : settings ≠ none
  subgraphs : NoNil rc.Subgraphs
  fields : ∀ x ∈ ec.FieldConfigurations, ∃ c, x = some c ∧ NoNil c.ArgumentsConfiguration
  types : NoNil ec.TypeConfigurations
  dataSources : ∀ x ∈ ec.DatasourceConfigurations, ∃ ds, x = some ds ∧ WellFormedDataSource l ds

/-- What `Load` reads of a claimed data source that it compiles: its node, directive and
federation lists, the static payload of a `STATIC` data source, the remote-GraphQL payload and
the execution settings for a `GRAPHQL` data source, and the declared events of a `PUBSUB` data
source. -/
structure ReadParts (settings : Option RouterEngineConfiguration)
    (ds : nodev1.DataSourceConfiguration) : Prop where
  rootNodes : NoNil ds.RootNodes
  childNodes : NoNil ds.ChildNodes
  directives : NoNil ds.Directives
  keys : NoNil ds.Keys
  provides : NoNil ds.Provides
  requires : NoNil ds.Requires
  entityInterfaces : NoNil ds.EntityInterfaces
  interfaceObjects : NoNil ds.InterfaceObjects
  static : ds.Kind = .STATIC → ds.CustomStatic ≠ none
  graphql : ds.Kind = .GRAPHQL → GraphqlPayloadPresent ds ∧ settings ≠ none
  pubsub : ds.Kind = .PUBSUB → NoNil ds.GetEvents

/-! ## Scenario inputs -/

/-- The characters of a header name (`validHeaderFieldByte` of `net/textproto`): the ASCII
letters and digits and the punctuation of an HTTP token. -/
def validHeaderFieldChar (c : Char) : Bool :=
  c.isAlphanum || "!#$%&\x27*+-.^_\x60|~".data.contains c

/-- The letter cases of a canonical header name: upper case at the start and after a hyphen,
lower case elsewhere. -/
def canonicalChars : Bool → List Char → List Char
  | _, [] => []
  | upper, c :: rest =>
    (if upper then c.toUpper else c.toLower) :: canonicalChars (c == '-') rest

/-- The function `textproto.CanonicalMIMEHeaderKey` of the Go standard library: a name made
of header name characters only is put in canonical letter case, any other name is returned
unchanged. -/
def canonicalMIMEHeaderKey (name : String) : String :=
  if name.data.all validHeaderFieldChar then String.mk (canonicalChars true name.data) else name

/-- Whether `FetchURLRules` meets a nil subgraph: it reads the routing URL of the subgraphs
in order, up to the first one whose routing URL is `url`. -/
def meetsNilSubgraph : List (Option nodev1.Subgraph) → String → Bool
  | [], _ => false
  | none :: _, _ => true
  | some subgraph :: rest, url =>
    if subgraph.RoutingUrl = url then false else meetsNilSubgraph rest url

/-- Collaborators of the scenarios. The string-variable loader resolves a literal to its
content, a reference to its fallback (no environment variable is set) and a nil variable to the
empty string, and panics on a variable of a kind it does not handle. `FetchURLRules` finds no
header rule, and panics when it meets a nil subgraph. The event type reader knows `publish`,
`request` and `subscribe` in any letter case. The `String()` methods of the two enums give the
declared name of a number, and the number in decimal when it has none. -/
def scenarioEnv : Collaborators where
  LoadStringVariable := fun v =>
    match v with
    | none => ""
    | some (.literal s) => s
    | some (.reference _ fallback) => fallback
    | some (.unhandled _) => ""
  LoadStringVariable_panics := fun v => !nodev1.ConfigurationVariable.Handled v
  FetchURLRules := fun _ _ _ => []
  FetchURLRules_panics := fun _ subgraphs url => meetsNilSubgraph subgraphs url
  PropagatedHeaders := fun _ => .ok ([], [])
  EventTypeFromString := fun s =>
    let t := String.mk (s.data.map Char.toLower)
    if t = "publish" ∨ t = "request" ∨ t = "subscribe" then .ok ⟨t⟩
    else .error (.errorf "invalid event type: %q" [s])
  EventType_String := fun t =>
    match t.number with
    | 0 => "PUBLISH"
    | 1 => "REQUEST"
    | 2 => "SUBSCRIBE"
    | n => toString n
  HTTPMethod_String := fun m =>
    match m.number with
    | 0 => "GET"
    | 1 => "POST"
    | 2 => "PUT"
    | 3 => "DELETE"
    | 4 => "OPTIONS"
    | n => toString n
  CanonicalMIMEHeaderKey := canonicalMIMEHeaderKey

/-- A data source with the given id and kind and nothing else. -/
def bareDataSource (id : String) (kind : nodev1.DataSourceKind) :
    nodev1.DataSourceConfiguration where
  Kind := kind
  RootNodes := []
  ChildNodes := []
  CustomGraphql := none
  CustomStatic := none
  Directives := []
  Id := id
  Keys := []
  Provides := []
  Requires := []
  CustomEvents := none
  EntityInterfaces := []
  InterfaceObjects := []

/-- An engine configuration with the given data sources and interned strings and nothing
else. -/
def engineConfigOf (dataSources : List nodev1.DataSourceConfiguration)
    (strings : List (String × String)) : nodev1.EngineConfiguration where
  DefaultFlushInterval := 500
  DatasourceConfigurations := dataSources.map some
  FieldConfigurations := []
  TypeConfigurations := []
  StringStorage := strings

/-- A router configuration with the given data sources and interned strings and nothing
else. -/
def routerConfigOf (dataSources : List nodev1.DataSourceConfiguration)
    (strings : List (String × String)) : nodev1.RouterConfig where
  EngineConfig := some (engineConfigOf dataSources strings)
  Subgraphs := []

/-- Execution settings without header rules. -/
def scenarioSettings : RouterEngineConfiguration where
  Headers := { rules := [] }

/-- The default resolver of the scenarios. -/
def scenarioDefault : DefaultFactoryResolver where
  graphql := { HTTPClient := some ⟨1⟩, StreamingClient := some ⟨2⟩, Logger := none }
  static := {}
  pubsub := { Connector := 7 }

/-- A loader whose only resolver is the default resolver. -/
def scenarioLoader : Loader :=
  NewLoader false [scenarioDefault.toResolver]

/-- A remote-GraphQL data source with the given id, fetch URL, subscription block and
upstream-schema key, with every block of its payload present. -/
def graphqlDataSource (id : String) (fetchUrl : Option nodev1.ConfigurationVariable)
    (subscription : nodev1.GraphQLSubscriptionConfiguration) (schemaKey : String) :
    nodev1.DataSourceConfiguration :=
  { bareDataSource id .GRAPHQL with
    CustomGraphql := some
      { Fetch := some { Url := fetchUrl, Method := ⟨1⟩, Header := [] }
        Subscription := some subscription
        Federation := some { Enabled := true, ServiceSdl := "type Query" }
        UpstreamSchema := some { Key := schemaKey }
        CustomScalarTypeFields := [] } }

/-- Scenario A: one remote-GraphQL data source with fetch URL `http://svc/graphql`, no
subscription URL and protocol `SSE`. -/
def scenarioA_config : nodev1.RouterConfig :=
  routerConfigOf
    [graphqlDataSource "ds-a" (some (.literal "http://svc/graphql"))
      { Enabled := true, Url := none, UseSSE := none, Protocol := some .SSE } "schema-1"]
    [("schema-1", "type Query")]

/-- A remote-GraphQL data source whose protocol enum (`SSE_POST`) and legacy boolean
(`false`) disagree. -/
def disagreeing_config : nodev1.RouterConfig :=
  routerConfigOf
    [graphqlDataSource "ds-p" (some (.literal "http://svc/graphql"))
      { Enabled := true, Url := none, UseSSE := some false, Protocol := some .SSE_POST }
      "schema-1"]
    [("schema-1", "type Query")]

/-- An old style remote-GraphQL data source: no protocol enum, legacy boolean `true`, and a
subscription URL of its own given by a reference. -/
def legacy_config : nodev1.RouterConfig :=
  routerConfigOf
    [graphqlDataSource "ds-l" (some (.literal "http://svc/graphql"))
      { Enabled := true, Url := some (.reference "SUB_URL" "http://svc/sse"),
        UseSSE := some true, Protocol := none }
      "schema-1"]
    [("schema-1", "type Query")]

/-- Scenario A: the configuration record the data source compiles to. -/
def scenarioA_record : graphql_datasource.Configuration where
  Fetch := { URL := "http://svc/graphql", Method := "POST", Header := [] }
  Federation := { Enabled := true, ServiceSDL := "type Query" }
  Subscription :=
    { URL := "http://svc/graphql"
      UseSSE := true
      SSEMethodPost := false
      ForwardedClientHeaderNames := []
      ForwardedClientHeaderRegularExpressions := [] }
  UpstreamSchema := "type Query"
  CustomScalarTypeFields := .mk []

/-- Scenario A: the compiled configuration. -/
def scenarioA_compiled : plan.Configuration where
  DefaultFlushIntervalMillis := 500
  DataSources := .mk
    [{ ID := "ds-a"
       Factory := .graphql { HTTPClient := some ⟨1⟩, StreamingClient := some ⟨2⟩, Logger := none }
       Custom := .graphql scenarioA_record
       RootNodes := .nil
       ChildNodes := .nil
       Directives := .nil
       FederationMetaData :=
         { Keys := .nil, Requires := .nil, Provides := .nil, EntityInterfaces := .nil,
           InterfaceObjects := .nil } }]
  Fields := .nil
  Types := .nil
  IncludeInfo := false

/-- Scenario B: the field configuration of `Query.me`, which does not require authentication
and names the OR-scopes `["read:profile"]`. -/
def scenarioB_field : nodev1.FieldConfiguration where
  TypeName := "Query"
  FieldName := "me"
  ArgumentsConfiguration := []
  AuthorizationConfiguration := some
    { RequiresAuthentication := false
      RequiredOrScopes := [some { RequiredAndScopes := ["read:profile"] }] }

/-- Scenario B: a source configuration with the field configuration of `Query.me` only. -/
def scenarioB_config : nodev1.RouterConfig where
  EngineConfig := some
    { DefaultFlushInterval := 500
      DatasourceConfigurations := []
      FieldConfigurations := [some scenarioB_field]
      TypeConfigurations := []
      StringStorage := [] }
  Subgraphs := []

/-- A loader whose only resolver is the override resolver of Scenario E below: it leaves
data sources of the three declared kinds unclaimed. -/
def overrideOnlyLoader : Loader :=
  NewLoader true
    [{ Resolve := fun ds =>
        match ds with
        | some d =>
          match d.Kind with
          | .unrecognized _ => .ok (some (.custom "override"))
          | _ => .ok none
        | none => .ok none }]

/-- A source configuration whose data sources are a nil pointer, a remote-GraphQL data source
without any payload, and a static data source without payload. -/
def malformed_config : nodev1.RouterConfig where
  EngineConfig := some
    { DefaultFlushInterval := 500
      DatasourceConfigurations :=
        [none, some (bareDataSource "g" .GRAPHQL), some (bareDataSource "s" .STATIC)]
      FieldConfigurations := []
      TypeConfigurations := []
      StringStorage := [] }
  Subgraphs := []

/-- A static data source with the given id and data. -/
def staticDataSource (id : String) (data : String) : nodev1.DataSourceConfiguration :=
  { bareDataSource id .STATIC with CustomStatic := some { Data := some (.literal data) } }

/-- A loader whose only resolver claims static data sources and passes on every other
one. -/
def staticOnlyLoader : Loader :=
  NewLoader false
    [{ Resolve := fun ds =>
        match ds with
        | some d =>
          match d.Kind with
          | .STATIC => .ok (some (.static {}))
          | _ => .ok none
        | none => .ok none }]

/-- Three data sources: static `a`, publish-subscribe `b`, static `c`. -/
def mixed_config : nodev1.RouterConfig :=
  routerConfigOf
    [staticDataSource "a" "1", bareDataSource "b" .PUBSUB, staticDataSource "c" "3"] []

/-- A static data source followed by a data source `ds-1` of the undeclared kind 7, for which
the default resolver returns an error. -/
def unknownKind_config : nodev1.RouterConfig :=
  routerConfigOf [staticDataSource "s" "1", bareDataSource "ds-1" (.unrecognized 7)] []

/-- The compiled entry of `staticDataSource id data` with the static factory. -/
def staticEntry (id : String) (data : String) : plan.DataSourceConfiguration where
  ID := id
  Factory := .static {}
  Custom := .static { Data := data }
  RootNodes := .nil
  ChildNodes := .nil
  Directives := .nil
  FederationMetaData :=
    { Keys := .nil, Requires := .nil, Provides := .nil, EntityInterfaces := .nil,
      InterfaceObjects := .nil }

/-- Scenario C: a remote-GraphQL data source whose upstream schema is the interned string
`schema-1`, with a string table that lacks this key. -/
def scenarioC_config : nodev1.RouterConfig :=
  routerConfigOf
    [graphqlDataSource "ds-c" (some (.literal "http://svc/graphql"))
      { Enabled := true, Url := none, UseSSE := none, Protocol := some .WS } "schema-1"]
    [("schema-0", "type Query")]

/-- A publish-subscribe data source with the given id whose events have the given event type
numbers. -/
def pubsubDataSource (id : String) (types : List Nat) : nodev1.DataSourceConfiguration :=
  { bareDataSource id .PUBSUB with
    CustomEvents := some
      { Events := types.map fun n =>
          some { Type_ := ⟨n⟩, TypeName := "Subscription", FieldName := "updated",
                 Topic := "updates" } } }

/-- Scenario D: a publish-subscribe data source that declares an event of type `PUBLISH`
and then one of the undeclared type number 3, whose type string is `3`. -/
def scenarioD_config : nodev1.RouterConfig :=
  routerConfigOf [pubsubDataSource "ds-d" [0, 3]] []

/-- A static data source that declares one key, two `@provides` fields, an entity interface,
a root node, a child node and two directives with rename targets of their own, and no
`@requires` field and no interface object. -/
def federated_dataSource : nodev1.DataSourceConfiguration :=
  { staticDataSource "fed" "1" with
    RootNodes := [some { TypeName := "Query", FieldNames := ["user", "users"] }]
    ChildNodes := [some { TypeName := "User", FieldNames := ["id"] }]
    Directives :=
      [some { DirectiveName := "key", RenameTo := "federation__key" },
       some { DirectiveName := "tag", RenameTo := "label" }]
    Keys := [some { TypeName := "User", FieldName := "", SelectionSet := "id" }]
    Provides :=
      [some { TypeName := "Query", FieldName := "user", SelectionSet := "name" },
       some { TypeName := "Query", FieldName := "user", SelectionSet := "name" }]
    EntityInterfaces :=
      [some { InterfaceTypeName := "Node", ConcreteTypeNames := ["User", "User"] }] }

/-- The compiled entry of `federated_dataSource`. -/
def federated_entry : plan.DataSourceConfiguration where
  ID := "fed"
  Factory := .static {}
  Custom := .static { Data := "1" }
  RootNodes := .mk [{ TypeName := "Query", FieldNames := ["user", "users"] }]
  ChildNodes := .mk [{ TypeName := "User", FieldNames := ["id"] }]
  Directives :=
    .mk [{ DirectiveName := "key", RenameTo := "key" },
         { DirectiveName := "tag", RenameTo := "tag" }]
  FederationMetaData :=
    { Keys := .mk [{ TypeName := "User", FieldName := "", SelectionSet := "id" }]
      Requires := .nil
      Provides :=
        .mk [{ TypeName := "Query", FieldName := "user", SelectionSet := "name" },
             { TypeName := "Query", FieldName := "user", SelectionSet := "name" }]
      EntityInterfaces :=
        .mk [{ InterfaceTypeName := "Node", ConcreteTypeNames := ["User", "User"] }]
      InterfaceObjects := .nil }

/-- A source configuration with `federated_dataSource` only. -/
def federated_config : nodev1.RouterConfig :=
  routerConfigOf [federated_dataSource] []

/-- The compiled configuration of `federated_config`. -/
def federated_compiled : plan.Configuration where
  DefaultFlushIntervalMillis := 500
  DataSources := .mk [federated_entry]
  Fields := .nil
  Types := .nil
  IncludeInfo := false

/-- A field configuration whose authorization block does not require authentication and
names one OR-scope set, which is empty. -/
def emptyScopes_field : nodev1.FieldConfiguration where
  TypeName := "Query"
  FieldName := "me"
  ArgumentsConfiguration := []
  AuthorizationConfiguration := some
    { RequiresAuthentication := false
      RequiredOrScopes := [some { RequiredAndScopes := [] }] }

/-- A field configuration whose authorization block does not require authentication and
names no OR-scope set. -/
def noScopes_field : nodev1.FieldConfiguration where
  TypeName := "Query"
  FieldName := "me"
  ArgumentsConfiguration := []
  AuthorizationConfiguration := some { RequiresAuthentication := false, RequiredOrScopes := [] }

/-- A source configuration without data sources, with two field configurations, the first
with two arguments, and one type configuration. -/
def fieldsOnly_config : nodev1.RouterConfig where
  EngineConfig := some
    { DefaultFlushInterval := 500
      DatasourceConfigurations := []
      FieldConfigurations :=
        [some { TypeName := "Query", FieldName := "user"
                ArgumentsConfiguration :=
                  [some { Name := "id", SourceType := .FIELD_ARGUMENT },
                   some { Name := "parent", SourceType := .OBJECT_FIELD }]
                AuthorizationConfiguration := none },
         some scenarioB_field]
      TypeConfigurations := [some { TypeName := "Person", RenameTo := "User" }]
      StringStorage := [] }
  Subgraphs := []

/-- The compiled configuration of `fieldsOnly_config`. -/
def fieldsOnly_compiled : plan.Configuration where
  DefaultFlushIntervalMillis := 500
  DataSources := .nil
  Fields :=
    .mk [{ TypeName := "Query", FieldName := "user"
           Arguments :=
             .mk [{ Name := "id", SourceType := .FieldArgumentSource },
                  { Name := "parent", SourceType := .ObjectFieldSource }]
           HasAuthorizationRule := false },
         { TypeName := "Query", FieldName := "me", Arguments := .nil
           HasAuthorizationRule := true }]
  Types := .mk [{ TypeName := "Person", RenameTo := "User" }]
  IncludeInfo := false

/-- A user resolver that claims static data sources with a factory of its own and passes on
every other data source. -/
def userResolver : FactoryResolver where
  Resolve := fun ds =>
    match ds with
    | some d =>
      match d.Kind with
      | .STATIC => .ok (some (.custom "user"))
      | _ => .ok none
    | none => .ok none

/-- The typical chain: a user resolver followed by the default resolver. -/
def typicalLoader : Loader :=
  NewLoader false [userResolver, scenarioDefault.toResolver]

/-- Three data sources of which the first and the last compile and the second, a
remote-GraphQL data source, refers to an interned string that the table lacks. -/
def middleFails_config : nodev1.RouterConfig :=
  routerConfigOf
    [staticDataSource "a" "1",
     graphqlDataSource "ds-c" (some (.literal "http://svc/graphql"))
       { Enabled := true, Url := none, UseSSE := none, Protocol := some .WS } "schema-1",
     staticDataSource "c" "3"]
    []

/-- A remote-GraphQL data source `ds-h` whose declared header map is visited in the order of
`entries`. -/
def headersDataSource (entries : List (String × Option nodev1.HTTPHeader)) :
    nodev1.DataSourceConfiguration :=
  { bareDataSource "ds-h" .GRAPHQL with
    CustomGraphql := some
      { Fetch := some
          { Url := some (.literal "http://svc/graphql"), Method := ⟨1⟩, Header := entries }
        Subscription := some
          { Enabled := true, Url := none, UseSSE := none, Protocol := some .WS }
        Federation := some { Enabled := true, ServiceSdl := "type Query" }
        UpstreamSchema := some { Key := "schema-1" }
        CustomScalarTypeFields := [] } }

/-- The source configuration with `headersDataSource entries` only. -/
def headersConfig (entries : List (String × Option nodev1.HTTPHeader)) : nodev1.RouterConfig :=
  routerConfigOf [headersDataSource entries] [("schema-1", "type Query")]

/-- The compiled configuration of `headersConfig` when the compiled header map is
`header`. -/
def headersCompiled (header : Header) : plan.Configuration where
  DefaultFlushIntervalMillis := 500
  DataSources := .mk
    [{ ID := "ds-h"
       Factory := .graphql { HTTPClient := some ⟨1⟩, StreamingClient := some ⟨2⟩, Logger := none }
       Custom := .graphql
         { Fetch := { URL := "http://svc/graphql", Method := "POST", Header := header }
           Federation := { Enabled := true, ServiceSDL := "type Query" }
           Subscription :=
             { URL := "http://svc/graphql"
               UseSSE := false
               SSEMethodPost := false
               ForwardedClientHeaderNames := []
               ForwardedClientHeaderRegularExpressions := [] }
           UpstreamSchema := "type Query"
           CustomScalarTypeFields := .mk [] }
       RootNodes := .nil
       ChildNodes := .nil
       Directives := .nil
       FederationMetaData :=
         { Keys := .nil, Requires := .nil, Provides := .nil, EntityInterfaces := .nil,
           InterfaceObjects := .nil } }]
  Fields := .nil
  Types := .nil
  IncludeInfo := false

/-- Two declared headers whose names, `x-a` and `X-A`, differ by letter case only. -/
def collidingHeaders : List (String × Option nodev1.HTTPHeader) :=
  [("x-a", some { Values := [some (.literal "1")] }),
   ("X-A", some { Values := [some (.literal "2")] })]

/-- A well-formed source configuration: a static data source, a remote-GraphQL data source
whose upstream-schema reference is absent, and a publish-subscribe data source without any
payload; the table holds a string under the empty key. -/
def wellFormed_config : nodev1.RouterConfig :=
  routerConfigOf
    [staticDataSource "a" "1",
     { bareDataSource "g" .GRAPHQL with
       CustomGraphql := some
         { Fetch := some
             { Url := some (.literal "http://svc/graphql"), Method := ⟨1⟩, Header := [] }
           Subscription := some
             { Enabled := true, Url := none, UseSSE := none, Protocol := none }
           Federation := some { Enabled := false, ServiceSdl := "" }
           UpstreamSchema := none
           CustomScalarTypeFields := [] } },
     bareDataSource "p" .PUBSUB]
    [("", "type Query")]

/-- The compiled configuration of `wellFormed_config` with the default resolver: the schema
is the string under the empty key, and the publish-subscribe data source has an allocated,
empty event list. -/
def wellFormed_compiled : plan.Configuration where
  DefaultFlushIntervalMillis := 500
  DataSources := .mk
    [{ staticEntry "a" "1" with Factory := .static {} },
     { ID := "g"
       Factory := .graphql { HTTPClient := some ⟨1⟩, StreamingClient := some ⟨2⟩, Logger := none }
       Custom := .graphql
         { Fetch := { URL := "http://svc/graphql", Method := "POST", Header := [] }
           Federation := { Enabled := false, ServiceSDL := "" }
           Subscription :=
             { URL := "http://svc/graphql"
               UseSSE := false
               SSEMethodPost := false
               ForwardedClientHeaderNames := []
               ForwardedClientHeaderRegularExpressions := [] }
           UpstreamSchema := "type Query"
           CustomScalarTypeFields := .mk [] }
       RootNodes := .nil
       ChildNodes := .nil
       Directives := .nil
       FederationMetaData :=
         { Keys := .nil, Requires := .nil, Provides := .nil, EntityInterfaces := .nil,
           InterfaceObjects := .nil } },
     { ID := "p"
       Factory := .pubsub { Connector := 7 }
       Custom := .pubsub { Events := .mk [] }
       RootNodes := .nil
       ChildNodes := .nil
       Directives := .nil
       FederationMetaData :=
         { Keys := .nil, Requires := .nil, Provides := .nil, EntityInterfaces := .nil,
           InterfaceObjects := .nil } }]
  Fields := .nil
  Types := .nil
  IncludeInfo := false

/-- A static data source that carries its payload, whose data variable is of the kind
number 9, which the string-variable loader does not handle. -/
def unhandledVariable_dataSource : nodev1.DataSourceConfiguration :=
  { bareDataSource "u" .STATIC with CustomStatic := some { Data := some (.unhandled 9) } }

/-- Whether an outcome is a value. -/
def Outcome.isOk {α : Type} : Outcome α → Bool
  | .ok _ => true
  | _ => false

/-- Scenario E: an override resolver that claims every data source of an unrecognized kind
with its own factory and passes on every other one. -/
def overrideResolver : FactoryResolver where
  Resolve := fun ds =>
    match ds with
    | some d =>
      match d.Kind with
      | .unrecognized _ => .ok (some (.custom "override"))
      | _ => .ok none
    | none => .ok none

/-- Scenario E: the resolvers `[overrideResolver, defaultResolver]`. -/
def scenarioE_loader : Loader :=
  NewLoader false [overrideResolver, scenarioDefault.toResolver]

/-! ## Basic facts about outcomes and loops -/

@[simp] theorem Outcome.pure_eq {α : Type} (a : α) : (pure a : Outcome α) = Outcome.ok a := rfl

@[simp] theorem Outcome.bind_eq {α β : Type} (x : Outcome α) (f : α → Outcome β) :
    (x >>= f) = Outcome.bind x f := rfl

@[simp] theorem Outcome.bind_ok {α β : Type} (a : α) (f : α → Outcome β) :
    Outcome.bind (Outcome.ok a) f = f a := rfl

@[simp] theorem Outcome.bind_error {α β : Type} (e : GoError) (f : α → Outcome β) :
    Outcome.bind (Outcome.error e) f = Outcome.error e := rfl

@[simp] theorem Outcome.bind_panic {α β : Type} (f : α → Outcome β) :
    Outcome.bind (Outcome.panic : Outcome α) f = Outcome.panic := rfl

theorem Outcome.bind_eq_ok {α β : Type} {x : Outcome α} {f : α → Outcome β} {b : β}
    (h : Outcome.bind x f = .ok b) : ∃ a, x = .ok a ∧ f a = .ok b := by
  cases x with
  | ok a => exact ⟨a, rfl, h⟩
  | error e => simp at h
  | panic => simp at h

@[simp] theorem wrapError_ok {α : Type} (format : String) (args : List String) (a : α) :
    wrapError format args (Outcome.ok a) = Outcome.ok a := rfl

@[simp] theorem wrapError_error {α : Type} (format : String) (args : List String)
    (e : GoError) :
    wrapError format args (Outcome.error e : Outcome α) = .error (.wrapf format args e) := rfl

@[simp] theorem wrapError_panic {α : Type} (format : String) (args : List String) :
    wrapError format args (Outcome.panic : Outcome α) = .panic := rfl

theorem wrapError_eq_ok {α : Type} {format : String} {args : List String} {x : Outcome α}
    {a : α} (h : wrapError format args x = .ok a) : x = .ok a := by
  cases x with
  | ok b => simpa using h
  | error e => simp at h
  | panic => simp at h

@[simp] theorem deref_some {α : Type} (a : α) : deref (some a) = Outcome.ok a := rfl

@[simp] theorem deref_none {α : Type} : deref (none : Option α) = Outcome.panic := rfl

/-- A call of the string-variable loader that does not panic returns its string. -/
theorem callLoadStringVariable_of_returns {env : Collaborators}
    {v : Option nodev1.ConfigurationVariable} (h : env.LoadStringVariable_panics v = false) :
    env.callLoadStringVariable v = .ok (env.LoadStringVariable v) := by
  simp [Collaborators.callLoadStringVariable, h]

/-- A call of the string-variable loader that returns has not panicked, and its value is the
string of the loader. -/
theorem callLoadStringVariable_eq_ok {env : Collaborators}
    {v : Option nodev1.ConfigurationVariable} {s : String}
    (h : env.callLoadStringVariable v = .ok s) :
    s = env.LoadStringVariable v ∧ env.LoadStringVariable_panics v = false := by
  unfold Collaborators.callLoadStringVariable at h
  cases hp : env.LoadStringVariable_panics v with
  | true => rw [hp] at h; simp at h
  | false => rw [hp] at h; simp at h; exact ⟨h.symm, rfl⟩

/-- A call of `FetchURLRules` that does not panic returns its rule list. -/
theorem callFetchURLRules_of_returns {env : Collaborators} {rules : HeaderRules}
    {subgraphs : List (Option nodev1.Subgraph)} {url : String}
    (h : env.FetchURLRules_panics rules subgraphs url = false) :
    env.callFetchURLRules rules subgraphs url = .ok (env.FetchURLRules rules subgraphs url) := by
  simp [Collaborators.callFetchURLRules, h]

theorem deref_eq_ok {α : Type} {x : Option α} {a : α} (h : deref x = .ok a) : x = some a := by
  cases x with
  | none => simp at h
  | some b => simp at h; rw [h]

@[simp] theorem Slice.toList_nil {α : Type} : (Slice.nil : Slice α).toList = [] := rfl

@[simp] theorem Slice.toList_mk {α : Type} (xs : List α) : (Slice.mk xs).toList = xs := rfl

@[simp] theorem Slice.toList_append {α : Type} (s : Slice α) (x : α) :
    (s.append x).toList = s.toList ++ [x] := rfl

@[simp] theorem forRange_nil {α σ : Type} (s : σ) (body : σ → α → Outcome σ) :
    forRange [] s body = .ok s := rfl

theorem forRange_cons {α σ : Type} (x : α) (xs : List α) (s : σ) (body : σ → α → Outcome σ) :
    forRange (x :: xs) s body = Outcome.bind (body s x) (fun s' => forRange xs s' body) := by
  rw [forRange]
  cases body s x <;> rfl

theorem forRange_append {α σ : Type} (xs ys : List α) (s : σ) (body : σ → α → Outcome σ) :
    forRange (xs ++ ys) s body
      = Outcome.bind (forRange xs s body) (fun s' => forRange ys s' body) := by
  induction xs generalizing s with
  | nil => simp
  | cons x xs ih =>
    rw [List.cons_append, forRange_cons, forRange_cons]
    cases body s x with
    | ok s' => simp [ih]
    | error e => simp
    | panic => simp

theorem Outcome.bind_assoc {α β γ : Type} (x : Outcome α) (f : α → Outcome β)
    (g : β → Outcome γ) :
    Outcome.bind (Outcome.bind x f) g = Outcome.bind x (fun a => Outcome.bind (f a) g) := by
  cases x <;> rfl

/-- A loop that appends one computed element per input, when it completes, has appended the
computed elements in input order. -/
theorem forRange_append_ok {α β : Type} (g : α → Outcome β) (xs : List α) :
    ∀ (acc out : Slice β),
      forRange xs acc (fun acc x => Outcome.bind (g x) fun v => .ok (acc.append v)) = .ok out →
      ∃ vs, out.toList = acc.toList ++ vs ∧ List.Forall₂ (fun x v => g x = .ok v) xs vs := by
  induction xs with
  | nil =>
    intro acc out h
    simp at h
    subst h
    exact ⟨[], by simp, List.Forall₂.nil⟩
  | cons x xs ih =>
    intro acc out h
    rw [forRange_cons] at h
    obtain ⟨acc', hbody, hrest⟩ := Outcome.bind_eq_ok h
    obtain ⟨v, hv, hacc⟩ := Outcome.bind_eq_ok hbody
    cases hacc
    obtain ⟨vs, hout, hall⟩ := ih (acc.append v) out hrest
    refine ⟨v :: vs, ?_, List.Forall₂.cons hv hall⟩
    rw [hout]
    simp

/-- An appending loop over pointers, when it completes, has appended the image of every
element, in order; it leaves a `nil` slice `nil` exactly when there is nothing to append. -/
theorem appendEach_ok {α β : Type} {xs : List (Option α)} {f : α → β} {out : Slice β}
    (h : appendEach xs Slice.nil f = .ok out) :
    List.Forall₂ (fun x v => ∃ a, x = some a ∧ v = f a) xs out.toList
      ∧ (xs = [] → out = Slice.nil) ∧ (xs ≠ [] → out = Slice.mk out.toList) := by
  have hbody : (fun (out : Slice β) (x : Option α) =>
        (do let x ← deref x; pure (out.append (f x)) : Outcome (Slice β)))
      = fun out x => Outcome.bind (Outcome.bind (deref x) fun a => .ok (f a))
          fun v => .ok (out.append v) := by
    funext out x
    cases x <;> rfl
  unfold appendEach at h
  rw [hbody] at h
  refine ⟨?_, ?_, ?_⟩
  · obtain ⟨vs, hout, hall⟩ := forRange_append_ok _ _ _ _ h
    rw [hout]
    simp only [Slice.toList_nil, List.nil_append]
    refine hall.imp ?_
    intro x v hx
    obtain ⟨a, ha, hv⟩ := Outcome.bind_eq_ok hx
    cases hv
    exact ⟨a, deref_eq_ok ha, rfl⟩
  · intro hnil
    subst hnil
    simp at h
    exact h.symm
  · intro hne
    cases xs with
    | nil => exact absurd rfl hne
    | cons x xs =>
      rw [forRange_cons] at h
      obtain ⟨acc, hacc, hrest⟩ := Outcome.bind_eq_ok h
      obtain ⟨v, _, hv⟩ := Outcome.bind_eq_ok hacc
      cases hv
      have hmk : ∀ (ys : List (Option α)) (acc out : Slice β),
          acc = Slice.mk acc.toList →
          forRange ys acc (fun out x =>
            Outcome.bind (Outcome.bind (deref x) fun a => Outcome.ok (f a))
              fun v => Outcome.ok (out.append v)) = .ok out →
          out = Slice.mk out.toList := by
        intro ys
        induction ys with
        | nil =>
          intro acc out hacc h
          simp at h
          rw [← h]
          exact hacc
        | cons y ys ih =>
          intro acc out _ h
          rw [forRange_cons] at h
          obtain ⟨acc', hacc', hrest'⟩ := Outcome.bind_eq_ok h
          obtain ⟨w, _, hw⟩ := Outcome.bind_eq_ok hacc'
          cases hw
          exact ih (acc.append w) out rfl hrest'
      exact hmk xs _ out rfl hrest

/-- The element `Load_fields` computes for one field configuration. -/
theorem Load_fields_eq (l : Loader) (ec : nodev1.EngineConfiguration) :
    Load_fields l ec
      = forRange ec.FieldConfigurations Slice.nil
          (fun acc configuration =>
            Outcome.bind
              (Outcome.bind (deref configuration) fun c =>
                Outcome.bind (Load_arguments c) fun args =>
                  .ok ({ TypeName := c.TypeName
                         FieldName := c.FieldName
                         Arguments := args
                         HasAuthorizationRule := l.fieldHasAuthorizationRule configuration } :
                    plan.FieldConfiguration))
              fun v => .ok (acc.append v)) := by
  unfold Load_fields
  congr 1
  funext acc configuration
  cases configuration with
  | none => rfl
  | some c =>
    simp only [Outcome.bind_eq, Outcome.pure_eq, deref_some, Outcome.bind_ok]
    cases Load_arguments c <;> rfl

/-- When the field loop completes, the compiled fields carry, in input order, the
authorization flags computed by `fieldHasAuthorizationRule`. -/
theorem Load_fields_hasAuthorizationRule {l : Loader} {ec : nodev1.EngineConfiguration}
    {fields : Slice plan.FieldConfiguration} (h : Load_fields l ec = .ok fields) :
    fields.toList.map (fun f => f.HasAuthorizationRule)
      = ec.FieldConfigurations.map l.fieldHasAuthorizationRule := by
  rw [Load_fields_eq] at h
  obtain ⟨vs, hout, hall⟩ := forRange_append_ok _ _ _ _ h
  rw [hout]
  simp only [Slice.toList_nil, List.nil_append]
  clear hout h
  generalize ec.FieldConfigurations = xs at hall
  induction hall with
  | nil => rfl
  | cons hx _ ih =>
    rw [List.map_cons, List.map_cons, ih]
    congr 1
    obtain ⟨c, _, hx⟩ := Outcome.bind_eq_ok hx
    obtain ⟨args, _, hx⟩ := Outcome.bind_eq_ok hx
    cases hx
    rfl

/-- A loop whose body cannot fail is a fold. -/
theorem forRange_ok {α σ : Type} (g : σ → α → σ) (xs : List α) :
    ∀ s : σ, forRange xs s (fun s x => Outcome.ok (g s x)) = .ok (xs.foldl g s) := by
  induction xs with
  | nil => intro s; rfl
  | cons x xs ih =>
    intro s
    rw [forRange_cons]
    exact ih (g s x)

/-- A collecting loop completes when every element can be computed. -/
theorem forRange_collect_of_all {α β : Type} (f : α → Outcome β) (xs : List α)
    (hall : ∀ x ∈ xs, ∃ v, f x = .ok v) :
    ∀ acc : List β, ∃ vs,
      forRange xs acc (fun acc x => Outcome.bind (f x) fun v => .ok (acc ++ [v]))
          = .ok (acc ++ vs)
        ∧ List.Forall₂ (fun x v => f x = .ok v) xs vs := by
  induction xs with
  | nil => intro acc; exact ⟨[], by simp, List.Forall₂.nil⟩
  | cons x xs ih =>
    intro acc
    obtain ⟨v, hv⟩ := hall x (List.mem_cons_self _ _)
    obtain ⟨vs, hvs, hrel⟩ := ih (fun y hy => hall y (List.mem_cons_of_mem _ hy)) (acc ++ [v])
    refine ⟨v :: vs, ?_, List.Forall₂.cons hv hrel⟩
    rw [forRange_cons, hv, Outcome.bind_ok, Outcome.bind_ok, hvs]
    simp

/-- A collecting loop that completes has computed every element, in order. -/
theorem forRange_collect_ok {α β : Type} (f : α → Outcome β) (xs : List α) :
    ∀ acc out : List β,
      forRange xs acc (fun acc x => Outcome.bind (f x) fun v => .ok (acc ++ [v])) = .ok out →
      ∃ vs, out = acc ++ vs ∧ List.Forall₂ (fun x v => f x = .ok v) xs vs := by
  induction xs with
  | nil =>
    intro acc out h
    simp at h
    exact ⟨[], by simp [h], List.Forall₂.nil⟩
  | cons x xs ih =>
    intro acc out h
    rw [forRange_cons] at h
    obtain ⟨acc', hbody, hrest⟩ := Outcome.bind_eq_ok h
    obtain ⟨v, hv, hacc⟩ := Outcome.bind_eq_ok hbody
    cases hacc
    obtain ⟨vs, hout, hrel⟩ := ih (acc ++ [v]) out hrest
    exact ⟨v :: vs, by simp [hout], List.Forall₂.cons hv hrel⟩

/-- A collecting loop returns the error of the first element that cannot be computed. -/
theorem forRange_collect_error {α β : Type} (f : α → Outcome β) (pre : List α) (x : α)
    (post : List α) (e : GoError) (hpre : ∀ p ∈ pre, ∃ v, f p = .ok v)
    (hx : f x = .error e) (acc : List β) :
    forRange (pre ++ x :: post) acc (fun acc x => Outcome.bind (f x) fun v => .ok (acc ++ [v]))
      = .error e := by
  obtain ⟨vs, hvs, _⟩ := forRange_collect_of_all f pre hpre acc
  rw [forRange_append, hvs, Outcome.bind_ok, forRange_cons, hx]
  rfl

theorem makeAndFill_of_all {α β : Type} (f : α → Outcome β) (xs : List α)
    (hall : ∀ x ∈ xs, ∃ v, f x = .ok v) :
    ∃ vs, makeAndFill xs f = .ok (.mk vs) ∧ List.Forall₂ (fun x v => f x = .ok v) xs vs := by
  obtain ⟨vs, hvs, hrel⟩ := forRange_collect_of_all f xs hall []
  exact ⟨vs, by simp [makeAndFill, hvs], hrel⟩

theorem makeAndFill_ok {α β : Type} {f : α → Outcome β} {xs : List α} {out : Slice β}
    (h : makeAndFill xs f = .ok out) :
    ∃ vs, out = .mk vs ∧ List.Forall₂ (fun x v => f x = .ok v) xs vs := by
  unfold makeAndFill at h
  obtain ⟨l, hl, h⟩ := Outcome.bind_eq_ok h
  cases h
  obtain ⟨vs, hout, hrel⟩ := forRange_collect_ok f xs [] l hl
  exact ⟨vs, by simp [hout], hrel⟩

theorem makeAndFill_error {α β : Type} (f : α → Outcome β) (pre : List α) (x : α)
    (post : List α) (e : GoError) (hpre : ∀ p ∈ pre, ∃ v, f p = .ok v)
    (hx : f x = .error e) :
    makeAndFill (pre ++ x :: post) f = .error e := by
  simp [makeAndFill, forRange_collect_error f pre x post e hpre hx []]

/-- The loop over the values of one declared header completes when the string-variable
loader returns on each of them. -/
theorem header_values_loop (env : Collaborators) (name : String)
    (values : List (Option nodev1.ConfigurationVariable))
    (hvalues : ∀ value ∈ values, env.LoadStringVariable_panics value = false) (acc : Header) :
    ∃ header,
      forRange values acc (fun header value =>
        Outcome.bind (env.callLoadStringVariable value) fun resolved =>
          Outcome.ok (Header.Add env.CanonicalMIMEHeaderKey header name resolved))
        = .ok header := by
  induction values generalizing acc with
  | nil => exact ⟨acc, rfl⟩
  | cons value values ih =>
    rw [forRange_cons,
      callLoadStringVariable_of_returns (hvalues value (List.mem_cons_self _ _))]
    simp only [Outcome.bind_ok]
    exact ih (fun w hw => hvalues w (List.mem_cons_of_mem _ hw)) _

/-- The header loop completes when no declared header is a nil pointer and the string-variable
loader returns on every declared value. -/
theorem Load_header_of_present (env : Collaborators) (fetch : nodev1.FetchConfiguration)
    (hall : ∀ h ∈ fetch.Header, h.2 ≠ none)
    (hvalues : ∀ entry ∈ fetch.Header, ∀ httpHeader, entry.2 = some httpHeader →
      ∀ value ∈ httpHeader.Values, env.LoadStringVariable_panics value = false) :
    ∃ header, Load_header env fetch = .ok header := by
  unfold Load_header
  generalize fetch.Header = entries at hall hvalues
  generalize ([] : Header) = acc
  induction entries generalizing acc with
  | nil => exact ⟨acc, rfl⟩
  | cons entry entries ih =>
    rw [forRange_cons]
    cases hentry : entry.2 with
    | none => exact absurd hentry (hall entry (List.mem_cons_self _ _))
    | some httpHeader =>
      simp only [Outcome.bind_eq, Outcome.pure_eq, deref_some, Outcome.bind_ok]
      obtain ⟨header, hheader⟩ := header_values_loop env entry.1 httpHeader.Values
        (hvalues entry (List.mem_cons_self _ _) httpHeader hentry) acc
      rw [hheader, Outcome.bind_ok]
      exact ih (fun h hh => hall h (List.mem_cons_of_mem _ hh))
        (fun e he => hvalues e (List.mem_cons_of_mem _ he)) _

/-! ## The structure of `Load` -/

theorem Load_eq (env : Collaborators) (l : Loader) (rc : nodev1.RouterConfig)
    (settings : Option RouterEngineConfiguration) (ec : nodev1.EngineConfiguration)
    (hec : rc.EngineConfig = some ec) :
    l.Load env (some rc) settings
      = Outcome.bind (Load_fields l ec) fun fields =>
        Outcome.bind (Load_types ec) fun types =>
        Outcome.bind (forRange ec.DatasourceConfigurations Slice.nil
          (Load_dataSource env l rc settings ec)) fun dataSources =>
        .ok { DefaultFlushIntervalMillis := ec.DefaultFlushInterval
              DataSources := dataSources
              Fields := fields
              Types := types
              IncludeInfo := l.includeInfo } := by
  simp [Loader.Load, hec]

theorem Load_ok_parts {env : Collaborators} {l : Loader} {rc : nodev1.RouterConfig}
    {settings : Option RouterEngineConfiguration} {ec : nodev1.EngineConfiguration}
    {out : plan.Configuration}
    (hec : rc.EngineConfig = some ec) (h : l.Load env (some rc) settings = .ok out) :
    Load_fields l ec = .ok out.Fields ∧ Load_types ec = .ok out.Types
      ∧ forRange ec.DatasourceConfigurations Slice.nil (Load_dataSource env l rc settings ec)
          = .ok out.DataSources
      ∧ out.DefaultFlushIntervalMillis = ec.DefaultFlushInterval
      ∧ out.IncludeInfo = l.includeInfo := by
  rw [Load_eq env l rc settings ec hec] at h
  obtain ⟨fields, hf, h⟩ := Outcome.bind_eq_ok h
  obtain ⟨types, ht, h⟩ := Outcome.bind_eq_ok h
  obtain ⟨dss, hd, h⟩ := Outcome.bind_eq_ok h
  cases h
  exact ⟨hf, ht, hd, rfl, rfl⟩

/-- What `Load` returns once it has reached a data source. -/
theorem Load_of_reaches {env : Collaborators} {l : Loader} {rc : nodev1.RouterConfig}
    {settings : Option RouterEngineConfiguration} {ec : nodev1.EngineConfiguration}
    {pre post : List (Option nodev1.DataSourceConfiguration)}
    {in_ : Option nodev1.DataSourceConfiguration} {acc : Slice plan.DataSourceConfiguration}
    (h : Reaches env l rc settings ec pre in_ post acc) :
    ∃ fields types,
      Load_fields l ec = .ok fields ∧ Load_types ec = .ok types ∧
      l.Load env (some rc) settings
        = Outcome.bind (Load_dataSource env l rc settings ec acc in_) fun acc' =>
          Outcome.bind (forRange post acc' (Load_dataSource env l rc settings ec))
            fun dataSources =>
          .ok { DefaultFlushIntervalMillis := ec.DefaultFlushInterval
                DataSources := dataSources
                Fields := fields
                Types := types
                IncludeInfo := l.includeInfo } := by
  obtain ⟨fields, hf⟩ := h.fields
  obtain ⟨types, ht⟩ := h.types
  refine ⟨fields, types, hf, ht, ?_⟩
  rw [Load_eq env l rc settings ec h.engine, hf, ht, h.split, forRange_append, h.before]
  simp only [Outcome.bind_ok, forRange_cons]
  cases Load_dataSource env l rc settings ec acc in_ <;> simp

theorem Load_dataSource_of_claim {env : Collaborators} {l : Loader} {rc : nodev1.RouterConfig}
    {settings : Option RouterEngineConfiguration} {ec : nodev1.EngineConfiguration}
    {in_ : Option nodev1.DataSourceConfiguration} {factory : plan.PlannerFactory}
    (acc : Slice plan.DataSourceConfiguration)
    (hres : l.resolveFactory in_ = .ok (some factory)) :
    Load_dataSource env l rc settings ec acc in_
      = Outcome.bind (Load_entry env l rc settings ec factory in_)
          fun out => .ok (acc.append out) := by
  simp [Load_dataSource, hres]

theorem Load_dataSource_of_pass {env : Collaborators} {l : Loader} {rc : nodev1.RouterConfig}
    {settings : Option RouterEngineConfiguration} {ec : nodev1.EngineConfiguration}
    {in_ : Option nodev1.DataSourceConfiguration}
    (acc : Slice plan.DataSourceConfiguration)
    (hres : l.resolveFactory in_ = .ok none) :
    Load_dataSource env l rc settings ec acc in_ = .ok acc := by
  simp [Load_dataSource, hres]

theorem claims_iff {l : Loader} {in_ : Option nodev1.DataSourceConfiguration} :
    l.claims in_ = true ↔ ∃ factory, l.resolveFactory in_ = .ok (some factory) := by
  unfold Loader.claims
  split <;> simp_all

theorem passes_iff {l : Loader} {in_ : Option nodev1.DataSourceConfiguration} :
    l.passes in_ = true ↔ l.resolveFactory in_ = .ok none := by
  unfold Loader.passes
  split <;> simp_all

/-- The data source loop, when it completes, has appended one entry per claimed data source,
in order, each built by `Load_entry` with the factory of the chain. -/
theorem dataSources_loop_ok {env : Collaborators} {l : Loader} {rc : nodev1.RouterConfig}
    {settings : Option RouterEngineConfiguration} {ec : nodev1.EngineConfiguration}
    (dss : List (Option nodev1.DataSourceConfiguration)) :
    ∀ (acc out : Slice plan.DataSourceConfiguration),
      forRange dss acc (Load_dataSource env l rc settings ec) = .ok out →
      ∃ entries, out.toList = acc.toList ++ entries ∧ (dss.filter l.claims = [] → out = acc) ∧
        List.Forall₂
          (fun in_ o => ∃ factory, l.resolveFactory in_ = .ok (some factory)
            ∧ Load_entry env l rc settings ec factory in_ = .ok o)
          (dss.filter l.claims) entries := by
  induction dss with
  | nil =>
    intro acc out h
    simp at h
    subst h
    exact ⟨[], by simp, fun _ => rfl, by simp⟩
  | cons in_ dss ih =>
    intro acc out h
    rw [forRange_cons] at h
    obtain ⟨acc', hbody, hrest⟩ := Outcome.bind_eq_ok h
    obtain ⟨entries, hout, hnil, hall⟩ := ih acc' out hrest
    cases hres : l.resolveFactory in_ with
    | error e => simp [Load_dataSource, hres] at hbody
    | panic => simp [Load_dataSource, hres] at hbody
    | ok fo =>
      cases fo with
      | none =>
        rw [Load_dataSource_of_pass acc hres] at hbody
        cases hbody
        have hc : l.claims in_ = false := by simp [Loader.claims, hres]
        refine ⟨entries, hout, ?_, ?_⟩
        · simpa [List.filter_cons, hc] using hnil
        · simpa [List.filter_cons, hc] using hall
      | some factory =>
        rw [Load_dataSource_of_claim acc hres] at hbody
        obtain ⟨o, ho, hacc⟩ := Outcome.bind_eq_ok hbody
        cases hacc
        have hc : l.claims in_ = true := by simp [Loader.claims, hres]
        refine ⟨o :: entries, ?_, ?_, ?_⟩
        · rw [hout]
          simp
        · simp [List.filter_cons, hc]
        · simp only [List.filter_cons, hc, if_true]
          exact List.Forall₂.cons ⟨factory, hres, ho⟩ hall

/-- When `Load` succeeds, a claimed data source has its compiled entry, built by `Load_entry`,
at the position given by the number of claimed data sources before it. -/
theorem Load_ok_entry {env : Collaborators} {l : Loader} {rc : nodev1.RouterConfig}
    {settings : Option RouterEngineConfiguration} {ec : nodev1.EngineConfiguration}
    {out : plan.Configuration} {pre post : List (Option nodev1.DataSourceConfiguration)}
    {in_ : Option nodev1.DataSourceConfiguration} {factory : plan.PlannerFactory}
    (hec : rc.EngineConfig = some ec) (hload : l.Load env (some rc) settings = .ok out)
    (hsplit : ec.DatasourceConfigurations = pre ++ in_ :: post)
    (hres : l.resolveFactory in_ = .ok (some factory)) :
    ∃ o, Load_entry env l rc settings ec factory in_ = .ok o
      ∧ out.DataSources.toList[(pre.filter l.claims).length]? = some o := by
  have hloop := (Load_ok_parts hec hload).2.2.1
  rw [hsplit, forRange_append] at hloop
  obtain ⟨acc, hpre, hrest⟩ := Outcome.bind_eq_ok hloop
  rw [forRange_cons, Load_dataSource_of_claim acc hres] at hrest
  obtain ⟨acc', hbody, hpost⟩ := Outcome.bind_eq_ok hrest
  obtain ⟨o, ho, hacc⟩ := Outcome.bind_eq_ok hbody
  cases hacc
  obtain ⟨e1, h1, _, hall1⟩ := dataSources_loop_ok pre Slice.nil acc hpre
  obtain ⟨e2, h2, _, _⟩ := dataSources_loop_ok post (acc.append o) out.DataSources hpost
  have hlen : (pre.filter l.claims).length = acc.toList.length := by
    rw [h1, hall1.length_eq]
    simp
  refine ⟨o, ho, ?_⟩
  rw [h2, hlen, Slice.toList_append, List.append_assoc,
    List.getElem?_append_right (Nat.le_refl _)]
  simp

/-- What a compiled entry is made of. -/
theorem Load_entry_ok {env : Collaborators} {l : Loader} {rc : nodev1.RouterConfig}
    {settings : Option RouterEngineConfiguration} {ec : nodev1.EngineConfiguration}
    {factory : plan.PlannerFactory} {in_ : Option nodev1.DataSourceConfiguration}
    {o : plan.DataSourceConfiguration}
    (h : Load_entry env l rc settings ec factory in_ = .ok o) :
    ∃ ds, in_ = some ds ∧ o.ID = ds.Id ∧ o.Factory = factory
      ∧ Load_custom env l rc settings ec ds = .ok o.Custom := by
  unfold Load_entry at h
  simp only [Outcome.bind_eq, Outcome.pure_eq] at h
  obtain ⟨ds, hds, h⟩ := Outcome.bind_eq_ok h
  obtain ⟨custom, hcustom, h⟩ := Outcome.bind_eq_ok h
  obtain ⟨_, _, h⟩ := Outcome.bind_eq_ok h
  obtain ⟨_, _, h⟩ := Outcome.bind_eq_ok h
  obtain ⟨_, _, h⟩ := Outcome.bind_eq_ok h
  obtain ⟨_, _, h⟩ := Outcome.bind_eq_ok h
  obtain ⟨_, _, h⟩ := Outcome.bind_eq_ok h
  obtain ⟨_, _, h⟩ := Outcome.bind_eq_ok h
  obtain ⟨_, _, h⟩ := Outcome.bind_eq_ok h
  obtain ⟨_, _, h⟩ := Outcome.bind_eq_ok h
  cases h
  exact ⟨ds, deref_eq_ok hds, rfl, rfl, hcustom⟩

/-- The node, directive and federation lists of a compiled entry are the results of the
appending loops over the corresponding lists of the data source. -/
theorem Load_entry_ok_lists {env : Collaborators} {l : Loader} {rc : nodev1.RouterConfig}
    {settings : Option RouterEngineConfiguration} {ec : nodev1.EngineConfiguration}
    {factory : plan.PlannerFactory} {ds : nodev1.DataSourceConfiguration}
    {o : plan.DataSourceConfiguration}
    (h : Load_entry env l rc settings ec factory (some ds) = .ok o) :
    appendEach ds.RootNodes Slice.nil
        (fun node => ({ TypeName := node.TypeName, FieldNames := node.FieldNames } :
          plan.TypeField)) = .ok o.RootNodes
    ∧ appendEach ds.ChildNodes Slice.nil
        (fun node => ({ TypeName := node.TypeName, FieldNames := node.FieldNames } :
          plan.TypeField)) = .ok o.ChildNodes
    ∧ appendEach ds.Directives Slice.nil
        (fun directive => ({ DirectiveName := directive.DirectiveName
                             RenameTo := directive.DirectiveName } :
          plan.DirectiveConfiguration)) = .ok o.Directives
    ∧ appendEach ds.Keys Slice.nil
        (fun c => ({ TypeName := c.TypeName, FieldName := c.FieldName
                     SelectionSet := c.SelectionSet } : plan.FederationFieldConfiguration))
        = .ok o.FederationMetaData.Keys
    ∧ appendEach ds.Provides Slice.nil
        (fun c => ({ TypeName := c.TypeName, FieldName := c.FieldName
                     SelectionSet := c.SelectionSet } : plan.FederationFieldConfiguration))
        = .ok o.FederationMetaData.Provides
    ∧ appendEach ds.Requires Slice.nil
        (fun c => ({ TypeName := c.TypeName, FieldName := c.FieldName
                     SelectionSet := c.SelectionSet } : plan.FederationFieldConfiguration))
        = .ok o.FederationMetaData.Requires
    ∧ appendEach ds.EntityInterfaces Slice.nil
        (fun c => ({ InterfaceTypeName := c.InterfaceTypeName
                     ConcreteTypeNames := c.ConcreteTypeNames } :
          plan.EntityInterfaceConfiguration)) = .ok o.FederationMetaData.EntityInterfaces
    ∧ appendEach ds.InterfaceObjects Slice.nil
        (fun c => ({ InterfaceTypeName := c.InterfaceTypeName
                     ConcreteTypeNames := c.ConcreteTypeNames } :
          plan.EntityInterfaceConfiguration)) = .ok o.FederationMetaData.InterfaceObjects := by
  unfold Load_entry at h
  simp only [Outcome.bind_eq, Outcome.pure_eq, deref_some, Outcome.bind_ok] at h
  obtain ⟨custom, _, h⟩ := Outcome.bind_eq_ok h
  obtain ⟨_, h1, h⟩ := Outcome.bind_eq_ok h
  obtain ⟨_, h2, h⟩ := Outcome.bind_eq_ok h
  obtain ⟨_, h3, h⟩ := Outcome.bind_eq_ok h
  obtain ⟨_, h4, h⟩ := Outcome.bind_eq_ok h
  obtain ⟨_, h5, h⟩ := Outcome.bind_eq_ok h
  obtain ⟨_, h6, h⟩ := Outcome.bind_eq_ok h
  obtain ⟨_, h7, h⟩ := Outcome.bind_eq_ok h
  obtain ⟨_, h8, h⟩ := Outcome.bind_eq_ok h
  cases h
  exact ⟨h1, h2, h3, h4, h5, h6, h7, h8⟩

/-- The custom configuration of a compiled remote-GraphQL data source. -/
theorem Load_custom_graphql_ok {env : Collaborators} {l : Loader} {rc : nodev1.RouterConfig}
    {settings : Option RouterEngineConfiguration} {ec : nodev1.EngineConfiguration}
    {ds : nodev1.DataSourceConfiguration} {custom : plan.Custom}
    (hkind : ds.Kind = .GRAPHQL)
    (h : Load_custom env l rc settings ec ds = .ok custom) :
    ∃ c, custom = .graphql c ∧ Load_graphql env l rc settings ec ds = .ok c := by
  unfold Load_custom at h
  rw [hkind] at h
  simp only [Outcome.bind_eq, Outcome.pure_eq] at h
  obtain ⟨c, hc, h⟩ := Outcome.bind_eq_ok h
  cases h
  exact ⟨c, rfl, hc⟩

/-- The custom configuration of a compiled publish-subscribe data source. -/
theorem Load_custom_pubsub_ok {env : Collaborators} {l : Loader} {rc : nodev1.RouterConfig}
    {settings : Option RouterEngineConfiguration} {ec : nodev1.EngineConfiguration}
    {ds : nodev1.DataSourceConfiguration} {custom : plan.Custom}
    (hkind : ds.Kind = .PUBSUB)
    (h : Load_custom env l rc settings ec ds = .ok custom) :
    ∃ c, custom = .pubsub c ∧ Load_pubsub env ds = .ok c := by
  unfold Load_custom at h
  rw [hkind] at h
  simp only [Outcome.bind_eq, Outcome.pure_eq] at h
  obtain ⟨c, hc, h⟩ := Outcome.bind_eq_ok h
  cases h
  exact ⟨c, rfl, hc⟩

/-- What the configuration record of a compiled remote-GraphQL data source holds. -/
theorem Load_graphql_ok {env : Collaborators} {l : Loader} {rc : nodev1.RouterConfig}
    {settings : Option RouterEngineConfiguration} {ec : nodev1.EngineConfiguration}
    {ds : nodev1.DataSourceConfiguration} {c : graphql_datasource.Configuration}
    (h : Load_graphql env l rc settings ec ds = .ok c) :
    ∃ g fetch sub, ds.CustomGraphql = some g ∧ g.Fetch = some fetch
      ∧ g.Subscription = some sub
      ∧ c.Fetch.URL = env.LoadStringVariable fetch.Url
      ∧ c.Subscription.URL
          = (if env.LoadStringVariable sub.Url = "" then env.LoadStringVariable fetch.Url
             else env.LoadStringVariable sub.Url)
      ∧ (c.Subscription.UseSSE, c.Subscription.SSEMethodPost) = Load_subscriptionProtocol sub
      ∧ l.LoadInternedString (some ec) g.UpstreamSchema = .ok c.UpstreamSchema := by
  unfold Load_graphql at h
  simp only [Outcome.bind_eq, Outcome.pure_eq] at h
  obtain ⟨g, hg, h⟩ := Outcome.bind_eq_ok h
  obtain ⟨fetch, hfetch, h⟩ := Outcome.bind_eq_ok h
  obtain ⟨header, _, h⟩ := Outcome.bind_eq_ok h
  obtain ⟨fetchUrl, hfetchUrl, h⟩ := Outcome.bind_eq_ok h
  obtain ⟨sub, hsub, h⟩ := Outcome.bind_eq_ok h
  obtain ⟨subscriptionUrl, hsubscriptionUrl, h⟩ := Outcome.bind_eq_ok h
  obtain ⟨scalars, _, h⟩ := Outcome.bind_eq_ok h
  obtain ⟨schema, hschema, h⟩ := Outcome.bind_eq_ok h
  obtain ⟨st, _, h⟩ := Outcome.bind_eq_ok h
  obtain ⟨rules, _, h⟩ := Outcome.bind_eq_ok h
  obtain ⟨fw, _, h⟩ := Outcome.bind_eq_ok h
  obtain ⟨fed, _, h⟩ := Outcome.bind_eq_ok h
  cases h
  have h1 := (callLoadStringVariable_eq_ok hfetchUrl).1
  have h2 := (callLoadStringVariable_eq_ok hsubscriptionUrl).1
  subst h1 h2
  exact ⟨g, fetch, sub, deref_eq_ok hg, deref_eq_ok hfetch, deref_eq_ok hsub, rfl, rfl, rfl,
    wrapError_eq_ok hschema⟩

/-! ## The resolver chain -/

theorem resolveLoop_append_of_pass (pre rest : List FactoryResolver)
    (ds : Option nodev1.DataSourceConfiguration)
    (hpre : ∀ p ∈ pre, p.Resolve ds = .ok none) :
    resolveLoop (pre ++ rest) ds = resolveLoop rest ds
      ∧ resolveLoopCalls (pre ++ rest) ds = pre.length + resolveLoopCalls rest ds := by
  induction pre with
  | nil => simp
  | cons p pre ih =>
    have hp : p.Resolve ds = .ok none := hpre p (List.mem_cons_self _ _)
    have ih' := ih (fun q hq => hpre q (List.mem_cons_of_mem _ hq))
    constructor
    · simp only [List.cons_append, resolveLoop, hp]
      exact ih'.1
    · have h2 := ih'.2
      simp only [List.cons_append, resolveLoopCalls, hp, List.length_cons, List.append_eq, h2]
      omega

theorem resolveLoop_cons_of_decide (r : FactoryResolver) (post : List FactoryResolver)
    (ds : Option nodev1.DataSourceConfiguration) (hr : r.Resolve ds ≠ .ok none) :
    resolveLoop (r :: post) ds = r.Resolve ds ∧ resolveLoopCalls (r :: post) ds = 1 := by
  constructor
  · rw [resolveLoop]
    split <;> simp_all
  · rw [resolveLoopCalls]
    split <;> simp_all

theorem resolveLoop_eq_ok_none (rs : List FactoryResolver)
    (ds : Option nodev1.DataSourceConfiguration) :
    resolveLoop rs ds = .ok none ↔ ∀ r ∈ rs, r.Resolve ds = .ok none := by
  induction rs with
  | nil => simp [resolveLoop]
  | cons r rs ih =>
    rw [resolveLoop]
    split <;> simp_all

/-- C1: `Loader.resolveFactory` returns the result of the first resolver, in list order,
whose result is not `(nil, nil)` (a non-nil factory or an error; a panic of that resolver is
passed on too), having called exactly the resolvers up to and including that one, so none
after it; and it returns `(nil, nil)` exactly when every resolver in the list does. -/
theorem resolveFactory_first_match (l : Loader) (ds : Option nodev1.DataSourceConfiguration) :
    (∀ (pre : List FactoryResolver) (r : FactoryResolver) (post : List FactoryResolver),
        l.resolvers = pre ++ r :: post →
        (∀ p ∈ pre, p.Resolve ds = .ok none) →
        r.Resolve ds ≠ .ok none →
        l.resolveFactory ds = r.Resolve ds
          ∧ resolveLoopCalls l.resolvers ds = pre.length + 1)
    ∧ (l.resolveFactory ds = .ok none ↔ ∀ r ∈ l.resolvers, r.Resolve ds = .ok none) := by
  refine ⟨?_, resolveLoop_eq_ok_none l.resolvers ds⟩
  intro pre r post hsplit hpre hr
  have h1 := resolveLoop_append_of_pass pre (r :: post) ds hpre
  have h2 := resolveLoop_cons_of_decide r post ds hr
  unfold Loader.resolveFactory
  rw [hsplit, h1.1, h1.2, h2.1, h2.2]
  exact ⟨rfl, rfl⟩

/-- Scenario E for C1: with the resolvers `[overrideResolver, defaultResolver]` and a data
source of a kind the override claims, the factory of the override is returned after one
`Resolve` call: the default resolver, which would answer with an error, is not called. -/
theorem resolveFactory_first_match_witness :
    scenarioE_loader.resolveFactory (some (bareDataSource "x" (.unrecognized 9)))
        = .ok (some (.custom "override"))
      ∧ resolveLoopCalls scenarioE_loader.resolvers (some (bareDataSource "x" (.unrecognized 9)))
        = 1
      ∧ scenarioDefault.toResolver.Resolve (some (bareDataSource "x" (.unrecognized 9)))
        = .error (.errorf "invalid datasource kind %q" ["9"]) := by
  have h := (resolveFactory_first_match scenarioE_loader
    (some (bareDataSource "x" (.unrecognized 9)))).1 [] overrideResolver
    [scenarioDefault.toResolver] rfl (by simp) (by simp [overrideResolver, bareDataSource])
  exact ⟨h.1, h.2, by decide⟩

/-! ## Remote-GraphQL data sources -/

/-- When `Load` succeeds, a claimed remote-GraphQL data source has a compiled entry with its
id whose configuration record is the one `Load_graphql` builds. -/
theorem Load_ok_graphql {env : Collaborators} {l : Loader} {rc : nodev1.RouterConfig}
    {settings : Option RouterEngineConfiguration} {ec : nodev1.EngineConfiguration}
    {out : plan.Configuration} {pre post : List (Option nodev1.DataSourceConfiguration)}
    {ds : nodev1.DataSourceConfiguration}
    (hec : rc.EngineConfig = some ec) (hload : l.Load env (some rc) settings = .ok out)
    (hsplit : ec.DatasourceConfigurations = pre ++ some ds :: post)
    (hclaim : l.claims (some ds) = true) (hkind : ds.Kind = .GRAPHQL) :
    ∃ o c, out.DataSources.toList[(pre.filter l.claims).length]? = some o ∧ o.ID = ds.Id
      ∧ o.Custom = .graphql c ∧ Load_graphql env l rc settings ec ds = .ok c := by
  obtain ⟨factory, hres⟩ := claims_iff.mp hclaim
  obtain ⟨o, ho, hget⟩ := Load_ok_entry hec hload hsplit hres
  obtain ⟨ds', hds', hid, _, hcustom⟩ := Load_entry_ok ho
  cases hds'
  obtain ⟨c, hc, hg⟩ := Load_custom_graphql_ok hkind hcustom
  exact ⟨o, c, hget, hid, hc, hg⟩

/-- The protocol selection when the enum is present. -/
theorem Load_subscriptionProtocol_enum (sub : nodev1.GraphQLSubscriptionConfiguration)
    (p : nodev1.GraphQLSubscriptionProtocol) (hp : sub.Protocol = some p) :
    (p = .WS → Load_subscriptionProtocol sub = (false, false))
      ∧ (p = .SSE → Load_subscriptionProtocol sub = (true, false))
      ∧ (p = .SSE_POST → Load_subscriptionProtocol sub = (true, true)) := by
  unfold Load_subscriptionProtocol
  rw [hp]
  refine ⟨?_, ?_, ?_⟩ <;> intro h <;> subst h <;> rfl

/-- C2: for a claimed remote-GraphQL data source whose subscription protocol enum is
present, the compiled `(UseSSE, SSEMethodPost)` is read off the enum alone: `WS` gives
`(false, false)`, `SSE` gives `(true, false)`, `SSE_POST` gives `(true, true)`; and the legacy
boolean has no influence: with any other value of it, or without it, the data source compiles
to the same configuration record (or fails the same way). -/
theorem Load_protocol_enum_wins (env : Collaborators) (l : Loader) (rc : nodev1.RouterConfig)
    (settings : Option RouterEngineConfiguration) (ec : nodev1.EngineConfiguration)
    (out : plan.Configuration) (pre post : List (Option nodev1.DataSourceConfiguration))
    (ds : nodev1.DataSourceConfiguration) (g : nodev1.DataSourceCustom_GraphQL)
    (sub : nodev1.GraphQLSubscriptionConfiguration) (p : nodev1.GraphQLSubscriptionProtocol)
    (hec : rc.EngineConfig = some ec) (hload : l.Load env (some rc) settings = .ok out)
    (hsplit : ec.DatasourceConfigurations = pre ++ some ds :: post)
    (hclaim : l.claims (some ds) = true) (hkind : ds.Kind = .GRAPHQL)
    (hg : ds.CustomGraphql = some g) (hsub : g.Subscription = some sub)
    (hp : sub.Protocol = some p) :
    (∃ o c, out.DataSources.toList[(pre.filter l.claims).length]? = some o ∧ o.ID = ds.Id
      ∧ o.Custom = .graphql c
      ∧ (p = .WS → (c.Subscription.UseSSE, c.Subscription.SSEMethodPost) = (false, false))
      ∧ (p = .SSE → (c.Subscription.UseSSE, c.Subscription.SSEMethodPost) = (true, false))
      ∧ (p = .SSE_POST →
          (c.Subscription.UseSSE, c.Subscription.SSEMethodPost) = (true, true)))
    ∧ (∀ u : Option Bool,
        Load_graphql env l rc settings ec
            { ds with
              CustomGraphql := some { g with Subscription := some { sub with UseSSE := u } } }
          = Load_graphql env l rc settings ec ds) := by
  constructor
  · obtain ⟨o, c, hget, hid, hc, hgraphql⟩ := Load_ok_graphql hec hload hsplit hclaim hkind
    obtain ⟨g', _, sub', hg', _, hsub', _, _, hproto, _⟩ := Load_graphql_ok hgraphql
    rw [hg] at hg'
    cases hg'
    rw [hsub] at hsub'
    cases hsub'
    obtain ⟨h1, h2, h3⟩ := Load_subscriptionProtocol_enum sub p hp
    exact ⟨o, c, hget, hid, hc, fun h => hproto.trans (h1 h), fun h => hproto.trans (h2 h),
      fun h => hproto.trans (h3 h)⟩
  · intro u
    simp [Load_graphql, hg, hsub, Load_subscriptionProtocol, hp]

/-- Witness for C2: protocol `SSE_POST` with the legacy boolean set to `false` compiles to
`(true, true)`. -/
theorem Load_protocol_enum_wins_witness :
    ∃ out o c, scenarioLoader.Load scenarioEnv (some disagreeing_config) (some scenarioSettings)
        = .ok out
      ∧ out.DataSources.toList[0]? = some o ∧ o.ID = "ds-p" ∧ o.Custom = .graphql c
      ∧ (c.Subscription.UseSSE, c.Subscription.SSEMethodPost) = (true, true) := by
  have hok : (scenarioLoader.Load scenarioEnv (some disagreeing_config)
      (some scenarioSettings)).isOk = true := by decide
  cases h : scenarioLoader.Load scenarioEnv (some disagreeing_config) (some scenarioSettings) with
  | ok out =>
    obtain ⟨o, c, h1, h2, h3, h4⟩ :=
      (Load_protocol_enum_wins _ _ _ _ _ out [] [] _ _
        { Enabled := true, Url := none, UseSSE := some false, Protocol := some .SSE_POST }
        .SSE_POST rfl h rfl (by decide) rfl rfl rfl rfl).1
    exact ⟨out, o, c, rfl, h1, h2, h3, h4.2.2 rfl⟩
  | error e => rw [h] at hok; cases hok
  | panic => rw [h] at hok; cases hok

/-- C3: for a claimed remote-GraphQL data source whose subscription protocol enum is absent,
the compiled `SSEMethodPost` is `false` and the compiled `UseSSE` is the legacy boolean when
it is present and `false` when it is absent. -/
theorem Load_protocol_legacy (env : Collaborators) (l : Loader) (rc : nodev1.RouterConfig)
    (settings : Option RouterEngineConfiguration) (ec : nodev1.EngineConfiguration)
    (out : plan.Configuration) (pre post : List (Option nodev1.DataSourceConfiguration))
    (ds : nodev1.DataSourceConfiguration) (g : nodev1.DataSourceCustom_GraphQL)
    (sub : nodev1.GraphQLSubscriptionConfiguration)
    (hec : rc.EngineConfig = some ec) (hload : l.Load env (some rc) settings = .ok out)
    (hsplit : ec.DatasourceConfigurations = pre ++ some ds :: post)
    (hclaim : l.claims (some ds) = true) (hkind : ds.Kind = .GRAPHQL)
    (hg : ds.CustomGraphql = some g) (hsub : g.Subscription = some sub)
    (hp : sub.Protocol = none) :
    ∃ o c, out.DataSources.toList[(pre.filter l.claims).length]? = some o ∧ o.ID = ds.Id
      ∧ o.Custom = .graphql c
      ∧ c.Subscription.SSEMethodPost = false
      ∧ (∀ b, sub.UseSSE = some b → c.Subscription.UseSSE = b)
      ∧ (sub.UseSSE = none → c.Subscription.UseSSE = false) := by
  obtain ⟨o, c, hget, hid, hc, hgraphql⟩ := Load_ok_graphql hec hload hsplit hclaim hkind
  obtain ⟨g', _, sub', hg', _, hsub', _, _, hproto, _⟩ := Load_graphql_ok hgraphql
  rw [hg] at hg'
  cases hg'
  rw [hsub] at hsub'
  cases hsub'
  unfold Load_subscriptionProtocol at hproto
  rw [hp] at hproto
  refine ⟨o, c, hget, hid, hc, ?_, ?_, ?_⟩
  · cases hu : sub.UseSSE <;> rw [hu] at hproto <;> simp at hproto <;> exact hproto.2
  · intro b hb
    rw [hb] at hproto
    simp at hproto
    exact hproto.1
  · intro hn
    rw [hn] at hproto
    simp at hproto
    exact hproto.1

/-- Witness for C3: no protocol enum and the legacy boolean `true` compile to
`(true, false)`. -/
theorem Load_protocol_legacy_witness :
    ∃ out o c, scenarioLoader.Load scenarioEnv (some legacy_config) (some scenarioSettings)
        = .ok out
      ∧ out.DataSources.toList[0]? = some o ∧ o.ID = "ds-l" ∧ o.Custom = .graphql c
      ∧ c.Subscription.UseSSE = true ∧ c.Subscription.SSEMethodPost = false := by
  have hok : (scenarioLoader.Load scenarioEnv (some legacy_config)
      (some scenarioSettings)).isOk = true := by decide
  cases h : scenarioLoader.Load scenarioEnv (some legacy_config) (some scenarioSettings) with
  | ok out =>
    obtain ⟨o, c, h1, h2, h3, h4, h5, _⟩ :=
      Load_protocol_legacy _ _ _ _ _ out [] [] _ _
        { Enabled := true, Url := some (.reference "SUB_URL" "http://svc/sse"),
          UseSSE := some true, Protocol := none }
        rfl h rfl (by decide) rfl rfl rfl rfl
    exact ⟨out, o, c, rfl, h1, h2, h3, h5 true rfl, h4⟩
  | error e => rw [h] at hok; cases hok
  | panic => rw [h] at hok; cases hok

/-- C4: for a claimed remote-GraphQL data source that compiles, the compiled fetch URL is the
resolved fetch URL, whatever string that is; the compiled subscription URL equals the compiled
fetch URL when the subscription URL resolves to the empty string, and is the resolved
subscription URL otherwise. Both URLs are resolved by the string-variable loader, so this
holds for literals and references alike. -/
theorem Load_subscription_url (env : Collaborators) (l : Loader) (rc : nodev1.RouterConfig)
    (settings : Option RouterEngineConfiguration) (ec : nodev1.EngineConfiguration)
    (out : plan.Configuration) (pre post : List (Option nodev1.DataSourceConfiguration))
    (ds : nodev1.DataSourceConfiguration) (g : nodev1.DataSourceCustom_GraphQL)
    (fetch : nodev1.FetchConfiguration) (sub : nodev1.GraphQLSubscriptionConfiguration)
    (hec : rc.EngineConfig = some ec) (hload : l.Load env (some rc) settings = .ok out)
    (hsplit : ec.DatasourceConfigurations = pre ++ some ds :: post)
    (hclaim : l.claims (some ds) = true) (hkind : ds.Kind = .GRAPHQL)
    (hg : ds.CustomGraphql = some g) (hfetch : g.Fetch = some fetch)
    (hsub : g.Subscription = some sub) :
    ∃ o c, out.DataSources.toList[(pre.filter l.claims).length]? = some o ∧ o.ID = ds.Id
      ∧ o.Custom = .graphql c
      ∧ c.Fetch.URL = env.LoadStringVariable fetch.Url
      ∧ (env.LoadStringVariable sub.Url = "" → c.Subscription.URL = c.Fetch.URL)
      ∧ (env.LoadStringVariable sub.Url ≠ "" →
          c.Subscription.URL = env.LoadStringVariable sub.Url) := by
  obtain ⟨o, c, hget, hid, hc, hgraphql⟩ := Load_ok_graphql hec hload hsplit hclaim hkind
  obtain ⟨g', fetch', sub', hg', hfetch', hsub', hurl, hsuburl, _, _⟩ :=
    Load_graphql_ok hgraphql
  rw [hg] at hg'
  cases hg'
  rw [hfetch] at hfetch'
  cases hfetch'
  rw [hsub] at hsub'
  cases hsub'
  refine ⟨o, c, hget, hid, hc, hurl, ?_, ?_⟩
  · intro he
    rw [hsuburl, if_pos he, hurl]
  · intro hne
    rw [hsuburl, if_neg hne]

/-- Witness for C4 (Scenario A): fetch URL `http://svc/graphql`, no subscription URL and
protocol `SSE` compile to the subscription URL `http://svc/graphql` with `UseSSE = true` and
`SSEMethodPost = false`. -/
theorem Load_subscription_url_witness :
    scenarioLoader.Load scenarioEnv (some scenarioA_config) (some scenarioSettings)
        = .ok scenarioA_compiled
      ∧ ∃ o c, scenarioA_compiled.DataSources.toList[0]? = some o ∧ o.Custom = .graphql c
        ∧ c.Fetch.URL = "http://svc/graphql" ∧ c.Subscription.URL = c.Fetch.URL
        ∧ scenarioA_record.Subscription.URL = "http://svc/graphql"
        ∧ scenarioA_record.Subscription.UseSSE = true
        ∧ scenarioA_record.Subscription.SSEMethodPost = false := by
  have h : scenarioLoader.Load scenarioEnv (some scenarioA_config) (some scenarioSettings)
      = .ok scenarioA_compiled := by decide
  obtain ⟨o, c, h1, _, h3, h4, h5, _⟩ :=
    Load_subscription_url _ _ _ _ _ _ [] [] _ _
      { Url := some (.literal "http://svc/graphql"), Method := ⟨1⟩, Header := [] }
      { Enabled := true, Url := none, UseSSE := none, Protocol := some .SSE }
      rfl h rfl (by decide) rfl rfl rfl rfl
  exact ⟨h, o, c, h1, h3, h4, h5 rfl, rfl, rfl, rfl⟩

/-! ## Field configurations -/

/-- C5: `fieldHasAuthorizationRule` is true if and only if the field has an authorization
block and either its requires-authentication flag is true or its list of required OR-scopes is
non-empty; in particular it is false without an authorization block (and for a nil field
configuration). Whenever `Load` succeeds, the compiled fields carry, in input order, exactly
this value as `HasAuthorizationRule`. -/
theorem fieldHasAuthorizationRule_iff (l : Loader) :
    (∀ fc : nodev1.FieldConfiguration,
        l.fieldHasAuthorizationRule (some fc) = true ↔
          ∃ auth, fc.AuthorizationConfiguration = some auth
            ∧ (auth.RequiresAuthentication = true ∨ auth.RequiredOrScopes ≠ []))
    ∧ l.fieldHasAuthorizationRule none = false
    ∧ (∀ (env : Collaborators) (rc : nodev1.RouterConfig)
        (settings : Option RouterEngineConfiguration) (ec : nodev1.EngineConfiguration)
        (out : plan.Configuration),
        rc.EngineConfig = some ec → l.Load env (some rc) settings = .ok out →
        out.Fields.toList.map (fun f => f.HasAuthorizationRule)
          = ec.FieldConfigurations.map l.fieldHasAuthorizationRule) := by
  refine ⟨?_, rfl, ?_⟩
  · intro fc
    cases hauth : fc.AuthorizationConfiguration with
    | none => simp [Loader.fieldHasAuthorizationRule, hauth]
    | some auth =>
      cases hreq : auth.RequiresAuthentication <;>
        cases hscopes : auth.RequiredOrScopes <;>
          simp [Loader.fieldHasAuthorizationRule, hauth, hreq, hscopes]
  · intro env rc settings ec out hec hload
    exact Load_fields_hasAuthorizationRule (Load_ok_parts hec hload).1

/-- Witness for C5 (Scenario B): `Query.me` with `requiresAuthentication = false` and
OR-scopes `["read:profile"]` has an authorization rule, and its compiled field says so. -/
theorem fieldHasAuthorizationRule_iff_witness :
    scenarioLoader.fieldHasAuthorizationRule (some scenarioB_field) = true
      ∧ ∃ out, scenarioLoader.Load scenarioEnv (some scenarioB_config) (some scenarioSettings)
          = .ok out
        ∧ out.Fields.toList.map (fun f => f.HasAuthorizationRule) = [true] := by
  have hthm := fieldHasAuthorizationRule_iff scenarioLoader
  refine ⟨(hthm.1 scenarioB_field).mpr ⟨_, rfl, Or.inr (by decide)⟩, ?_⟩
  have hok : (scenarioLoader.Load scenarioEnv (some scenarioB_config)
      (some scenarioSettings)).isOk = true := by decide
  cases h : scenarioLoader.Load scenarioEnv (some scenarioB_config) (some scenarioSettings) with
  | ok out => exact ⟨out, rfl, hthm.2.2 scenarioEnv scenarioB_config _ _ out rfl h⟩
  | error e => rw [h] at hok; cases hok
  | panic => rw [h] at hok; cases hok

/-! ## The data source loop -/

theorem forRange_filter_unclaimed (env : Collaborators) (l : Loader) (rc : nodev1.RouterConfig)
    (settings : Option RouterEngineConfiguration) (ec : nodev1.EngineConfiguration)
    (dss : List (Option nodev1.DataSourceConfiguration)) :
    ∀ acc : Slice plan.DataSourceConfiguration,
      forRange (dss.filter fun d => !l.passes d) acc (Load_dataSource env l rc settings ec)
        = forRange dss acc (Load_dataSource env l rc settings ec) := by
  induction dss with
  | nil => intro acc; rfl
  | cons d dss ih =>
    intro acc
    cases hp : l.passes d with
    | true =>
      rw [List.filter_cons, forRange_cons,
        Load_dataSource_of_pass acc (passes_iff.mp hp)]
      simp [hp, ih]
    | false =>
      rw [List.filter_cons]
      simp only [hp, Bool.not_false, if_true]
      rw [forRange_cons, forRange_cons]
      congr 1
      funext acc'
      exact ih acc'

/-- C6: a data source for which the resolver chain returns no factory and no error
contributes nothing: for every input, `Load` returns exactly what it returns on the source
configuration with all such data sources removed (the same compiled configuration, the same
error, or the same panic), whatever the removed data sources hold. -/
theorem Load_skips_unclaimed (env : Collaborators) (l : Loader)
    (routerConfig : Option nodev1.RouterConfig)
    (settings : Option RouterEngineConfiguration) :
    l.Load env routerConfig settings
      = l.Load env (routerConfig.map (withoutUnclaimed l)) settings := by
  cases routerConfig with
  | none => rfl
  | some rc =>
    cases hec : rc.EngineConfig with
    | none =>
      simp [Loader.Load, withoutUnclaimed, hec]
    | some ec =>
      have hec' : (withoutUnclaimed l rc).EngineConfig
          = some { ec with
              DatasourceConfigurations :=
                ec.DatasourceConfigurations.filter fun d => !l.passes d } := by
        simp [withoutUnclaimed, hec]
      rw [Option.map_some', Load_eq env l rc settings ec hec, Load_eq env l _ settings _ hec']
      have hloop := forRange_filter_unclaimed env l rc settings ec
        ec.DatasourceConfigurations Slice.nil
      exact congrArg
        (fun loop =>
          Outcome.bind (Load_fields l ec) fun fields =>
          Outcome.bind (Load_types ec) fun types =>
          Outcome.bind loop fun dataSources =>
            Outcome.ok
              ({ DefaultFlushIntervalMillis := ec.DefaultFlushInterval
                 DataSources := dataSources
                 Fields := fields
                 Types := types
                 IncludeInfo := l.includeInfo } : plan.Configuration))
        hloop.symm

/-- Witness for C6: with a resolver that leaves them unclaimed, a nil data source and two data
sources without payload do not make `Load` fail: the result is the one for no data source. -/
theorem Load_skips_unclaimed_witness :
    overrideOnlyLoader.Load scenarioEnv (some malformed_config) none
        = overrideOnlyLoader.Load scenarioEnv
            ((some malformed_config).map (withoutUnclaimed overrideOnlyLoader)) none
      ∧ ((some malformed_config).map (withoutUnclaimed overrideOnlyLoader)
          = some (routerConfigOf [] []))
      ∧ overrideOnlyLoader.Load scenarioEnv (some (routerConfigOf [] [])) none
        = .ok { DefaultFlushIntervalMillis := 500, DataSources := .nil, Fields := .nil,
                Types := .nil, IncludeInfo := true } :=
  ⟨Load_skips_unclaimed scenarioEnv overrideOnlyLoader (some malformed_config) none,
    by decide, by decide⟩

/-- C7: whenever `Load` succeeds, the compiled data sources are, in input order, exactly the
input data sources the resolver chain claims: one entry per claimed data source, carrying its
id and the factory the chain returned for it; so the sequence of compiled ids is the sequence
of ids of the claimed inputs. -/
theorem Load_dataSources_order (env : Collaborators) (l : Loader) (rc : nodev1.RouterConfig)
    (settings : Option RouterEngineConfiguration) (ec : nodev1.EngineConfiguration)
    (out : plan.Configuration)
    (hec : rc.EngineConfig = some ec) (hload : l.Load env (some rc) settings = .ok out) :
    List.Forall₂
        (fun in_ o => ∃ ds, in_ = some ds ∧ o.ID = ds.Id
          ∧ l.resolveFactory in_ = .ok (some o.Factory))
        (ec.DatasourceConfigurations.filter l.claims) out.DataSources.toList
      ∧ out.DataSources.toList.map (fun o => some o.ID)
          = (ec.DatasourceConfigurations.filter l.claims).map
              (fun in_ => in_.map fun ds => ds.Id) := by
  obtain ⟨entries, hout, _, hall⟩ :=
    dataSources_loop_ok ec.DatasourceConfigurations Slice.nil out.DataSources
      (Load_ok_parts hec hload).2.2.1
  rw [hout]
  simp only [Slice.toList_nil, List.nil_append]
  clear hout
  generalize ec.DatasourceConfigurations.filter l.claims = claimed at hall
  induction hall with
  | nil => exact ⟨List.Forall₂.nil, rfl⟩
  | cons hx _ ih =>
    obtain ⟨factory, hres, hentry⟩ := hx
    obtain ⟨ds, hds, hid, hfac, _⟩ := Load_entry_ok hentry
    refine ⟨List.Forall₂.cons ⟨ds, hds, hid, ?_⟩ ih.1, ?_⟩
    · rw [hfac]
      exact hres
    · rw [List.map_cons, List.map_cons, ih.2, hds, hid]
      rfl

/-- Witness for C7: of the data sources `a` (static), `b` (publish-subscribe) and `c`
(static), a resolver chain that claims static data sources only compiles `a` and `c`, in
this order. -/
theorem Load_dataSources_order_witness :
    staticOnlyLoader.Load scenarioEnv (some mixed_config) (some scenarioSettings)
        = .ok { DefaultFlushIntervalMillis := 500
                DataSources := .mk [staticEntry "a" "1", staticEntry "c" "3"]
                Fields := .nil
                Types := .nil
                IncludeInfo := false }
      ∧ [some "a", some "c"]
        = ([some (staticDataSource "a" "1"), some (bareDataSource "b" .PUBSUB),
            some (staticDataSource "c" "3")].filter staticOnlyLoader.claims).map
              (fun in_ => in_.map fun ds => ds.Id) := by
  have h : staticOnlyLoader.Load scenarioEnv (some mixed_config) (some scenarioSettings)
      = .ok { DefaultFlushIntervalMillis := 500
              DataSources := .mk [staticEntry "a" "1", staticEntry "c" "3"]
              Fields := .nil
              Types := .nil
              IncludeInfo := false } := by decide
  exact ⟨h, (Load_dataSources_order _ _ _ _
    (engineConfigOf
      [staticDataSource "a" "1", bareDataSource "b" .PUBSUB, staticDataSource "c" "3"] [])
    _ rfl h).2⟩

/-! ## Failures -/

/-- Once `Load` has reached a data source, an error returned while handling it is the error
`Load` returns. -/
theorem Load_of_reaches_error {env : Collaborators} {l : Loader} {rc : nodev1.RouterConfig}
    {settings : Option RouterEngineConfiguration} {ec : nodev1.EngineConfiguration}
    {pre post : List (Option nodev1.DataSourceConfiguration)}
    {in_ : Option nodev1.DataSourceConfiguration} {acc : Slice plan.DataSourceConfiguration}
    {e : GoError}
    (h : Reaches env l rc settings ec pre in_ post acc)
    (hbody : Load_dataSource env l rc settings ec acc in_ = .error e) :
    l.Load env (some rc) settings = .error e := by
  obtain ⟨fields, types, _, _, hload⟩ := Load_of_reaches h
  rw [hload, hbody]
  rfl

/-- An error of the custom configuration of a claimed data source is the error of the loop
body. -/
theorem Load_dataSource_custom_error {env : Collaborators} {l : Loader}
    {rc : nodev1.RouterConfig} {settings : Option RouterEngineConfiguration}
    {ec : nodev1.EngineConfiguration} {ds : nodev1.DataSourceConfiguration}
    {factory : plan.PlannerFactory} {e : GoError}
    (acc : Slice plan.DataSourceConfiguration)
    (hres : l.resolveFactory (some ds) = .ok (some factory))
    (hcustom : Load_custom env l rc settings ec ds = .error e) :
    Load_dataSource env l rc settings ec acc (some ds) = .error e := by
  rw [Load_dataSource_of_claim acc hres]
  simp [Load_entry, hcustom]

/-- When the resolver chain returns an error for a data source that `Load` reaches (no
earlier data source fails), `Load` fails and returns that very error, as the resolver made it:
lines 166-169 add nothing to it. -/
theorem Load_resolver_error (env : Collaborators) (l : Loader) (rc : nodev1.RouterConfig)
    (settings : Option RouterEngineConfiguration) (ec : nodev1.EngineConfiguration)
    (pre post : List (Option nodev1.DataSourceConfiguration))
    (in_ : Option nodev1.DataSourceConfiguration) (acc : Slice plan.DataSourceConfiguration)
    (e : GoError)
    (h : Reaches env l rc settings ec pre in_ post acc)
    (hres : l.resolveFactory in_ = .error e) :
    l.Load env (some rc) settings = .error e := by
  apply Load_of_reaches_error h
  simp [Load_dataSource, hres]

/-- C8 fails on the code. For the data source `ds-1` of kind 7, which comes after a static
data source that compiles, the default resolver returns the error `invalid datasource kind
"7"`, and `Load` returns that error as it is: what `Load` returns is not a wrapping of the
resolver's error, and the id `ds-1` is not among the arguments of its message, so the id of the
offending data source cannot be read from it. -/
theorem resolver_error_passed_on_unannotated :
    scenarioLoader.resolveFactory (some (bareDataSource "ds-1" (.unrecognized 7)))
        = .error (.errorf "invalid datasource kind %q" ["7"])
      ∧ scenarioLoader.Load scenarioEnv (some unknownKind_config) (some scenarioSettings)
        = .error (.errorf "invalid datasource kind %q" ["7"])
      ∧ (¬ ∃ format args,
          scenarioLoader.Load scenarioEnv (some unknownKind_config) (some scenarioSettings)
            = .error (.wrapf format args (.errorf "invalid datasource kind %q" ["7"])))
      ∧ "ds-1" ∉ (GoError.errorf "invalid datasource kind %q" ["7"]).args := by
  have hload : scenarioLoader.Load scenarioEnv (some unknownKind_config)
      (some scenarioSettings) = .error (.errorf "invalid datasource kind %q" ["7"]) := by
    decide
  refine ⟨by decide, hload, ?_, by decide⟩
  rintro ⟨format, args, h⟩
  rw [hload] at h
  cases h

/-! ## Interned strings -/

theorem LoadInternedString_some (l : Loader) (ec : nodev1.EngineConfiguration)
    (str : Option nodev1.InternedString) :
    l.LoadInternedString (some ec) str
      = match ec.StringStorage.lookup (nodev1.InternedString.GetKey str) with
        | none =>
          .error (.errorf "no string found for key %q" [nodev1.InternedString.GetKey str])
        | some s => .ok s := rfl

/-- A claimed remote-GraphQL data source whose payload is present up to the schema lookup,
whose string variables the loader resolves, and whose upstream-schema key is missing from the
table fails with the annotated lookup error. -/
theorem Load_graphql_missing_schema (env : Collaborators) (l : Loader)
    (rc : nodev1.RouterConfig) (settings : Option RouterEngineConfiguration)
    (ec : nodev1.EngineConfiguration) (ds : nodev1.DataSourceConfiguration)
    (g : nodev1.DataSourceCustom_GraphQL) (fetch : nodev1.FetchConfiguration)
    (sub : nodev1.GraphQLSubscriptionConfiguration)
    (hg : ds.CustomGraphql = some g) (hfetch : g.Fetch = some fetch)
    (hheader : ∀ h ∈ fetch.Header, h.2 ≠ none)
    (hvalues : ∀ entry ∈ fetch.Header, ∀ httpHeader, entry.2 = some httpHeader →
      ∀ value ∈ httpHeader.Values, env.LoadStringVariable_panics value = false)
    (hfetchUrl : env.LoadStringVariable_panics fetch.Url = false)
    (hsub : g.Subscription = some sub)
    (hsubUrl : env.LoadStringVariable_panics sub.Url = false)
    (hscalars : ∀ v ∈ g.CustomScalarTypeFields, v ≠ none)
    (hkey : ec.StringStorage.lookup (nodev1.InternedString.GetKey g.UpstreamSchema) = none) :
    Load_graphql env l rc settings ec ds
      = .error (.wrapf "could not load GraphQL schema for data source %s: %w" [ds.Id]
          (.errorf "no string found for key %q"
            [nodev1.InternedString.GetKey g.UpstreamSchema])) := by
  obtain ⟨header, hh⟩ := Load_header_of_present env fetch hheader hvalues
  obtain ⟨vs, hvs, _⟩ := makeAndFill_of_all
    (fun v : Option nodev1.SingleTypeField => do
      let v ← deref v
      pure ({ TypeName := v.TypeName, FieldName := v.FieldName } :
        graphql_datasource.SingleTypeField))
    g.CustomScalarTypeFields
    (by
      intro v hv
      cases hv' : v with
      | none => exact absurd hv' (hscalars v hv)
      | some w => exact ⟨_, rfl⟩)
  unfold Load_graphql
  simp only [Outcome.bind_eq, Outcome.pure_eq] at hvs ⊢
  simp only [hg, hfetch, hsub, hh, hvs, deref_some, Outcome.bind_ok, LoadInternedString_some,
    hkey, wrapError_error, Outcome.bind_error, callLoadStringVariable_of_returns hfetchUrl,
    callLoadStringVariable_of_returns hsubUrl]

/-- C9: `LoadInternedString` returns the stored string, with no error, exactly when the key is
in the table, and otherwise an error whose message is formatted from the key. For a claimed
remote-GraphQL data source that `Load` reaches the schema lookup of (its payload is present up
to the lookup, and the string-variable loader returns on the header values and the two URLs,
which are resolved before it), a key missing from the table makes `Load` fail with that error
wrapped in an error formatted from the data source id; and when `Load` succeeds, the compiled
`UpstreamSchema` is the table entry of the key. -/
theorem LoadInternedString_lookup (l : Loader) :
    (∀ (ec : nodev1.EngineConfiguration) (str : Option nodev1.InternedString) (s : String),
        l.LoadInternedString (some ec) str = .ok s
          ↔ ec.StringStorage.lookup (nodev1.InternedString.GetKey str) = some s)
    ∧ (∀ (ec : nodev1.EngineConfiguration) (str : Option nodev1.InternedString),
        ec.StringStorage.lookup (nodev1.InternedString.GetKey str) = none →
        l.LoadInternedString (some ec) str
          = .error (.errorf "no string found for key %q" [nodev1.InternedString.GetKey str]))
    ∧ (∀ (env : Collaborators) (rc : nodev1.RouterConfig)
        (settings : Option RouterEngineConfiguration) (ec : nodev1.EngineConfiguration)
        (pre post : List (Option nodev1.DataSourceConfiguration))
        (ds : nodev1.DataSourceConfiguration) (acc : Slice plan.DataSourceConfiguration)
        (g : nodev1.DataSourceCustom_GraphQL) (fetch : nodev1.FetchConfiguration)
        (sub : nodev1.GraphQLSubscriptionConfiguration),
        Reaches env l rc settings ec pre (some ds) post acc →
        l.claims (some ds) = true → ds.Kind = .GRAPHQL →
        ds.CustomGraphql = some g → g.Fetch = some fetch →
        (∀ h ∈ fetch.Header, h.2 ≠ none) →
        (∀ entry ∈ fetch.Header, ∀ httpHeader, entry.2 = some httpHeader →
          ∀ value ∈ httpHeader.Values, env.LoadStringVariable_panics value = false) →
        env.LoadStringVariable_panics fetch.Url = false →
        g.Subscription = some sub →
        env.LoadStringVariable_panics sub.Url = false →
        (∀ v ∈ g.CustomScalarTypeFields, v ≠ none) →
        ec.StringStorage.lookup (nodev1.InternedString.GetKey g.UpstreamSchema) = none →
        l.Load env (some rc) settings
          = .error (.wrapf "could not load GraphQL schema for data source %s: %w" [ds.Id]
              (.errorf "no string found for key %q"
                [nodev1.InternedString.GetKey g.UpstreamSchema])))
    ∧ (∀ (env : Collaborators) (rc : nodev1.RouterConfig)
        (settings : Option RouterEngineConfiguration) (ec : nodev1.EngineConfiguration)
        (out : plan.Configuration) (pre post : List (Option nodev1.DataSourceConfiguration))
        (ds : nodev1.DataSourceConfiguration) (g : nodev1.DataSourceCustom_GraphQL),
        rc.EngineConfig = some ec → l.Load env (some rc) settings = .ok out →
        ec.DatasourceConfigurations = pre ++ some ds :: post →
        l.claims (some ds) = true → ds.Kind = .GRAPHQL → ds.CustomGraphql = some g →
        ∃ o c, out.DataSources.toList[(pre.filter l.claims).length]? = some o
          ∧ o.ID = ds.Id ∧ o.Custom = .graphql c
          ∧ ec.StringStorage.lookup (nodev1.InternedString.GetKey g.UpstreamSchema)
              = some c.UpstreamSchema) := by
  have hiff : ∀ (ec : nodev1.EngineConfiguration) (str : Option nodev1.InternedString)
      (s : String), l.LoadInternedString (some ec) str = .ok s
        ↔ ec.StringStorage.lookup (nodev1.InternedString.GetKey str) = some s := by
    intro ec str s
    rw [LoadInternedString_some]
    cases ec.StringStorage.lookup (nodev1.InternedString.GetKey str) <;> simp
  refine ⟨hiff, ?_, ?_, ?_⟩
  · intro ec str hkey
    rw [LoadInternedString_some, hkey]
  · intro env rc settings ec pre post ds acc g fetch sub hreach hclaim hkind hg hfetch hheader
      hvalues hfetchUrl hsub hsubUrl hscalars hkey
    obtain ⟨factory, hres⟩ := claims_iff.mp hclaim
    apply Load_of_reaches_error hreach
    apply Load_dataSource_custom_error acc hres
    unfold Load_custom
    rw [hkind]
    simp only [Outcome.bind_eq,
      Load_graphql_missing_schema env l rc settings ec ds g fetch sub hg hfetch hheader hvalues
        hfetchUrl hsub hsubUrl hscalars hkey, Outcome.bind_error]
  · intro env rc settings ec out pre post ds g hec hload hsplit hclaim hkind hg
    obtain ⟨o, c, hget, hid, hc, hgraphql⟩ := Load_ok_graphql hec hload hsplit hclaim hkind
    obtain ⟨g', _, _, hg', _, _, _, _, _, hschema⟩ := Load_graphql_ok hgraphql
    rw [hg] at hg'
    cases hg'
    exact ⟨o, c, hget, hid, hc, (hiff ec g.UpstreamSchema c.UpstreamSchema).mp hschema⟩

/-- Witness for C9 (Scenario C): the key `schema-1` is absent from the table, and `Load`
fails with an error formatted from the data source id that wraps an error formatted from
`schema-1`. -/
theorem LoadInternedString_lookup_witness :
    scenarioLoader.Load scenarioEnv (some scenarioC_config) (some scenarioSettings)
        = .error (.wrapf "could not load GraphQL schema for data source %s: %w" ["ds-c"]
            (.errorf "no string found for key %q" ["schema-1"]))
      ∧ "schema-1" ∈ (GoError.wrapf "could not load GraphQL schema for data source %s: %w"
          ["ds-c"] (.errorf "no string found for key %q" ["schema-1"])).args
      ∧ "ds-c" ∈ (GoError.wrapf "could not load GraphQL schema for data source %s: %w"
          ["ds-c"] (.errorf "no string found for key %q" ["schema-1"])).args := by
  refine ⟨?_, by decide, by decide⟩
  exact (LoadInternedString_lookup scenarioLoader).2.2.1 scenarioEnv scenarioC_config
    (some scenarioSettings)
    (engineConfigOf
      [graphqlDataSource "ds-c" (some (.literal "http://svc/graphql"))
        { Enabled := true, Url := none, UseSSE := none, Protocol := some .WS } "schema-1"]
      [("schema-0", "type Query")])
    [] [] _ .nil _
    { Url := some (.literal "http://svc/graphql"), Method := ⟨1⟩, Header := [] }
    { Enabled := true, Url := none, UseSSE := none, Protocol := some .WS }
    { engine := rfl, fields := ⟨.nil, rfl⟩, types := ⟨.nil, rfl⟩, split := rfl, before := rfl }
    (by decide) rfl rfl rfl (by simp) (by simp) rfl rfl rfl (by simp) (by decide)

/-! ## Publish-subscribe data sources -/

theorem Load_event_ok {env : Collaborators} {ds : nodev1.DataSourceConfiguration}
    {ev : Option nodev1.EventConfiguration} {oe : pubsub_datasource.EventConfiguration}
    (h : Load_event env ds ev = .ok oe) : CompiledFrom env ev oe := by
  unfold Load_event at h
  simp only [Outcome.bind_eq, Outcome.pure_eq] at h
  obtain ⟨e, he, h⟩ := Outcome.bind_eq_ok h
  obtain ⟨t, ht, h⟩ := Outcome.bind_eq_ok h
  cases h
  refine ⟨e, deref_eq_ok he, ?_, rfl, rfl, rfl⟩
  have ht' := wrapError_eq_ok ht
  cases hp : env.EventTypeFromString (env.EventType_String e.Type_) with
  | ok t' => rw [hp] at ht'; simp [liftExcept] at ht'; rw [ht']
  | error err => rw [hp] at ht'; simp [liftExcept] at ht'

theorem Load_event_of_accepted {env : Collaborators} (ds : nodev1.DataSourceConfiguration)
    {ev : Option nodev1.EventConfiguration} (h : Accepted env ev) :
    ∃ oe, Load_event env ds ev = .ok oe := by
  obtain ⟨e, t, he, ht⟩ := h
  subst he
  exact ⟨{ Type_ := t, TypeName := e.TypeName, FieldName := e.FieldName, Topic := e.Topic },
    by simp [Load_event, ht, liftExcept]⟩

theorem Load_event_rejected {env : Collaborators} (ds : nodev1.DataSourceConfiguration)
    (ev : nodev1.EventConfiguration) (err : GoError)
    (h : env.EventTypeFromString (env.EventType_String ev.Type_) = .error err) :
    Load_event env ds (some ev)
      = .error (.wrapf "invalid event type %q for data source %q: %w"
          [env.EventType_String ev.Type_, ds.Id] err) := by
  simp [Load_event, h, liftExcept]

/-- C10: for a claimed publish-subscribe data source that `Load` reaches, if the event type
reader rejects the type tag of a declared event (and accepts those of the events before it),
`Load` fails with the error of the reader wrapped in an error formatted from the offending type
string and the data source id. If every tag is accepted, the events compile, and whenever they
compile (in particular whenever `Load` succeeds) the compiled event list matches the declared
list element by element, in order: each compiled event carries the parsed event type and the
declared type name, field name and topic. -/
theorem Load_pubsub_events (env : Collaborators) (l : Loader) :
    (∀ (rc : nodev1.RouterConfig) (settings : Option RouterEngineConfiguration)
        (ec : nodev1.EngineConfiguration)
        (pre post : List (Option nodev1.DataSourceConfiguration))
        (ds : nodev1.DataSourceConfiguration) (acc : Slice plan.DataSourceConfiguration)
        (before after : List (Option nodev1.EventConfiguration))
        (ev : nodev1.EventConfiguration) (err : GoError),
        Reaches env l rc settings ec pre (some ds) post acc →
        l.claims (some ds) = true → ds.Kind = .PUBSUB →
        ds.GetEvents = before ++ some ev :: after →
        (∀ b ∈ before, Accepted env b) →
        env.EventTypeFromString (env.EventType_String ev.Type_) = .error err →
        l.Load env (some rc) settings
          = .error (.wrapf "invalid event type %q for data source %q: %w"
              [env.EventType_String ev.Type_, ds.Id] err))
    ∧ (∀ ds : nodev1.DataSourceConfiguration, (∀ ev ∈ ds.GetEvents, Accepted env ev) →
        ∃ c, Load_pubsub env ds = .ok c)
    ∧ (∀ (ds : nodev1.DataSourceConfiguration) (c : pubsub_datasource.Configuration),
        Load_pubsub env ds = .ok c →
        List.Forall₂ (CompiledFrom env) ds.GetEvents c.Events.toList)
    ∧ (∀ (rc : nodev1.RouterConfig) (settings : Option RouterEngineConfiguration)
        (ec : nodev1.EngineConfiguration) (out : plan.Configuration)
        (pre post : List (Option nodev1.DataSourceConfiguration))
        (ds : nodev1.DataSourceConfiguration),
        rc.EngineConfig = some ec → l.Load env (some rc) settings = .ok out →
        ec.DatasourceConfigurations = pre ++ some ds :: post →
        l.claims (some ds) = true → ds.Kind = .PUBSUB →
        ∃ o c, out.DataSources.toList[(pre.filter l.claims).length]? = some o
          ∧ o.ID = ds.Id ∧ o.Custom = .pubsub c
          ∧ List.Forall₂ (CompiledFrom env) ds.GetEvents c.Events.toList) := by
  have hrel : ∀ (ds : nodev1.DataSourceConfiguration) (c : pubsub_datasource.Configuration),
      Load_pubsub env ds = .ok c →
      List.Forall₂ (CompiledFrom env) ds.GetEvents c.Events.toList := by
    intro ds c h
    unfold Load_pubsub at h
    simp only [Outcome.bind_eq, Outcome.pure_eq] at h
    obtain ⟨events, hev, h⟩ := Outcome.bind_eq_ok h
    cases h
    obtain ⟨vs, hvs, hall⟩ := makeAndFill_ok hev
    subst hvs
    exact hall.imp (fun _ _ h => Load_event_ok h)
  refine ⟨?_, ?_, hrel, ?_⟩
  · intro rc settings ec pre post ds acc before after ev err hreach hclaim hkind hsplit
      hbefore hrej
    obtain ⟨factory, hres⟩ := claims_iff.mp hclaim
    apply Load_of_reaches_error hreach
    apply Load_dataSource_custom_error acc hres
    have hfill := makeAndFill_error (Load_event env ds) before (some ev) after _
      (fun b hb => Load_event_of_accepted ds (hbefore b hb)) (Load_event_rejected ds ev err hrej)
    unfold Load_custom
    rw [hkind]
    simp only [Outcome.bind_eq, Load_pubsub, hsplit, hfill, Outcome.bind_error]
  · intro ds hall
    obtain ⟨vs, hvs, _⟩ := makeAndFill_of_all (Load_event env ds) ds.GetEvents
      (fun ev hev => Load_event_of_accepted ds (hall ev hev))
    exact ⟨{ Events := .mk vs }, by simp [Load_pubsub, hvs]⟩
  · intro rc settings ec out pre post ds hec hload hsplit hclaim hkind
    obtain ⟨factory, hres⟩ := claims_iff.mp hclaim
    obtain ⟨o, ho, hget⟩ := Load_ok_entry hec hload hsplit hres
    obtain ⟨ds', hds', hid, _, hcustom⟩ := Load_entry_ok ho
    cases hds'
    obtain ⟨c, hc, hp⟩ := Load_custom_pubsub_ok hkind hcustom
    exact ⟨o, c, hget, hid, hc, hrel ds c hp⟩

/-- Witness for C10 (Scenario D): after an event of type `PUBLISH`, an event of the
undeclared type number 3, whose type string is `3`, makes `Load` fail with the error of the
reader wrapped in an error formatted from the type string `3` and the data source id
`ds-d`. -/
theorem Load_pubsub_events_witness :
    scenarioEnv.EventType_String ⟨3⟩ = "3"
      ∧ ∃ err, scenarioEnv.EventTypeFromString "3" = .error err
        ∧ scenarioLoader.Load scenarioEnv (some scenarioD_config) (some scenarioSettings)
            = .error (.wrapf "invalid event type %q for data source %q: %w" ["3", "ds-d"] err)
        ∧ "3" ∈ (GoError.wrapf "invalid event type %q for data source %q: %w"
            ["3", "ds-d"] err).args
        ∧ "ds-d" ∈ (GoError.wrapf "invalid event type %q for data source %q: %w"
            ["3", "ds-d"] err).args := by
  refine ⟨by decide, .errorf "invalid event type: %q" ["3"], rfl, ?_, by decide, by decide⟩
  exact (Load_pubsub_events scenarioEnv scenarioLoader).1 scenarioD_config
    (some scenarioSettings) (engineConfigOf [pubsubDataSource "ds-d" [0, 3]] [])
    [] [] (pubsubDataSource "ds-d" [0, 3]) .nil
    [some { Type_ := ⟨0⟩, TypeName := "Subscription", FieldName := "updated",
            Topic := "updates" }]
    []
    { Type_ := ⟨3⟩, TypeName := "Subscription", FieldName := "updated", Topic := "updates" }
    (.errorf "invalid event type: %q" ["3"])
    { engine := rfl, fields := ⟨.nil, rfl⟩, types := ⟨.nil, rfl⟩, split := rfl, before := rfl }
    (by decide) rfl rfl
    (by
      intro b hb
      simp only [List.mem_singleton] at hb
      subst hb
      exact ⟨_, ⟨"publish"⟩, rfl, rfl⟩)
    rfl

/-! ## The default resolver and data source kinds -/

/-- C11: for a data source of kind `GRAPHQL`, `STATIC` or `PUBSUB`,
`DefaultFactoryResolver.Resolve` returns a factory and no error: a factory carrying the HTTP
client, streaming client and logger of the resolver for `GRAPHQL`, the static factory of the
resolver for `STATIC`, its pubsub factory for `PUBSUB`. For every other kind it returns no
factory and the error `invalid datasource kind %q` formatted from the kind value. -/
theorem DefaultFactoryResolver_Resolve_kinds (d : DefaultFactoryResolver)
    (ds : nodev1.DataSourceConfiguration) :
    (ds.Kind = .GRAPHQL →
        d.Resolve (some ds)
          = .ok (some (.graphql
              { HTTPClient := d.graphql.HTTPClient
                StreamingClient := d.graphql.StreamingClient
                Logger := d.graphql.Logger })))
    ∧ (ds.Kind = .STATIC → d.Resolve (some ds) = .ok (some (.static d.static)))
    ∧ (ds.Kind = .PUBSUB → d.Resolve (some ds) = .ok (some (.pubsub d.pubsub)))
    ∧ (ds.Kind ≠ .GRAPHQL → ds.Kind ≠ .STATIC → ds.Kind ≠ .PUBSUB →
        d.Resolve (some ds) = .error (.errorf "invalid datasource kind %q" [ds.Kind.String])
          ∧ ∃ n, ds.Kind = .unrecognized n ∧ ds.Kind.String = toString n) := by
  unfold DefaultFactoryResolver.Resolve
  cases hk : ds.Kind <;> simp [hk, nodev1.DataSourceKind.String]

/-- Witness for C11: the default resolver answers a data source of kind 7 with the error
formatted from `7`, and a remote-GraphQL data source with a factory holding its clients. -/
theorem DefaultFactoryResolver_Resolve_kinds_witness :
    scenarioDefault.Resolve (some (bareDataSource "ds-1" (.unrecognized 7)))
        = .error (.errorf "invalid datasource kind %q" ["7"])
      ∧ scenarioDefault.Resolve (some (bareDataSource "g" .GRAPHQL))
        = .ok (some (.graphql
            { HTTPClient := some ⟨1⟩, StreamingClient := some ⟨2⟩, Logger := none })) :=
  ⟨((DefaultFactoryResolver_Resolve_kinds scenarioDefault
        (bareDataSource "ds-1" (.unrecognized 7))).2.2.2
      (by decide) (by decide) (by decide)).1,
    (DefaultFactoryResolver_Resolve_kinds scenarioDefault (bareDataSource "g" .GRAPHQL)).1 rfl⟩

/-- C12: a data source that some resolver of the chain claims and whose kind is none of
`GRAPHQL`, `STATIC` and `PUBSUB` makes `Load`, once it reaches it, return no configuration
but the error `unknown data source type %q` formatted from the kind value. -/
theorem Load_unknown_kind (env : Collaborators) (l : Loader) (rc : nodev1.RouterConfig)
    (settings : Option RouterEngineConfiguration) (ec : nodev1.EngineConfiguration)
    (pre post : List (Option nodev1.DataSourceConfiguration))
    (ds : nodev1.DataSourceConfiguration) (acc : Slice plan.DataSourceConfiguration)
    (h : Reaches env l rc settings ec pre (some ds) post acc)
    (hclaim : l.claims (some ds) = true)
    (hg : ds.Kind ≠ .GRAPHQL) (hs : ds.Kind ≠ .STATIC) (hp : ds.Kind ≠ .PUBSUB) :
    l.Load env (some rc) settings
      = .error (.errorf "unknown data source type %q" [ds.Kind.String]) := by
  obtain ⟨factory, hres⟩ := claims_iff.mp hclaim
  apply Load_of_reaches_error h
  apply Load_dataSource_custom_error acc hres
  unfold Load_custom
  cases hk : ds.Kind with
  | STATIC => exact absurd hk hs
  | GRAPHQL => exact absurd hk hg
  | PUBSUB => exact absurd hk hp
  | unrecognized n => rfl

/-- Witness for C12: a data source of kind 9, claimed by the override resolver of Scenario E,
makes `Load` fail with the error formatted from `9`. -/
theorem Load_unknown_kind_witness :
    scenarioE_loader.Load scenarioEnv
        (some (routerConfigOf [bareDataSource "x" (.unrecognized 9)] []))
        (some scenarioSettings)
      = .error (.errorf "unknown data source type %q" ["9"]) :=
  Load_unknown_kind scenarioEnv scenarioE_loader _ (some scenarioSettings)
    (engineConfigOf [bareDataSource "x" (.unrecognized 9)] []) [] []
    (bareDataSource "x" (.unrecognized 9)) .nil
    { engine := rfl, fields := ⟨.nil, rfl⟩, types := ⟨.nil, rfl⟩, split := rfl, before := rfl }
    (by decide) (by decide) (by decide) (by decide)

/-! ## Nodes, directives and federation metadata -/

/-- When `Load` succeeds, a claimed data source has its compiled entry at the position given
by the number of claimed data sources before it, and the entry is what `Load_entry` builds
with some factory. -/
theorem Load_ok_claimed {env : Collaborators} {l : Loader} {rc : nodev1.RouterConfig}
    {settings : Option RouterEngineConfiguration} {ec : nodev1.EngineConfiguration}
    {out : plan.Configuration} {pre post : List (Option nodev1.DataSourceConfiguration)}
    {ds : nodev1.DataSourceConfiguration}
    (hec : rc.EngineConfig = some ec) (hload : l.Load env (some rc) settings = .ok out)
    (hsplit : ec.DatasourceConfigurations = pre ++ some ds :: post)
    (hclaim : l.claims (some ds) = true) :
    ∃ o factory, out.DataSources.toList[(pre.filter l.claims).length]? = some o
      ∧ o.ID = ds.Id ∧ Load_entry env l rc settings ec factory (some ds) = .ok o := by
  obtain ⟨factory, hres⟩ := claims_iff.mp hclaim
  obtain ⟨o, ho, hget⟩ := Load_ok_entry hec hload hsplit hres
  obtain ⟨ds', hds', hid, _, _⟩ := Load_entry_ok ho
  cases hds'
  exact ⟨o, factory, hget, hid, ho⟩

/-- C13: whenever `Load` succeeds, the federation metadata of the compiled entry of a
claimed data source is an element by element copy, in order, of the declarations of the
data source: `Keys`, `Provides` and `Requires` copy type name, field name and selection set;
`EntityInterfaces` and `InterfaceObjects` copy interface type name and concrete type names.
Each compiled list has the length of its source list and nothing is dropped, merged or moved
between lists. -/
theorem Load_federation_verbatim (env : Collaborators) (l : Loader) (rc : nodev1.RouterConfig)
    (settings : Option RouterEngineConfiguration) (ec : nodev1.EngineConfiguration)
    (out : plan.Configuration) (pre post : List (Option nodev1.DataSourceConfiguration))
    (ds : nodev1.DataSourceConfiguration)
    (hec : rc.EngineConfig = some ec) (hload : l.Load env (some rc) settings = .ok out)
    (hsplit : ec.DatasourceConfigurations = pre ++ some ds :: post)
    (hclaim : l.claims (some ds) = true) :
    ∃ o, out.DataSources.toList[(pre.filter l.claims).length]? = some o ∧ o.ID = ds.Id
      ∧ List.Forall₂ CopiedField ds.Keys o.FederationMetaData.Keys.toList
      ∧ List.Forall₂ CopiedField ds.Provides o.FederationMetaData.Provides.toList
      ∧ List.Forall₂ CopiedField ds.Requires o.FederationMetaData.Requires.toList
      ∧ List.Forall₂ CopiedInterface ds.EntityInterfaces
          o.FederationMetaData.EntityInterfaces.toList
      ∧ List.Forall₂ CopiedInterface ds.InterfaceObjects
          o.FederationMetaData.InterfaceObjects.toList := by
  obtain ⟨o, factory, hget, hid, ho⟩ := Load_ok_claimed hec hload hsplit hclaim
  obtain ⟨_, _, _, hk, hp, hr, he, hi⟩ := Load_entry_ok_lists ho
  refine ⟨o, hget, hid, ?_, ?_, ?_, ?_, ?_⟩
  · exact (appendEach_ok hk).1.imp fun _ _ ⟨a, ha, hv⟩ => ⟨a, ha, by rw [hv], by rw [hv], by rw [hv]⟩
  · exact (appendEach_ok hp).1.imp fun _ _ ⟨a, ha, hv⟩ => ⟨a, ha, by rw [hv], by rw [hv], by rw [hv]⟩
  · exact (appendEach_ok hr).1.imp fun _ _ ⟨a, ha, hv⟩ => ⟨a, ha, by rw [hv], by rw [hv], by rw [hv]⟩
  · exact (appendEach_ok he).1.imp fun _ _ ⟨a, ha, hv⟩ => ⟨a, ha, by rw [hv], by rw [hv]⟩
  · exact (appendEach_ok hi).1.imp fun _ _ ⟨a, ha, hv⟩ => ⟨a, ha, by rw [hv], by rw [hv]⟩

/-- Witness for C13: a data source with one key, a `@provides` declaration given twice and
an entity interface that names a concrete type twice compiles to metadata with exactly these
entries, duplicates kept. -/
theorem Load_federation_verbatim_witness :
    scenarioLoader.Load scenarioEnv (some federated_config) (some scenarioSettings)
        = .ok federated_compiled
      ∧ ∃ o, federated_compiled.DataSources.toList[0]? = some o ∧ o.ID = "fed"
        ∧ List.Forall₂ CopiedField federated_dataSource.Keys o.FederationMetaData.Keys.toList
        ∧ List.Forall₂ CopiedField federated_dataSource.Provides
            o.FederationMetaData.Provides.toList
        ∧ o.FederationMetaData.Provides.toList.length = 2 := by
  have h : scenarioLoader.Load scenarioEnv (some federated_config) (some scenarioSettings)
      = .ok federated_compiled := by decide
  obtain ⟨o, h1, h2, h3, h4, _⟩ :=
    Load_federation_verbatim scenarioEnv scenarioLoader federated_config
      (some scenarioSettings) (engineConfigOf [federated_dataSource] []) federated_compiled
      [] [] federated_dataSource rfl h rfl (by decide)
  exact ⟨h, o, h1, h2, h3, h4, by rw [← h4.length_eq]; rfl⟩

/-- C16: whenever `Load` succeeds, in the compiled entry of a claimed data source the
directives are, in order, the declared directives by name, each with its own name as
`RenameTo`, whatever rename target the source declares; and the root nodes and child nodes
are copies, in order, of the declared nodes with type name and field names unchanged. -/
theorem Load_directives_and_nodes (env : Collaborators) (l : Loader)
    (rc : nodev1.RouterConfig) (settings : Option RouterEngineConfiguration)
    (ec : nodev1.EngineConfiguration) (out : plan.Configuration)
    (pre post : List (Option nodev1.DataSourceConfiguration))
    (ds : nodev1.DataSourceConfiguration)
    (hec : rc.EngineConfig = some ec) (hload : l.Load env (some rc) settings = .ok out)
    (hsplit : ec.DatasourceConfigurations = pre ++ some ds :: post)
    (hclaim : l.claims (some ds) = true) :
    ∃ o, out.DataSources.toList[(pre.filter l.claims).length]? = some o ∧ o.ID = ds.Id
      ∧ List.Forall₂ CompiledDirective ds.Directives o.Directives.toList
      ∧ (∀ v ∈ o.Directives.toList, v.RenameTo = v.DirectiveName)
      ∧ List.Forall₂ CopiedNode ds.RootNodes o.RootNodes.toList
      ∧ List.Forall₂ CopiedNode ds.ChildNodes o.ChildNodes.toList := by
  obtain ⟨o, factory, hget, hid, ho⟩ := Load_ok_claimed hec hload hsplit hclaim
  obtain ⟨hroot, hchild, hdir, _⟩ := Load_entry_ok_lists ho
  have hd : List.Forall₂ CompiledDirective ds.Directives o.Directives.toList :=
    (appendEach_ok hdir).1.imp fun _ _ ⟨a, ha, hv⟩ => ⟨a, ha, by rw [hv], by rw [hv]⟩
  refine ⟨o, hget, hid, hd, ?_, ?_, ?_⟩
  · intro v hv
    generalize ds.Directives = xs at hd
    generalize o.Directives.toList = vs at hd hv
    induction hd with
    | nil => cases hv
    | cons hx _ ih =>
      rcases List.mem_cons.mp hv with h | h
      · obtain ⟨a, _, h1, h2⟩ := hx
        rw [h, h1, h2]
      · exact ih h
  · exact (appendEach_ok hroot).1.imp fun _ _ ⟨a, ha, hv⟩ => ⟨a, ha, by rw [hv], by rw [hv]⟩
  · exact (appendEach_ok hchild).1.imp fun _ _ ⟨a, ha, hv⟩ => ⟨a, ha, by rw [hv], by rw [hv]⟩

/-- Witness for C16: the directives `key` and `tag`, declared with the rename targets
`federation__key` and `label`, compile to directives renamed to `key` and `tag`. -/
theorem Load_directives_and_nodes_witness :
    scenarioLoader.Load scenarioEnv (some federated_config) (some scenarioSettings)
        = .ok federated_compiled
      ∧ federated_entry.Directives.toList.map (fun v => (v.DirectiveName, v.RenameTo))
        = [("key", "key"), ("tag", "tag")]
      ∧ ∃ o, federated_compiled.DataSources.toList[0]? = some o
        ∧ List.Forall₂ CompiledDirective federated_dataSource.Directives o.Directives.toList
        ∧ List.Forall₂ CopiedNode federated_dataSource.RootNodes o.RootNodes.toList := by
  have h : scenarioLoader.Load scenarioEnv (some federated_config) (some scenarioSettings)
      = .ok federated_compiled := by decide
  obtain ⟨o, h1, _, h3, _, h5, _⟩ :=
    Load_directives_and_nodes scenarioEnv scenarioLoader federated_config
      (some scenarioSettings) (engineConfigOf [federated_dataSource] []) federated_compiled
      [] [] federated_dataSource rfl h rfl (by decide)
  exact ⟨h, by decide, o, h1, h3, h5⟩

/-- C19, as amended: whenever `Load` succeeds, each of the five federation metadata lists of
the compiled entry of a claimed data source is decided by its own source list alone: a source
list without entries compiles to the `nil` slice (which has no elements), and a source list
with entries compiles to an allocated slice. -/
theorem Load_federation_nil (env : Collaborators) (l : Loader) (rc : nodev1.RouterConfig)
    (settings : Option RouterEngineConfiguration) (ec : nodev1.EngineConfiguration)
    (out : plan.Configuration) (pre post : List (Option nodev1.DataSourceConfiguration))
    (ds : nodev1.DataSourceConfiguration)
    (hec : rc.EngineConfig = some ec) (hload : l.Load env (some rc) settings = .ok out)
    (hsplit : ec.DatasourceConfigurations = pre ++ some ds :: post)
    (hclaim : l.claims (some ds) = true) :
    ∃ o, out.DataSources.toList[(pre.filter l.claims).length]? = some o ∧ o.ID = ds.Id
      ∧ ((ds.Keys = [] → o.FederationMetaData.Keys = Slice.nil)
        ∧ (ds.Keys ≠ [] →
            o.FederationMetaData.Keys = Slice.mk o.FederationMetaData.Keys.toList))
      ∧ ((ds.Provides = [] → o.FederationMetaData.Provides = Slice.nil)
        ∧ (ds.Provides ≠ [] →
            o.FederationMetaData.Provides = Slice.mk o.FederationMetaData.Provides.toList))
      ∧ ((ds.Requires = [] → o.FederationMetaData.Requires = Slice.nil)
        ∧ (ds.Requires ≠ [] →
            o.FederationMetaData.Requires = Slice.mk o.FederationMetaData.Requires.toList))
      ∧ ((ds.EntityInterfaces = [] → o.FederationMetaData.EntityInterfaces = Slice.nil)
        ∧ (ds.EntityInterfaces ≠ [] →
            o.FederationMetaData.EntityInterfaces
              = Slice.mk o.FederationMetaData.EntityInterfaces.toList))
      ∧ ((ds.InterfaceObjects = [] → o.FederationMetaData.InterfaceObjects = Slice.nil)
        ∧ (ds.InterfaceObjects ≠ [] →
            o.FederationMetaData.InterfaceObjects
              = Slice.mk o.FederationMetaData.InterfaceObjects.toList)) := by
  obtain ⟨o, factory, hget, hid, ho⟩ := Load_ok_claimed hec hload hsplit hclaim
  obtain ⟨_, _, _, hk, hp, hr, he, hi⟩ := Load_entry_ok_lists ho
  exact ⟨o, hget, hid, (appendEach_ok hk).2, (appendEach_ok hp).2, (appendEach_ok hr).2,
    (appendEach_ok he).2, (appendEach_ok hi).2⟩

/-- Witness for C19 as amended: a data source with keys, `@provides` fields and an entity
interface but no `@requires` field and no interface object compiles to allocated `Keys` and
`nil` `Requires` and `InterfaceObjects`. -/
theorem Load_federation_nil_witness :
    scenarioLoader.Load scenarioEnv (some federated_config) (some scenarioSettings)
        = .ok federated_compiled
      ∧ ∃ o, federated_compiled.DataSources.toList[0]? = some o
        ∧ o.FederationMetaData.Requires = Slice.nil
        ∧ o.FederationMetaData.InterfaceObjects = Slice.nil
        ∧ o.FederationMetaData.Keys = Slice.mk o.FederationMetaData.Keys.toList := by
  have h : scenarioLoader.Load scenarioEnv (some federated_config) (some scenarioSettings)
      = .ok federated_compiled := by decide
  obtain ⟨o, h1, _, hk, _, hr, _, hi⟩ :=
    Load_federation_nil scenarioEnv scenarioLoader federated_config
      (some scenarioSettings) (engineConfigOf [federated_dataSource] []) federated_compiled
      [] [] federated_dataSource rfl h rfl (by decide)
  exact ⟨h, o, h1, hr.1 rfl, hi.1 rfl, hk.2 (by decide)⟩

/-- Counterexample to C19 as stated: a data source that declares no `@requires` field and no
interface object compiles to `Requires` and `InterfaceObjects` that are `nil`, not empty
allocated slices. -/
theorem federation_absent_list_is_nil :
    scenarioLoader.Load scenarioEnv (some federated_config) (some scenarioSettings)
        = .ok federated_compiled
      ∧ federated_compiled.DataSources = Slice.mk [federated_entry]
      ∧ federated_dataSource.Requires = []
      ∧ federated_entry.FederationMetaData.Requires = Slice.nil
      ∧ federated_entry.FederationMetaData.Requires ≠ Slice.mk []
      ∧ federated_dataSource.InterfaceObjects = []
      ∧ federated_entry.FederationMetaData.InterfaceObjects ≠ Slice.mk [] := by
  decide

/-! ## Authorization of fields, again -/

/-- C17, as amended: for a field configuration whose authorization block does not require
authentication, `fieldHasAuthorizationRule` is true exactly when the block names at least one
OR-scope set, whether or not that set holds a scope; a block that names no OR-scope set yields
false. -/
theorem fieldHasAuthorizationRule_scopes (l : Loader) (fc : nodev1.FieldConfiguration)
    (auth : nodev1.AuthorizationConfiguration)
    (hauth : fc.AuthorizationConfiguration = some auth)
    (hreq : auth.RequiresAuthentication = false) :
    (l.fieldHasAuthorizationRule (some fc) = true ↔ auth.RequiredOrScopes ≠ [])
      ∧ (auth.RequiredOrScopes = [] → l.fieldHasAuthorizationRule (some fc) = false) := by
  cases hscopes : auth.RequiredOrScopes <;>
    simp [Loader.fieldHasAuthorizationRule, hauth, hreq, hscopes]

/-- Witness for C17 as amended: a block that names no OR-scope set yields false, and a block
that names one OR-scope set yields true. -/
theorem fieldHasAuthorizationRule_scopes_witness :
    scenarioLoader.fieldHasAuthorizationRule (some noScopes_field) = false
      ∧ scenarioLoader.fieldHasAuthorizationRule (some scenarioB_field) = true :=
  ⟨(fieldHasAuthorizationRule_scopes scenarioLoader noScopes_field _ rfl rfl).2 rfl,
    (fieldHasAuthorizationRule_scopes scenarioLoader scenarioB_field _ rfl rfl).1.mpr
      (by decide)⟩

/-- Counterexample to C17 as stated: the authorization block of `emptyScopes_field` does not
require authentication and its only OR-scope set is empty, yet `fieldHasAuthorizationRule` is
true, and so is the compiled `HasAuthorizationRule`. -/
theorem empty_scope_set_has_authorization_rule :
    emptyScopes_field.AuthorizationConfiguration
        = some { RequiresAuthentication := false
                 RequiredOrScopes := [some { RequiredAndScopes := [] }] }
      ∧ scenarioLoader.fieldHasAuthorizationRule (some emptyScopes_field) = true
      ∧ scenarioLoader.Load scenarioEnv
          (some { EngineConfig := some
                    { DefaultFlushInterval := 0
                      DatasourceConfigurations := []
                      FieldConfigurations := [some emptyScopes_field]
                      TypeConfigurations := []
                      StringStorage := [] }
                  Subgraphs := [] })
          (some scenarioSettings)
        = .ok { DefaultFlushIntervalMillis := 0
                DataSources := .nil
                Fields := .mk [{ TypeName := "Query", FieldName := "me", Arguments := .nil
                                 HasAuthorizationRule := true }]
                Types := .nil
                IncludeInfo := false } := by
  decide

/-! ## The compiled field list -/

/-- The argument loop is an appending loop with the translation of one argument. -/
theorem Load_arguments_eq (c : nodev1.FieldConfiguration) :
    Load_arguments c
      = appendEach c.ArgumentsConfiguration Slice.nil fun a =>
          (match a.SourceType with
           | .FIELD_ARGUMENT => { Name := a.Name, SourceType := .FieldArgumentSource }
           | .OBJECT_FIELD => { Name := a.Name, SourceType := .ObjectFieldSource }
           | .unrecognized _ => { Name := a.Name, SourceType := .zero } :
            plan.ArgumentConfiguration) := rfl

theorem Load_arguments_ok {c : nodev1.FieldConfiguration}
    {args : Slice plan.ArgumentConfiguration} (h : Load_arguments c = .ok args) :
    List.Forall₂ CompiledArgument c.ArgumentsConfiguration args.toList := by
  rw [Load_arguments_eq] at h
  refine (appendEach_ok h).1.imp ?_
  rintro x v ⟨a, ha, hv⟩
  refine ⟨a, ha, ?_, ?_, ?_⟩
  · rw [hv]; cases a.SourceType <;> rfl
  · intro hs; rw [hv, hs]
  · intro hs; rw [hv, hs]

/-- The field loop, when it completes, has compiled the field configurations one by one, in
order. -/
theorem Load_fields_ok {l : Loader} {ec : nodev1.EngineConfiguration}
    {fields : Slice plan.FieldConfiguration} (h : Load_fields l ec = .ok fields) :
    List.Forall₂ CompiledField ec.FieldConfigurations fields.toList := by
  rw [Load_fields_eq] at h
  obtain ⟨vs, hout, hall⟩ := forRange_append_ok _ _ _ _ h
  rw [hout]
  simp only [Slice.toList_nil, List.nil_append]
  refine hall.imp ?_
  intro x v hx
  obtain ⟨c, hc, hx⟩ := Outcome.bind_eq_ok hx
  obtain ⟨args, hargs, hx⟩ := Outcome.bind_eq_ok hx
  cases hx
  exact ⟨c, deref_eq_ok hc, rfl, rfl, Load_arguments_ok hargs⟩

/-- C15: whenever `Load` succeeds, the compiled fields are the field configurations compiled
one by one, in order: the same number of fields, each with the type name and field name of
its source and with its arguments in order, names unchanged and source kinds translated
(`FIELD_ARGUMENT` to `FieldArgumentSource`, `OBJECT_FIELD` to `ObjectFieldSource`). The field
loop reads nothing but the field configurations, and without data sources `Load` succeeds as
soon as the field loop and the type loop complete, with a `nil` list of data sources. -/
theorem Load_fields_elementwise (env : Collaborators) (l : Loader) (rc : nodev1.RouterConfig)
    (settings : Option RouterEngineConfiguration) (ec : nodev1.EngineConfiguration) :
    (∀ out : plan.Configuration, rc.EngineConfig = some ec →
        l.Load env (some rc) settings = .ok out →
        List.Forall₂ CompiledField ec.FieldConfigurations out.Fields.toList)
    ∧ (∀ ec' : nodev1.EngineConfiguration,
        ec'.FieldConfigurations = ec.FieldConfigurations → Load_fields l ec' = Load_fields l ec)
    ∧ (∀ (fields : Slice plan.FieldConfiguration) (types : Slice plan.TypeConfiguration),
        rc.EngineConfig = some ec → ec.DatasourceConfigurations = [] →
        Load_fields l ec = .ok fields → Load_types ec = .ok types →
        l.Load env (some rc) settings
          = .ok { DefaultFlushIntervalMillis := ec.DefaultFlushInterval
                  DataSources := Slice.nil
                  Fields := fields
                  Types := types
                  IncludeInfo := l.includeInfo }) := by
  refine ⟨?_, ?_, ?_⟩
  · intro out hec hload
    exact Load_fields_ok (Load_ok_parts hec hload).1
  · intro ec' h
    unfold Load_fields
    rw [h]
  · intro fields types hec hnil hf ht
    rw [Load_eq env l rc settings ec hec, hf, ht, hnil]
    rfl

/-- Witness for C15: a source configuration without data sources and with two fields, the
first with a field argument and an object field argument, compiles to these two fields and no
data source. -/
theorem Load_fields_elementwise_witness :
    scenarioLoader.Load scenarioEnv (some fieldsOnly_config) none = .ok fieldsOnly_compiled
      ∧ List.Forall₂ CompiledField
          [some { TypeName := "Query", FieldName := "user"
                  ArgumentsConfiguration :=
                    [some { Name := "id", SourceType := .FIELD_ARGUMENT },
                     some { Name := "parent", SourceType := .OBJECT_FIELD }]
                  AuthorizationConfiguration := none },
           some scenarioB_field]
          fieldsOnly_compiled.Fields.toList := by
  have h : scenarioLoader.Load scenarioEnv (some fieldsOnly_config) none
      = .ok fieldsOnly_compiled := by decide
  exact ⟨h, (Load_fields_elementwise scenarioEnv scenarioLoader fieldsOnly_config none
    { DefaultFlushInterval := 500
      DatasourceConfigurations := []
      FieldConfigurations :=
        [some { TypeName := "Query", FieldName := "user"
                ArgumentsConfiguration :=
                  [some { Name := "id", SourceType := .FIELD_ARGUMENT },
                   some { Name := "parent", SourceType := .OBJECT_FIELD }]
                AuthorizationConfiguration := none },
         some scenarioB_field]
      TypeConfigurations := [some { TypeName := "Person", RenameTo := "User" }]
      StringStorage := [] }).1 fieldsOnly_compiled rfl h⟩

/-! ## Chains that end in the default resolver -/

/-- The default resolver never returns `(nil, nil)`. -/
theorem DefaultFactoryResolver_Resolve_ne_pass (d : DefaultFactoryResolver)
    (ds : Option nodev1.DataSourceConfiguration) : d.Resolve ds ≠ .ok none := by
  cases ds with
  | none => simp [DefaultFactoryResolver.Resolve]
  | some ds =>
    unfold DefaultFactoryResolver.Resolve
    cases hk : ds.Kind <;> simp [hk]

/-- The chain returns `(nil, nil)` or the result of one of its resolvers. -/
theorem resolveLoop_result (rs : List FactoryResolver)
    (ds : Option nodev1.DataSourceConfiguration) :
    resolveLoop rs ds = .ok none ∨ ∃ r ∈ rs, resolveLoop rs ds = r.Resolve ds := by
  induction rs with
  | nil => exact Or.inl rfl
  | cons r rs ih =>
    by_cases hr : r.Resolve ds = .ok none
    · have h := (resolveLoop_append_of_pass [r] rs ds (by simpa using hr)).1
      rw [List.singleton_append] at h
      rw [h]
      rcases ih with h' | ⟨r', hr', h'⟩
      · exact Or.inl h'
      · exact Or.inr ⟨r', List.mem_cons_of_mem _ hr', h'⟩
    · exact Or.inr ⟨r, List.mem_cons_self _ _, (resolveLoop_cons_of_decide r rs ds hr).1⟩

/-- When the data source loop completes, the chain has returned without error for every data
source. -/
theorem dataSources_loop_resolved {env : Collaborators} {l : Loader} {rc : nodev1.RouterConfig}
    {settings : Option RouterEngineConfiguration} {ec : nodev1.EngineConfiguration}
    (dss : List (Option nodev1.DataSourceConfiguration)) :
    ∀ (acc out : Slice plan.DataSourceConfiguration),
      forRange dss acc (Load_dataSource env l rc settings ec) = .ok out →
      ∀ in_ ∈ dss, ∃ fo, l.resolveFactory in_ = .ok fo := by
  induction dss with
  | nil => intro _ _ _ in_ hin; cases hin
  | cons d dss ih =>
    intro acc out h in_ hin
    rw [forRange_cons] at h
    obtain ⟨acc', hbody, hrest⟩ := Outcome.bind_eq_ok h
    rcases List.mem_cons.mp hin with hd | hd
    · subst hd
      cases hres : l.resolveFactory in_ with
      | ok fo => exact ⟨fo, rfl⟩
      | error e => simp [Load_dataSource, hres] at hbody
      | panic => simp [Load_dataSource, hres] at hbody
    · exact ih acc' out hrest in_ hd

/-- C20: when the resolver list of the loader contains a default resolver, `resolveFactory`
never returns `(nil, nil)`; for a data source on which no resolver panics it returns a factory
or an error. With user resolvers that pass on a data source whose kind is none of `GRAPHQL`,
`STATIC` and `PUBSUB`, followed by the default resolver, `resolveFactory` returns the error of
the default resolver, and `Load`, once it reaches that data source, fails with it instead of
omitting the data source. Whenever `Load` succeeds, there are as many compiled data sources
as data sources in the input. -/
theorem resolveFactory_with_default (d : DefaultFactoryResolver) (l : Loader)
    (hd : d.toResolver ∈ l.resolvers) :
    (∀ ds : Option nodev1.DataSourceConfiguration, l.resolveFactory ds ≠ .ok none)
    ∧ (∀ ds : Option nodev1.DataSourceConfiguration,
        (∀ r ∈ l.resolvers, r.Resolve ds ≠ .panic) →
        (∃ factory, l.resolveFactory ds = .ok (some factory))
          ∨ ∃ e, l.resolveFactory ds = .error e)
    ∧ (∀ (users rest : List FactoryResolver) (ds : nodev1.DataSourceConfiguration),
        l.resolvers = users ++ d.toResolver :: rest →
        (∀ r ∈ users, r.Resolve (some ds) = .ok none) →
        ds.Kind ≠ .GRAPHQL → ds.Kind ≠ .STATIC → ds.Kind ≠ .PUBSUB →
        l.resolveFactory (some ds)
            = .error (.errorf "invalid datasource kind %q" [ds.Kind.String])
          ∧ ∀ (env : Collaborators) (rc : nodev1.RouterConfig)
              (settings : Option RouterEngineConfiguration) (ec : nodev1.EngineConfiguration)
              (pre post : List (Option nodev1.DataSourceConfiguration))
              (acc : Slice plan.DataSourceConfiguration),
              Reaches env l rc settings ec pre (some ds) post acc →
              l.Load env (some rc) settings
                = .error (.errorf "invalid datasource kind %q" [ds.Kind.String]))
    ∧ (∀ (env : Collaborators) (rc : nodev1.RouterConfig)
        (settings : Option RouterEngineConfiguration) (ec : nodev1.EngineConfiguration)
        (out : plan.Configuration),
        rc.EngineConfig = some ec → l.Load env (some rc) settings = .ok out →
        out.DataSources.toList.length = ec.DatasourceConfigurations.length) := by
  have hne : ∀ ds : Option nodev1.DataSourceConfiguration, l.resolveFactory ds ≠ .ok none := by
    intro ds h
    exact DefaultFactoryResolver_Resolve_ne_pass d ds
      ((resolveLoop_eq_ok_none l.resolvers ds).mp h d.toResolver hd)
  refine ⟨hne, ?_, ?_, ?_⟩
  · intro ds hpanic
    rcases resolveLoop_result l.resolvers ds with h | ⟨r, hr, h⟩
    · exact absurd h (hne ds)
    · unfold Loader.resolveFactory
      rw [h]
      cases hres : r.Resolve ds with
      | panic => exact absurd hres (hpanic r hr)
      | error e => exact Or.inr ⟨e, rfl⟩
      | ok fo =>
        cases fo with
        | none =>
          rw [hres] at h
          exact absurd h (hne ds)
        | some factory => exact Or.inl ⟨factory, rfl⟩
  · intro users rest ds hsplit husers hg hs hp
    have hdefault : d.toResolver.Resolve (some ds)
        = .error (.errorf "invalid datasource kind %q" [ds.Kind.String]) := by
      show d.Resolve (some ds) = _
      unfold DefaultFactoryResolver.Resolve
      cases hk : ds.Kind with
      | STATIC => exact absurd hk hs
      | GRAPHQL => exact absurd hk hg
      | PUBSUB => exact absurd hk hp
      | unrecognized n => simp [hk]
    have hres : l.resolveFactory (some ds)
        = .error (.errorf "invalid datasource kind %q" [ds.Kind.String]) := by
      unfold Loader.resolveFactory
      rw [hsplit, (resolveLoop_append_of_pass users _ (some ds) husers).1,
        (resolveLoop_cons_of_decide d.toResolver rest (some ds) (by rw [hdefault]; simp)).1,
        hdefault]
    refine ⟨hres, ?_⟩
    intro env rc settings ec pre post acc hreach
    apply Load_of_reaches_error hreach
    simp [Load_dataSource, hres]
  · intro env rc settings ec out hec hload
    have hloop := (Load_ok_parts hec hload).2.2.1
    obtain ⟨entries, hout, _, hall⟩ :=
      dataSources_loop_ok ec.DatasourceConfigurations Slice.nil out.DataSources hloop
    have hclaims : ec.DatasourceConfigurations.filter l.claims
        = ec.DatasourceConfigurations := by
      rw [List.filter_eq_self]
      intro in_ hin
      obtain ⟨fo, hfo⟩ := dataSources_loop_resolved ec.DatasourceConfigurations _ _ hloop in_ hin
      cases fo with
      | none => exact absurd hfo (hne in_)
      | some factory => exact claims_iff.mpr ⟨factory, hfo⟩
    have hlen := hall.length_eq
    rw [hclaims] at hlen
    rw [hout, hlen]
    simp

/-- Witness for C20: with a user resolver followed by the default resolver, a data source of
kind 7 that the user resolver passes on makes `Load` fail with the error of the default
resolver. -/
theorem resolveFactory_with_default_witness :
    typicalLoader.resolveFactory (some (bareDataSource "ds-1" (.unrecognized 7)))
        = .error (.errorf "invalid datasource kind %q" ["7"])
      ∧ typicalLoader.Load scenarioEnv (some unknownKind_config) (some scenarioSettings)
        = .error (.errorf "invalid datasource kind %q" ["7"]) := by
  have h := (resolveFactory_with_default scenarioDefault typicalLoader
    (by simp [typicalLoader, NewLoader])).2.2.1 [userResolver] []
    (bareDataSource "ds-1" (.unrecognized 7)) rfl
    (by
      intro r hr
      simp only [List.mem_singleton] at hr
      subst hr
      rfl)
    (by decide) (by decide) (by decide)
  refine ⟨h.1, h.2 scenarioEnv unknownKind_config (some scenarioSettings)
    (engineConfigOf [staticDataSource "s" "1", bareDataSource "ds-1" (.unrecognized 7)] [])
    [some (staticDataSource "s" "1")] []
    (.mk [{ staticEntry "s" "1" with Factory := .custom "user" }]) ?_⟩
  exact
    { engine := rfl
      fields := ⟨.nil, rfl⟩
      types := ⟨.nil, rfl⟩
      split := rfl
      before := by decide }

/-! ## All or nothing -/

/-- A loop that completes has completed the body for every element. -/
theorem forRange_ok_body {α σ : Type} (body : σ → α → Outcome σ) (xs : List α) :
    ∀ s out : σ, forRange xs s body = .ok out → ∀ x ∈ xs, ∃ a a', body a x = .ok a' := by
  induction xs with
  | nil => intro _ _ _ x hx; cases hx
  | cons y ys ih =>
    intro s out h x hx
    rw [forRange_cons] at h
    obtain ⟨s', hbody, hrest⟩ := Outcome.bind_eq_ok h
    rcases List.mem_cons.mp hx with hxy | hxy
    · subst hxy
      exact ⟨s, s', hbody⟩
    · exact ih s' out hrest x hxy

/-- A loop whose body never panics and fails on some element returns an error. -/
theorem forRange_error_of_mem {α σ : Type} (body : σ → α → Outcome σ) (xs : List α)
    (hpanic : ∀ x ∈ xs, ∀ s, body s x ≠ .panic) (x₀ : α) (hx₀ : x₀ ∈ xs)
    (hfail : ∀ s, ∃ e, body s x₀ = .error e) :
    ∀ s, ∃ e, forRange xs s body = .error e := by
  induction xs with
  | nil => cases hx₀
  | cons y ys ih =>
    intro s
    rw [forRange_cons]
    cases hy : body s y with
    | panic => exact absurd hy (hpanic y (List.mem_cons_self _ _) s)
    | error e => exact ⟨e, rfl⟩
    | ok s' =>
      rcases List.mem_cons.mp hx₀ with h | h
      · subst h
        obtain ⟨e, he⟩ := hfail s
        rw [he] at hy
        cases hy
      · exact ih (fun x hx => hpanic x (List.mem_cons_of_mem _ hx)) h s'

/-- Whether the body of the data source loop fails on a data source, and with which error,
does not depend on the entries compiled so far. -/
theorem Load_dataSource_error_acc {env : Collaborators} {l : Loader} {rc : nodev1.RouterConfig}
    {settings : Option RouterEngineConfiguration} {ec : nodev1.EngineConfiguration}
    {in_ : Option nodev1.DataSourceConfiguration} {e : GoError}
    (acc acc' : Slice plan.DataSourceConfiguration)
    (h : Load_dataSource env l rc settings ec acc in_ = .error e) :
    Load_dataSource env l rc settings ec acc' in_ = .error e := by
  unfold Load_dataSource at h ⊢
  cases hres : l.resolveFactory in_ with
  | error e' => rw [hres] at h; exact h
  | panic => rw [hres] at h; cases h
  | ok fo =>
    cases fo with
    | none => rw [hres] at h; cases h
    | some factory =>
      rw [hres] at h
      simp only [Outcome.bind_eq, Outcome.pure_eq] at h ⊢
      cases hentry : Load_entry env l rc settings ec factory in_ with
      | ok o => rw [hentry] at h; cases h
      | error e' => rw [hentry] at h; exact h
      | panic => rw [hentry] at h; cases h

/-- C14: `Load` is all or nothing. Its outcome is a configuration or an error, never both
(every `return` of the source is `nil, err` or `&outConfig, nil`). When it returns a
configuration, the body of the data source loop has completed for every data source, and no
list is partial: there is one compiled field per field configuration, one compiled type per
type configuration and one compiled data source per claimed data source. When the body fails
on any one data source, wherever it stands in the input and whatever the other data sources
are, `Load` returns no configuration; and it returns an error as long as the field loop and
the type loop complete and no data source makes the body panic. -/
theorem Load_all_or_nothing (env : Collaborators) (l : Loader) (rc : nodev1.RouterConfig)
    (settings : Option RouterEngineConfiguration) (ec : nodev1.EngineConfiguration)
    (hec : rc.EngineConfig = some ec) :
    (∀ out : plan.Configuration, l.Load env (some rc) settings = .ok out →
        (∀ in_ ∈ ec.DatasourceConfigurations,
          ∃ acc acc', Load_dataSource env l rc settings ec acc in_ = .ok acc')
        ∧ out.Fields.toList.length = ec.FieldConfigurations.length
        ∧ out.Types.toList.length = ec.TypeConfigurations.length
        ∧ out.DataSources.toList.length = (ec.DatasourceConfigurations.filter l.claims).length)
    ∧ (∀ in_ ∈ ec.DatasourceConfigurations, ∀ e : GoError,
        Load_dataSource env l rc settings ec Slice.nil in_ = .error e →
        ∀ out : plan.Configuration, l.Load env (some rc) settings ≠ .ok out)
    ∧ (∀ in_ ∈ ec.DatasourceConfigurations, ∀ e : GoError,
        Load_dataSource env l rc settings ec Slice.nil in_ = .error e →
        (∃ fields, Load_fields l ec = .ok fields) → (∃ types, Load_types ec = .ok types) →
        (∀ d ∈ ec.DatasourceConfigurations, ∀ acc,
          Load_dataSource env l rc settings ec acc d ≠ .panic) →
        ∃ e', l.Load env (some rc) settings = .error e') := by
  have hbody : ∀ out : plan.Configuration, l.Load env (some rc) settings = .ok out →
      ∀ in_ ∈ ec.DatasourceConfigurations,
        ∃ acc acc', Load_dataSource env l rc settings ec acc in_ = .ok acc' := by
    intro out hload
    exact forRange_ok_body _ _ _ _ (Load_ok_parts hec hload).2.2.1
  refine ⟨?_, ?_, ?_⟩
  · intro out hload
    obtain ⟨hf, ht, hd, _, _⟩ := Load_ok_parts hec hload
    refine ⟨hbody out hload, ?_, ?_, ?_⟩
    · exact (Load_fields_ok hf).length_eq.symm
    · exact (appendEach_ok ht).1.length_eq.symm
    · obtain ⟨entries, hout, _, hall⟩ :=
        dataSources_loop_ok ec.DatasourceConfigurations Slice.nil out.DataSources hd
      rw [hout, hall.length_eq]
      simp
  · intro in_ hin e hfail out hload
    obtain ⟨acc, acc', hok⟩ := hbody out hload in_ hin
    rw [Load_dataSource_error_acc Slice.nil acc hfail] at hok
    cases hok
  · intro in_ hin e hfail hfields htypes hpanic
    obtain ⟨fields, hf⟩ := hfields
    obtain ⟨types, ht⟩ := htypes
    obtain ⟨e', he'⟩ := forRange_error_of_mem (Load_dataSource env l rc settings ec)
      ec.DatasourceConfigurations hpanic in_ hin
      (fun s => ⟨e, Load_dataSource_error_acc Slice.nil s hfail⟩) Slice.nil
    exact ⟨e', by rw [Load_eq env l rc settings ec hec, hf, ht, he']; rfl⟩

/-- Witness for C14: of three data sources, the first and the last compile and the second
lacks its upstream schema; `Load` returns the error of the second and no configuration. -/
theorem Load_all_or_nothing_witness :
    scenarioLoader.Load scenarioEnv (some middleFails_config) (some scenarioSettings)
        = .error (.wrapf "could not load GraphQL schema for data source %s: %w" ["ds-c"]
            (.errorf "no string found for key %q" ["schema-1"]))
      ∧ ∀ out : plan.Configuration,
          scenarioLoader.Load scenarioEnv (some middleFails_config) (some scenarioSettings)
            ≠ .ok out := by
  refine ⟨by decide, ?_⟩
  exact (Load_all_or_nothing scenarioEnv scenarioLoader middleFails_config
    (some scenarioSettings)
    (engineConfigOf
      [staticDataSource "a" "1",
       graphqlDataSource "ds-c" (some (.literal "http://svc/graphql"))
         { Enabled := true, Url := none, UseSSE := none, Protocol := some .WS } "schema-1",
       staticDataSource "c" "3"]
      [])
    rfl).2.1
    (some (graphqlDataSource "ds-c" (some (.literal "http://svc/graphql"))
      { Enabled := true, Url := none, UseSSE := none, Protocol := some .WS } "schema-1"))
    (by simp [engineConfigOf])
    (.wrapf "could not load GraphQL schema for data source %s: %w" ["ds-c"]
      (.errorf "no string found for key %q" ["schema-1"]))
    (by decide)

/-! ## The compiled header map -/

/-- C18 fails on the code. The declared header names `x-a` and `X-A` of one remote-GraphQL
data source are two keys of the declared header map with the same canonical form `X-A`, and
the loop over the map (lines 183-188) appends their values in the order in which the map is
visited, which Go leaves unspecified: visiting `x-a` first, `Load` compiles the values `1, 2`
under `X-A`; visiting `X-A` first, on the same map, it compiles `2, 1`. Two runs on the same
input can thus return configurations that are not equal. -/
theorem header_value_order_follows_map_iteration :
    (collidingHeaders.map Prod.fst).Nodup
      ∧ collidingHeaders.reverse.Perm collidingHeaders
      ∧ scenarioLoader.Load scenarioEnv (some (headersConfig collidingHeaders))
          (some scenarioSettings) = .ok (headersCompiled [("X-A", ["1", "2"])])
      ∧ scenarioLoader.Load scenarioEnv (some (headersConfig collidingHeaders.reverse))
          (some scenarioSettings) = .ok (headersCompiled [("X-A", ["2", "1"])])
      ∧ headersCompiled [("X-A", ["1", "2"])] ≠ headersCompiled [("X-A", ["2", "1"])] :=
  ⟨by decide, List.reverse_perm collidingHeaders, by decide, by decide, by decide⟩

/-! ## Totality -/

theorem Outcome.bind_ne_panic {α β : Type} {x : Outcome α} {f : α → Outcome β}
    (hx : x ≠ .panic) (hf : ∀ a, f a ≠ .panic) : Outcome.bind x f ≠ .panic := by
  cases x with
  | ok a => exact hf a
  | error e => intro h; cases h
  | panic => exact absurd rfl hx

theorem wrapError_ne_panic {α : Type} (format : String) (args : List String) {x : Outcome α}
    (hx : x ≠ .panic) : wrapError format args x ≠ .panic := by
  cases x with
  | ok a => intro h; cases h
  | error e => intro h; cases h
  | panic => exact absurd rfl hx

theorem liftExcept_ne_panic {α : Type} (x : Except GoError α) : liftExcept x ≠ .panic := by
  cases x <;> intro h <;> cases h

theorem deref_ne_panic {α : Type} {x : Option α} (hx : x ≠ none) : deref x ≠ .panic := by
  cases x with
  | none => exact absurd rfl hx
  | some a => intro h; cases h

/-- A loop whose body never panics does not panic. -/
theorem forRange_ne_panic {α σ : Type} (body : σ → α → Outcome σ) (xs : List α)
    (hbody : ∀ x ∈ xs, ∀ s, body s x ≠ .panic) :
    ∀ s, forRange xs s body ≠ .panic := by
  induction xs with
  | nil => intro s h; cases h
  | cons x xs ih =>
    intro s
    rw [forRange_cons]
    exact Outcome.bind_ne_panic (hbody x (List.mem_cons_self _ _) s)
      (ih fun y hy => hbody y (List.mem_cons_of_mem _ hy))

theorem makeAndFill_ne_panic {α β : Type} (f : α → Outcome β) (xs : List α)
    (hf : ∀ x ∈ xs, f x ≠ .panic) : makeAndFill xs f ≠ .panic := by
  unfold makeAndFill
  refine Outcome.bind_ne_panic ?_ (fun out h => by cases h)
  exact forRange_ne_panic _ xs
    (fun x hx acc => Outcome.bind_ne_panic (hf x hx) (fun v h => by cases h)) []

/-- An appending loop over pointers dereferences nothing absent when no element is nil. -/
theorem appendEach_ne_panic {α β : Type} {xs : List (Option α)} (f : α → β)
    (acc : Slice β) (hxs : NoNil xs) : appendEach xs acc f ≠ .panic := by
  unfold appendEach
  refine forRange_ne_panic _ xs ?_ acc
  intro x hx out
  cases hx' : x with
  | none => exact absurd hx' (hxs x hx)
  | some a => intro h; cases h

theorem Load_fields_ne_panic (l : Loader) (ec : nodev1.EngineConfiguration)
    (hfields : ∀ x ∈ ec.FieldConfigurations, ∃ c, x = some c ∧ NoNil c.ArgumentsConfiguration) :
    Load_fields l ec ≠ .panic := by
  rw [Load_fields_eq]
  refine forRange_ne_panic _ _ ?_ Slice.nil
  intro x hx acc
  obtain ⟨c, hc, hargs⟩ := hfields x hx
  subst hc
  refine Outcome.bind_ne_panic ?_ (fun v h => by cases h)
  simp only [deref_some, Outcome.bind_ok]
  refine Outcome.bind_ne_panic ?_ (fun args h => by cases h)
  rw [Load_arguments_eq]
  exact appendEach_ne_panic _ _ hargs

theorem LoadInternedString_ne_panic (l : Loader) (ec : nodev1.EngineConfiguration)
    (str : Option nodev1.InternedString) : l.LoadInternedString (some ec) str ≠ .panic := by
  rw [LoadInternedString_some]
  cases ec.StringStorage.lookup (nodev1.InternedString.GetKey str) <;> intro h <;> cases h

/-- The remote-GraphQL case does not panic when the payload and the execution settings are
present, the string variables of the payload are of a handled kind and no subgraph is nil,
the collaborators panicking only on bad arguments. -/
theorem Load_graphql_ne_panic (env : Collaborators) (l : Loader) (rc : nodev1.RouterConfig)
    (settings : Option RouterEngineConfiguration) (ec : nodev1.EngineConfiguration)
    (ds : nodev1.DataSourceConfiguration) (henv : PanicOnlyOnBadArguments env)
    (hsubgraphs : NoNil rc.Subgraphs) (hpayload : GraphqlPayloadPresent ds)
    (hvars : GraphqlVariablesHandled ds) (hsettings : settings ≠ none) :
    Load_graphql env l rc settings ec ds ≠ .panic := by
  obtain ⟨g, fetch, sub, federation, hg, hfetch, hsub, hfed, hheader, hscalars⟩ := hpayload
  obtain ⟨hf, hs⟩ := hvars g hg
  obtain ⟨hurl, hvalues⟩ := hf fetch hfetch
  have hsuburl := hs sub hsub
  obtain ⟨header, hh⟩ := Load_header_of_present env fetch hheader
    (fun entry he httpHeader hhh value hv =>
      henv.loadStringVariable value (hvalues entry he httpHeader hhh value hv))
  unfold Load_graphql
  simp only [Outcome.bind_eq, Outcome.pure_eq, hg, hfetch, hsub, hfed, hh, deref_some,
    Outcome.bind_ok, callLoadStringVariable_of_returns (henv.loadStringVariable _ hurl),
    callLoadStringVariable_of_returns (henv.loadStringVariable _ hsuburl)]
  refine Outcome.bind_ne_panic ?_ ?_
  · refine makeAndFill_ne_panic _ _ ?_
    intro v hv
    cases hv' : v with
    | none => exact absurd hv' (hscalars v hv)
    | some w => intro h; cases h
  · intro scalars
    refine Outcome.bind_ne_panic (wrapError_ne_panic _ _ (LoadInternedString_ne_panic l ec _)) ?_
    intro schema
    refine Outcome.bind_ne_panic (deref_ne_panic hsettings) ?_
    intro st
    rw [callFetchURLRules_of_returns (henv.fetchURLRules _ _ _ hsubgraphs)]
    simp only [Outcome.bind_ok]
    refine Outcome.bind_ne_panic (wrapError_ne_panic _ _ (liftExcept_ne_panic _)) ?_
    intro forwarded h
    cases h

/-- The publish-subscribe case dereferences nothing absent when no declared event is nil;
it needs no payload. -/
theorem Load_pubsub_ne_panic (env : Collaborators) (ds : nodev1.DataSourceConfiguration)
    (hevents : NoNil ds.GetEvents) : Load_pubsub env ds ≠ .panic := by
  unfold Load_pubsub
  simp only [Outcome.bind_eq, Outcome.pure_eq]
  refine Outcome.bind_ne_panic ?_ (fun events h => by cases h)
  refine makeAndFill_ne_panic _ _ ?_
  intro ev hev
  cases hev' : ev with
  | none => exact absurd hev' (hevents ev hev)
  | some e =>
    unfold Load_event
    simp only [Outcome.bind_eq, Outcome.pure_eq, deref_some, Outcome.bind_ok]
    exact Outcome.bind_ne_panic (wrapError_ne_panic _ _ (liftExcept_ne_panic _))
      (fun t h => by cases h)

/-- The body of the data source loop does not panic on a well-formed data source, when
the execution settings are present, no subgraph is nil, the resolver chain returns and the
collaborators panic only on bad arguments. -/
theorem Load_dataSource_ne_panic (env : Collaborators) (l : Loader) (rc : nodev1.RouterConfig)
    (settings : Option RouterEngineConfiguration) (ec : nodev1.EngineConfiguration)
    (ds : nodev1.DataSourceConfiguration) (acc : Slice plan.DataSourceConfiguration)
    (henv : PanicOnlyOnBadArguments env) (hsubgraphs : NoNil rc.Subgraphs)
    (hwf : WellFormedDataSource l ds) (hsettings : settings ≠ none)
    (hres : l.resolveFactory (some ds) ≠ .panic) :
    Load_dataSource env l rc settings ec acc (some ds) ≠ .panic := by
  unfold Load_dataSource
  cases hr : l.resolveFactory (some ds) with
  | panic => exact absurd hr hres
  | error e => intro h; cases h
  | ok fo =>
    cases fo with
    | none => intro h; cases h
    | some factory =>
      have hclaim : l.claims (some ds) = true := claims_iff.mpr ⟨factory, hr⟩
      simp only [Outcome.bind_eq, Outcome.pure_eq]
      refine Outcome.bind_ne_panic ?_ (fun out h => by cases h)
      unfold Load_entry
      simp only [Outcome.bind_eq, Outcome.pure_eq, deref_some, Outcome.bind_ok]
      refine Outcome.bind_ne_panic ?_ ?_
      · unfold Load_custom
        cases hk : ds.Kind with
        | STATIC =>
          obtain ⟨customStatic, hcs, hdata⟩ := hwf.static hk hclaim
          simp only [Outcome.bind_eq, Outcome.pure_eq, hcs, deref_some, Outcome.bind_ok,
            callLoadStringVariable_of_returns (henv.loadStringVariable _ hdata)]
          intro h
          cases h
        | GRAPHQL =>
          simp only [Outcome.bind_eq, Outcome.pure_eq]
          exact Outcome.bind_ne_panic
            (Load_graphql_ne_panic env l rc settings ec ds henv hsubgraphs
              (hwf.graphql hk hclaim).1 (hwf.graphql hk hclaim).2 hsettings)
            (fun c h => by cases h)
        | PUBSUB =>
          simp only [Outcome.bind_eq, Outcome.pure_eq]
          exact Outcome.bind_ne_panic (Load_pubsub_ne_panic env ds hwf.events)
            (fun c h => by cases h)
        | unrecognized n => intro h; cases h
      · intro custom
        refine Outcome.bind_ne_panic (appendEach_ne_panic _ _ hwf.rootNodes) ?_
        intro _
        refine Outcome.bind_ne_panic (appendEach_ne_panic _ _ hwf.childNodes) ?_
        intro _
        refine Outcome.bind_ne_panic (appendEach_ne_panic _ _ hwf.directives) ?_
        intro _
        refine Outcome.bind_ne_panic (appendEach_ne_panic _ _ hwf.keys) ?_
        intro _
        refine Outcome.bind_ne_panic (appendEach_ne_panic _ _ hwf.provides) ?_
        intro _
        refine Outcome.bind_ne_panic (appendEach_ne_panic _ _ hwf.requires) ?_
        intro _
        refine Outcome.bind_ne_panic (appendEach_ne_panic _ _ hwf.entityInterfaces) ?_
        intro _
        refine Outcome.bind_ne_panic (appendEach_ne_panic _ _ hwf.interfaceObjects) ?_
        intro _ h
        cases h

/-- A loop whose body never returns an error does not return one. -/
theorem forRange_ne_error {α σ : Type} (body : σ → α → Outcome σ) (xs : List α)
    (hbody : ∀ x ∈ xs, ∀ s e, body s x ≠ .error e) :
    ∀ s e, forRange xs s body ≠ .error e := by
  induction xs with
  | nil => intro s e h; cases h
  | cons x xs ih =>
    intro s e
    rw [forRange_cons]
    cases hx : body s x with
    | ok s' => exact ih (fun y hy => hbody y (List.mem_cons_of_mem _ hy)) s' e
    | error e' => exact absurd hx (hbody x (List.mem_cons_self _ _) s e')
    | panic => intro h; cases h

theorem appendEach_ne_error {α β : Type} (xs : List (Option α)) (f : α → β) (acc : Slice β)
    (e : GoError) : appendEach xs acc f ≠ .error e := by
  unfold appendEach
  refine forRange_ne_error _ xs ?_ acc e
  intro x _ out e'
  cases x <;> intro h <;> cases h

theorem Load_fields_ne_error (l : Loader) (ec : nodev1.EngineConfiguration) (e : GoError) :
    Load_fields l ec ≠ .error e := by
  rw [Load_fields_eq]
  refine forRange_ne_error _ _ ?_ Slice.nil e
  intro x _ acc e'
  cases x with
  | none => intro h; cases h
  | some c =>
    simp only [deref_some, Outcome.bind_ok]
    cases hargs : Load_arguments c with
    | ok args => intro h; cases h
    | error e'' =>
      rw [Load_arguments_eq] at hargs
      exact absurd hargs (appendEach_ne_error _ _ _ _)
    | panic => intro h; cases h

theorem forall₂_left {α β : Type} {R : α → β → Prop} {P : α → Prop} {xs : List α}
    {ys : List β} (h : List.Forall₂ R xs ys) (hP : ∀ x y, R x y → P x) : ∀ x ∈ xs, P x := by
  induction h with
  | nil => intro x hx; cases hx
  | cons hxy _ ih =>
    intro x hx
    rcases List.mem_cons.mp hx with h1 | h1
    · rw [h1]; exact hP _ _ hxy
    · exact ih x h1

/-- An appending loop that completes has found no nil element. -/
theorem appendEach_ok_noNil {α β : Type} {xs : List (Option α)} {f : α → β} {out : Slice β}
    (h : appendEach xs Slice.nil f = .ok out) : NoNil xs :=
  forall₂_left (appendEach_ok h).1 (fun x _ ⟨a, ha, _⟩ => by rw [ha]; simp)

/-- The header loop that completes has found no nil header. -/
theorem Load_header_ok_present {env : Collaborators} {fetch : nodev1.FetchConfiguration}
    {header : Header} (h : Load_header env fetch = .ok header) :
    ∀ entry ∈ fetch.Header, entry.2 ≠ none := by
  unfold Load_header at h
  intro entry hentry hnone
  obtain ⟨a, a', hbody⟩ := forRange_ok_body _ fetch.Header [] header h entry hentry
  simp [hnone] at hbody

/-- A remote-GraphQL data source that compiles has its payload and the execution settings
present. -/
theorem Load_graphql_ok_present {env : Collaborators} {l : Loader} {rc : nodev1.RouterConfig}
    {settings : Option RouterEngineConfiguration} {ec : nodev1.EngineConfiguration}
    {ds : nodev1.DataSourceConfiguration} {c : graphql_datasource.Configuration}
    (h : Load_graphql env l rc settings ec ds = .ok c) :
    GraphqlPayloadPresent ds ∧ settings ≠ none := by
  unfold Load_graphql at h
  simp only [Outcome.bind_eq, Outcome.pure_eq] at h
  obtain ⟨g, hg, h⟩ := Outcome.bind_eq_ok h
  obtain ⟨fetch, hfetch, h⟩ := Outcome.bind_eq_ok h
  obtain ⟨header, hheader, h⟩ := Outcome.bind_eq_ok h
  obtain ⟨fetchUrl, _, h⟩ := Outcome.bind_eq_ok h
  obtain ⟨sub, hsub, h⟩ := Outcome.bind_eq_ok h
  obtain ⟨subscriptionUrl, _, h⟩ := Outcome.bind_eq_ok h
  obtain ⟨scalars, hscalars, h⟩ := Outcome.bind_eq_ok h
  obtain ⟨schema, _, h⟩ := Outcome.bind_eq_ok h
  obtain ⟨st, hst, h⟩ := Outcome.bind_eq_ok h
  obtain ⟨rules, _, h⟩ := Outcome.bind_eq_ok h
  obtain ⟨fw, _, h⟩ := Outcome.bind_eq_ok h
  obtain ⟨fed, hfed, h⟩ := Outcome.bind_eq_ok h
  refine ⟨⟨g, fetch, sub, fed, deref_eq_ok hg, deref_eq_ok hfetch, deref_eq_ok hsub,
    deref_eq_ok hfed, Load_header_ok_present hheader, ?_⟩, ?_⟩
  · obtain ⟨vs, _, hall⟩ := makeAndFill_ok hscalars
    refine forall₂_left hall ?_
    intro x v hx hnone
    rw [hnone] at hx
    cases hx
  · rw [deref_eq_ok hst]
    simp

/-- A claimed data source that compiles has every part present that `Load` reads of it. -/
theorem Load_entry_ok_readParts {env : Collaborators} {l : Loader} {rc : nodev1.RouterConfig}
    {settings : Option RouterEngineConfiguration} {ec : nodev1.EngineConfiguration}
    {factory : plan.PlannerFactory} {ds : nodev1.DataSourceConfiguration}
    {o : plan.DataSourceConfiguration}
    (h : Load_entry env l rc settings ec factory (some ds) = .ok o) : ReadParts settings ds := by
  obtain ⟨h1, h2, h3, h4, h5, h6, h7, h8⟩ := Load_entry_ok_lists h
  obtain ⟨ds', hds', _, _, hcustom⟩ := Load_entry_ok h
  cases hds'
  refine
    { rootNodes := appendEach_ok_noNil h1
      childNodes := appendEach_ok_noNil h2
      directives := appendEach_ok_noNil h3
      keys := appendEach_ok_noNil h4
      provides := appendEach_ok_noNil h5
      requires := appendEach_ok_noNil h6
      entityInterfaces := appendEach_ok_noNil h7
      interfaceObjects := appendEach_ok_noNil h8
      static := ?_
      graphql := ?_
      pubsub := ?_ }
  · intro hk hnone
    unfold Load_custom at hcustom
    rw [hk] at hcustom
    simp [hnone] at hcustom
  · intro hk
    obtain ⟨c, _, hc⟩ := Load_custom_graphql_ok hk hcustom
    exact Load_graphql_ok_present hc
  · intro hk
    obtain ⟨c, _, hc⟩ := Load_custom_pubsub_ok hk hcustom
    unfold Load_pubsub at hc
    simp only [Outcome.bind_eq, Outcome.pure_eq] at hc
    obtain ⟨events, hev, _⟩ := Outcome.bind_eq_ok hc
    obtain ⟨vs, _, hall⟩ := makeAndFill_ok hev
    refine forall₂_left hall ?_
    intro x v hx hnone
    rw [hnone] at hx
    cases hx

/-- C21, as amended: under the well-formedness precondition (engine configuration and
execution settings present; no nil list element, the subgraph list included; a static payload
for every claimed `STATIC` data source; a remote-GraphQL payload with its fetch, subscription
and federation blocks for every claimed `GRAPHQL` data source; every string variable of a
claimed data source of a kind the string-variable loader handles), with a resolver chain that
returns, and with collaborators that panic only where they are known to (the string-variable
loader on a variable of an unhandled kind, `FetchURLRules` on a nil subgraph), `Load` returns a
configuration or an error: it does not panic. A `PUBSUB` data source without events payload
compiles to an allocated, empty event list, and an absent upstream-schema reference is looked
up under the empty key. The precondition is sufficient, not necessary;
what is necessary is this: `Load` panics without an engine configuration; when it returns,
no field configuration, argument or type configuration is nil; and when it returns a
configuration, every claimed data source is present with every part that `Load` reads of
it. -/
theorem Load_total (env : Collaborators) (l : Loader) (rc : nodev1.RouterConfig)
    (settings : Option RouterEngineConfiguration) (ec : nodev1.EngineConfiguration) :
    (PanicOnlyOnBadArguments env → WellFormed l rc settings ec →
        (∀ ds, some ds ∈ ec.DatasourceConfigurations → l.resolveFactory (some ds) ≠ .panic) →
        (∃ out, l.Load env (some rc) settings = .ok out)
          ∨ ∃ e, l.Load env (some rc) settings = .error e)
    ∧ (∀ ds : nodev1.DataSourceConfiguration, ds.CustomEvents = none →
        Load_pubsub env ds = .ok { Events := Slice.mk [] })
    ∧ ((∀ s, ec.StringStorage.lookup "" = some s →
          l.LoadInternedString (some ec) none = .ok s)
        ∧ (ec.StringStorage.lookup "" = none →
          l.LoadInternedString (some ec) none
            = .error (.errorf "no string found for key %q" [""])))
    ∧ (rc.EngineConfig = none → l.Load env (some rc) settings = .panic)
    ∧ (rc.EngineConfig = some ec → l.Load env (some rc) settings ≠ .panic →
        (∀ x ∈ ec.FieldConfigurations, ∃ c, x = some c ∧ NoNil c.ArgumentsConfiguration)
          ∧ NoNil ec.TypeConfigurations)
    ∧ (∀ out : plan.Configuration, rc.EngineConfig = some ec →
        l.Load env (some rc) settings = .ok out →
        ∀ in_ ∈ ec.DatasourceConfigurations, l.claims in_ = true →
          ∃ ds, in_ = some ds ∧ ReadParts settings ds) := by
  refine ⟨?_, ?_, ⟨?_, ?_⟩, ?_, ?_, ?_⟩
  · intro henv hwf hres
    have hne : l.Load env (some rc) settings ≠ .panic := by
      rw [Load_eq env l rc settings ec hwf.engine]
      refine Outcome.bind_ne_panic (Load_fields_ne_panic l ec hwf.fields) ?_
      intro fields
      refine Outcome.bind_ne_panic (appendEach_ne_panic _ _ hwf.types) ?_
      intro types
      refine Outcome.bind_ne_panic ?_ (fun dataSources h => by cases h)
      refine forRange_ne_panic _ _ ?_ Slice.nil
      intro in_ hin acc
      obtain ⟨ds, hds, hwfds⟩ := hwf.dataSources in_ hin
      subst hds
      exact Load_dataSource_ne_panic env l rc settings ec ds acc henv hwf.subgraphs hwfds
        hwf.executionSettings (hres ds hin)
    cases hload : l.Load env (some rc) settings with
    | ok out => exact Or.inl ⟨out, rfl⟩
    | error e => exact Or.inr ⟨e, rfl⟩
    | panic => exact absurd hload hne
  · intro ds hnone
    simp [Load_pubsub, nodev1.DataSourceConfiguration.GetEvents, hnone, makeAndFill]
  · intro s hs
    rw [LoadInternedString_some]
    simp [nodev1.InternedString.GetKey, hs]
  · intro hs
    rw [LoadInternedString_some]
    simp [nodev1.InternedString.GetKey, hs]
  · intro hnone
    simp [Loader.Load, hnone]
  · intro hec hne
    rw [Load_eq env l rc settings ec hec] at hne
    cases hf : Load_fields l ec with
    | panic => rw [hf] at hne; exact absurd rfl hne
    | error e => exact absurd hf (Load_fields_ne_error l ec e)
    | ok fields =>
      rw [hf, Outcome.bind_ok] at hne
      refine ⟨?_, ?_⟩
      · refine forall₂_left (Load_fields_ok hf) ?_
        rintro x v ⟨c, hc, _, _, hargs⟩
        exact ⟨c, hc, forall₂_left hargs (fun a _ ⟨b, hb, _⟩ => by rw [hb]; simp)⟩
      · cases ht : Load_types ec with
        | panic => rw [ht] at hne; exact absurd rfl hne
        | error e => exact absurd ht (appendEach_ne_error _ _ _ e)
        | ok types => exact appendEach_ok_noNil ht
  · intro out hec hload in_ hin hclaim
    obtain ⟨entries, _, _, hall⟩ :=
      dataSources_loop_ok ec.DatasourceConfigurations Slice.nil out.DataSources
        (Load_ok_parts hec hload).2.2.1
    have hmem : in_ ∈ ec.DatasourceConfigurations.filter l.claims :=
      List.mem_filter.mpr ⟨hin, hclaim⟩
    have hP : ∀ x ∈ ec.DatasourceConfigurations.filter l.claims,
        ∃ ds, x = some ds ∧ ReadParts settings ds := by
      refine forall₂_left hall ?_
      rintro x o ⟨factory, _, hentry⟩
      obtain ⟨ds, hds, _⟩ := Load_entry_ok hentry
      subst hds
      exact ⟨ds, rfl, Load_entry_ok_readParts hentry⟩
    exact hP in_ hmem

theorem noNil_nil {α : Type} : NoNil ([] : List (Option α)) := by
  intro x hx
  cases hx

/-- A data source without nodes, directives, federation declarations and events payload is
well formed when its kind-specific payload conditions hold. -/
theorem wellFormed_bare (l : Loader) (ds : nodev1.DataSourceConfiguration)
    (h1 : ds.RootNodes = []) (h2 : ds.ChildNodes = []) (h3 : ds.Directives = [])
    (h4 : ds.Keys = []) (h5 : ds.Provides = []) (h6 : ds.Requires = [])
    (h7 : ds.EntityInterfaces = []) (h8 : ds.InterfaceObjects = [])
    (h9 : ds.CustomEvents = none)
    (hstatic : ds.Kind = .STATIC →
      ∃ customStatic, ds.CustomStatic = some customStatic
        ∧ nodev1.ConfigurationVariable.Handled customStatic.Data = true)
    (hgraphql : ds.Kind = .GRAPHQL → GraphqlPayloadPresent ds ∧ GraphqlVariablesHandled ds) :
    WellFormedDataSource l ds where
  rootNodes := by rw [h1]; exact noNil_nil
  childNodes := by rw [h2]; exact noNil_nil
  directives := by rw [h3]; exact noNil_nil
  keys := by rw [h4]; exact noNil_nil
  provides := by rw [h5]; exact noNil_nil
  requires := by rw [h6]; exact noNil_nil
  entityInterfaces := by rw [h7]; exact noNil_nil
  interfaceObjects := by rw [h8]; exact noNil_nil
  events := by
    unfold nodev1.DataSourceConfiguration.GetEvents
    rw [h9]
    exact noNil_nil
  static := fun hk _ => hstatic hk
  graphql := fun hk _ => hgraphql hk

/-- A nil subgraph is outside the precondition: with the subgraph list `[nil]`, the
remote-GraphQL data source of Scenario A makes `Load` panic in `FetchURLRules`. -/
theorem Load_panics_on_nil_subgraph :
    scenarioLoader.Load scenarioEnv (some { scenarioA_config with Subgraphs := [none] })
      (some scenarioSettings) = .panic := by
  decide

/-- The collaborators of the scenarios panic only on bad arguments. -/
theorem scenarioEnv_panicOnlyOnBadArguments : PanicOnlyOnBadArguments scenarioEnv where
  loadStringVariable := by
    intro v hv
    simp [scenarioEnv, hv]
  fetchURLRules := by
    intro rules subgraphs url hsubgraphs
    show meetsNilSubgraph subgraphs url = false
    induction subgraphs with
    | nil => rfl
    | cons x xs ih =>
      cases x with
      | none => exact absurd rfl (hsubgraphs none (List.mem_cons_self _ _))
      | some subgraph =>
        unfold meetsNilSubgraph
        split
        · rfl
        · exact ih (fun y hy => hsubgraphs y (List.mem_cons_of_mem _ hy))

/-- Witness for C21 as amended: a static data source, a remote-GraphQL data source without
upstream-schema reference and a publish-subscribe data source without payload form a
well-formed input; `Load` returns a configuration, with the schema found under the empty key
and an empty event list. -/
theorem Load_total_witness :
    scenarioLoader.Load scenarioEnv (some wellFormed_config) (some scenarioSettings)
        = .ok wellFormed_compiled
      ∧ ((∃ out, scenarioLoader.Load scenarioEnv (some wellFormed_config)
            (some scenarioSettings) = .ok out)
          ∨ ∃ e, scenarioLoader.Load scenarioEnv (some wellFormed_config)
            (some scenarioSettings) = .error e) := by
  refine ⟨by decide, ?_⟩
  refine (Load_total scenarioEnv scenarioLoader wellFormed_config (some scenarioSettings)
    (engineConfigOf
      [staticDataSource "a" "1",
       { bareDataSource "g" .GRAPHQL with
         CustomGraphql := some
           { Fetch := some
               { Url := some (.literal "http://svc/graphql"), Method := ⟨1⟩, Header := [] }
             Subscription := some
               { Enabled := true, Url := none, UseSSE := none, Protocol := none }
             Federation := some { Enabled := false, ServiceSdl := "" }
             UpstreamSchema := none
             CustomScalarTypeFields := [] } },
       bareDataSource "p" .PUBSUB]
      [("", "type Query")])).1 scenarioEnv_panicOnlyOnBadArguments ?_ ?_
  · refine
      { engine := rfl
        executionSettings := by simp
        subgraphs := noNil_nil
        fields := by intro x hx; cases hx
        types := noNil_nil
        dataSources := ?_ }
    intro x hx
    simp only [engineConfigOf, List.map_cons, List.map_nil, List.mem_cons, List.mem_singleton,
      List.not_mem_nil, or_false] at hx
    rcases hx with hx | hx | hx
    · exact ⟨_, hx, wellFormed_bare _ _ rfl rfl rfl rfl rfl rfl rfl rfl rfl
        (fun _ => ⟨_, rfl, rfl⟩) (fun hk => by cases hk)⟩
    · refine ⟨_, hx, wellFormed_bare _ _ rfl rfl rfl rfl rfl rfl rfl rfl rfl
        (fun hk => by cases hk)
        (fun _ => ⟨⟨_, _, _, _, rfl, rfl, rfl, rfl, by simp, noNil_nil⟩, ?_⟩)⟩
      intro g hg
      cases hg
      refine ⟨?_, ?_⟩
      · intro fetch hfetch
        cases hfetch
        exact ⟨rfl, by simp⟩
      · intro sub hsub
        cases hsub
        rfl
    · exact ⟨_, hx, wellFormed_bare _ _ rfl rfl rfl rfl rfl rfl rfl rfl rfl
        (fun hk => by cases hk) (fun hk => by cases hk)⟩
  · intro ds hin
    simp only [engineConfigOf, List.map_cons, List.map_nil, List.mem_cons, List.mem_singleton,
      List.not_mem_nil, or_false, Option.some.injEq] at hin
    rcases hin with hin | hin | hin <;> subst hin <;> decide

/-- Counterexample to C21 as stated, in both directions. `Load` returns a configuration on
inputs outside the precondition: without execution settings it compiles a source
configuration that has no data source; and with a resolver chain that leaves them unclaimed it
returns normally on a nil data source and on data sources without payload. And the
precondition as stated does not make `Load` return: a claimed static data source that
carries its static payload, whose data variable is of a kind the string-variable loader
does not handle, makes `Load` panic in the loader, with nothing absent and no nil list
element. -/
theorem Load_returns_outside_precondition :
    (∀ ec, ¬ WellFormed scenarioLoader fieldsOnly_config none ec)
      ∧ scenarioLoader.Load scenarioEnv (some fieldsOnly_config) none = .ok fieldsOnly_compiled
      ∧ (∀ ec, ¬ WellFormed overrideOnlyLoader malformed_config (some scenarioSettings) ec)
      ∧ overrideOnlyLoader.Load scenarioEnv (some malformed_config) (some scenarioSettings)
        = .ok { DefaultFlushIntervalMillis := 500, DataSources := .nil, Fields := .nil,
                Types := .nil, IncludeInfo := true }
      ∧ unhandledVariable_dataSource.CustomStatic = some { Data := some (.unhandled 9) }
      ∧ scenarioLoader.claims (some unhandledVariable_dataSource) = true
      ∧ scenarioLoader.Load scenarioEnv (some (routerConfigOf [unhandledVariable_dataSource] []))
          (some scenarioSettings) = .panic := by
  refine ⟨fun ec h => h.executionSettings rfl, by decide, ?_, by decide, rfl, by decide,
    by decide⟩
  intro ec h
  have hec : some
      ({ DefaultFlushInterval := 500
         DatasourceConfigurations :=
           [none, some (bareDataSource "g" .GRAPHQL), some (bareDataSource "s" .STATIC)]
         FieldConfigurations := []
         TypeConfigurations := []
         StringStorage := [] } : nodev1.EngineConfiguration) = some ec := h.engine
  cases hec
  obtain ⟨ds, hds, _⟩ := h.dataSources none (List.mem_cons_self _ _)
  cases hds

end Cosmo
